import Mathlib

/-!
# LeRobot service: dispatcher, client proxy and injected double

A shallow embedding of `services/lerobot` (`lerobot.go`, `server.go`, `client.go`) and of
`testutils/inject/lerobot_service.go`.

Conventions of the embedding

* A Go function returning `(T, error)` returns a pair `T × Option GoError`; a nil error is `none`.
* A Go pointer `*T` is `Option T`; reading a field through a nil pointer, or calling a method on a
  nil interface value, is the outcome `Outcome.panicked`.
* `int32` values are integers that are only copied, never computed with; `float32` values are
  their bit patterns, also only copied.
* A function that calls out (to the collection, to an instance, to the remote stub) returns the
  list of the calls it made, in order, next to its outcome.
-/

set_option linter.dupNamespace false

namespace LeRobot

/-! ## Go values -/

/-- A Go `error` value that is not nil, identified by its text (`err.Error()`). -/
structure GoError where
  msg : String
deriving DecidableEq, Repr

/-- A `float32`, as its IEEE-754 bit pattern. The code only copies these values. -/
structure Float32 where
  bits : Nat
deriving DecidableEq, Repr

/-- The zero value of `float32`. -/
def Float32.zero : Float32 := ⟨0⟩

/-- A `context.Context`: whether it has been cancelled, and the spans opened on it. -/
structure Context where
  cancelled : Bool
  spans : List String
deriving DecidableEq, Repr

/-- The context `context.Background()`. -/
def Context.Background : Context := ⟨false, []⟩

/-- The context returned by `trace.StartSpan(ctx, name)`: `ctx` with one more span on it. -/
def trace.StartSpan (ctx : Context) (name : String) : Context :=
  { ctx with spans := name :: ctx.spans }

/-- A value held in an open map: the closed sum that `structpb.Value` and the `interface{}`
values of `(*structpb.Struct).AsMap` range over. -/
inductive Value where
  | null : Value
  | bool : Bool → Value
  | number : Nat → Value
  | str : String → Value
  | list : List Value → Value
  | struct : List (String × Value) → Value

/-- A Go `map[string]interface{}`: `none` is the nil map, `some kvs` a map with entries `kvs`. -/
abbrev GoMap := Option (List (String × Value))

/-- The nil map, the value of `var extra map[string]interface{}`. -/
def GoMap.nil : GoMap := none

/-- The Go expression `len(m)`; it is 0 for the nil map. -/
def GoMap.len (m : GoMap) : Nat :=
  match m with
  | none => 0
  | some kvs => kvs.length

/-- The Go read `v, ok := m[k]`, `none` when `ok` is false; reading the nil map is allowed and
finds nothing. -/
def GoMap.get (m : GoMap) (k : String) : Option Value :=
  match m with
  | none => none
  | some kvs => (kvs.find? (fun kv => kv.1 == k)).map (fun kv => kv.2)

/-- A `structpb.Struct` message (the wire open-map form), by its fields. -/
structure Struct where
  Fields : List (String × Value)

/-- The method `(*structpb.Struct).AsMap` on a non-nil receiver: a fresh, non-nil map holding
the fields. -/
def Struct.AsMap (x : Struct) : GoMap := some x.Fields

/-- What a Go call does: it returns its results, or it panics. -/
inductive Outcome (α : Type) where
  | returned : α → Option GoError → Outcome α
  | panicked : Outcome α

/-- A run of a function that calls out: the calls made, in order, and the outcome. -/
structure Run (κ α : Type) where
  trace : List κ
  outcome : Outcome α

/-! ## `lerobot.go`: the capability contract and its parameter shapes -/

/-- The Go type `RecordingSource`, declared `int32`. -/
structure RecordingSource where
  val : Int
deriving DecidableEq, Repr

/-- The constant `RecordingSourceUnspecified`. -/
def RecordingSourceUnspecified : RecordingSource := ⟨0⟩

/-- The constant `RecordingSourceTeleoperation`. -/
def RecordingSourceTeleoperation : RecordingSource := ⟨1⟩

/-- The constant `RecordingSourcePolicy`. -/
def RecordingSourcePolicy : RecordingSource := ⟨2⟩

/-- The struct `RecordEpisodeRequest`. -/
structure RecordEpisodeRequest where
  DatasetName : String
  EpisodeIndex : Int
  Source : RecordingSource
  WarmupTimeS : Int
  EpisodeTimeS : Int
  ResetTimeS : Int
  Fps : Int
  Tags : List String
  Extra : GoMap

/-- The struct `RecordEpisodeResponse`. -/
structure RecordEpisodeResponse where
  NumFrames : Int
  ActualDurationS : Float32
  EpisodePath : String
deriving DecidableEq, Repr

/-- The struct `ReplayEpisodeRequest`. -/
structure ReplayEpisodeRequest where
  DatasetName : String
  EpisodeIndex : Int
  Fps : Int
  Extra : GoMap

/-- The struct `ReplayEpisodeResponse`. -/
structure ReplayEpisodeResponse where
  NumFramesReplayed : Int
  DurationS : Float32
deriving DecidableEq, Repr

/-- The struct `StartTeleoperationRequest`. -/
structure StartTeleoperationRequest where
  TeleopDeviceType : String
  Fps : Int
  DisplayCameras : Bool
  Extra : GoMap

/-- The struct `LoadPolicyRequest`. -/
structure LoadPolicyRequest where
  PolicyRepoID : String
  Extra : GoMap

/-- The struct `LoadPolicyResponse`. -/
structure LoadPolicyResponse where
  PolicyID : String
  PolicyType : String
deriving DecidableEq, Repr

/-- The struct `RunPolicyEpisodeRequest`. -/
structure RunPolicyEpisodeRequest where
  PolicyID : String
  MaxSteps : Int
  Fps : Int
  RecordToDataset : Bool
  DatasetName : String
  EpisodeIndex : Int
  Extra : GoMap

/-- The struct `RunPolicyEpisodeResponse`. -/
structure RunPolicyEpisodeResponse where
  NumSteps : Int
  DurationS : Float32
  Success : Bool
  EpisodePath : String
deriving DecidableEq, Repr

/-- The interface `Service`: the eight operations of the contract, and `DoCommand` and `Close`
of the embedded `resource.Resource`. An instance is taken at the moment of one call, so each
method is a function of its arguments. -/
structure Service where
  StartRecording : Context → String → GoMap → String × Option GoError
  StopRecording : Context → String → GoMap → Float32 × Option GoError
  RecordEpisode : Context → RecordEpisodeRequest → Option RecordEpisodeResponse × Option GoError
  ReplayEpisode : Context → ReplayEpisodeRequest → Option ReplayEpisodeResponse × Option GoError
  StartTeleoperation : Context → StartTeleoperationRequest → String × Option GoError
  StopTeleoperation : Context → String → GoMap → Float32 × Option GoError
  LoadPolicy : Context → LoadPolicyRequest → Option LoadPolicyResponse × Option GoError
  RunPolicyEpisode :
    Context → RunPolicyEpisodeRequest → Option RunPolicyEpisodeResponse × Option GoError
  DoCommand : Context → GoMap → GoMap × Option GoError
  Close : Context → Option GoError

/-! ## The wire messages (`pb`, `commonpb`), by the fields the package reads and writes -/

/-- The wire enum `pb.RecordingSource`, an `int32`. -/
structure pb.RecordingSource where
  val : Int
deriving DecidableEq, Repr

/-- The message `pb.StartRecordingRequest`. -/
structure pb.StartRecordingRequest where
  Name : String
  DatasetName : String
  Extra : Option Struct

/-- The message `pb.StartRecordingResponse`. -/
structure pb.StartRecordingResponse where
  SessionId : String
deriving DecidableEq, Repr

/-- The message `pb.StopRecordingRequest`. -/
structure pb.StopRecordingRequest where
  Name : String
  SessionId : String
  Extra : Option Struct

/-- The message `pb.StopRecordingResponse`. -/
structure pb.StopRecordingResponse where
  DurationS : Float32
deriving DecidableEq, Repr

/-- The message `pb.RecordEpisodeRequest`. -/
structure pb.RecordEpisodeRequest where
  Name : String
  DatasetName : String
  EpisodeIndex : Int
  Source : pb.RecordingSource
  WarmupTimeS : Int
  EpisodeTimeS : Int
  ResetTimeS : Int
  Fps : Int
  Tags : List String
  Extra : Option Struct

/-- The message `pb.RecordEpisodeResponse`. -/
structure pb.RecordEpisodeResponse where
  NumFrames : Int
  ActualDurationS : Float32
  EpisodePath : String
deriving DecidableEq, Repr

/-- The message `pb.ReplayEpisodeRequest`. -/
structure pb.ReplayEpisodeRequest where
  Name : String
  DatasetName : String
  EpisodeIndex : Int
  Fps : Int
  Extra : Option Struct

/-- The message `pb.ReplayEpisodeResponse`. -/
structure pb.ReplayEpisodeResponse where
  NumFramesReplayed : Int
  DurationS : Float32
deriving DecidableEq, Repr

/-- The message `pb.StartTeleoperationRequest`. -/
structure pb.StartTeleoperationRequest where
  Name : String
  TeleopDeviceType : String
  Fps : Int
  DisplayCameras : Bool
  Extra : Option Struct

/-- The message `pb.StartTeleoperationResponse`. -/
structure pb.StartTeleoperationResponse where
  SessionId : String
deriving DecidableEq, Repr

/-- The message `pb.StopTeleoperationRequest`. -/
structure pb.StopTeleoperationRequest where
  Name : String
  SessionId : String
  Extra : Option Struct

/-- The message `pb.StopTeleoperationResponse`. -/
structure pb.StopTeleoperationResponse where
  DurationS : Float32
deriving DecidableEq, Repr

/-- The message `pb.LoadPolicyRequest`. -/
structure pb.LoadPolicyRequest where
  Name : String
  PolicyRepoId : String
  Extra : Option Struct

/-- The message `pb.LoadPolicyResponse`. -/
structure pb.LoadPolicyResponse where
  PolicyId : String
  PolicyType : String
deriving DecidableEq, Repr

/-- The message `pb.RunPolicyEpisodeRequest`. -/
structure pb.RunPolicyEpisodeRequest where
  Name : String
  PolicyId : String
  MaxSteps : Int
  Fps : Int
  RecordToDataset : Bool
  DatasetName : String
  EpisodeIndex : Int
  Extra : Option Struct

/-- The message `pb.RunPolicyEpisodeResponse`. -/
structure pb.RunPolicyEpisodeResponse where
  NumSteps : Int
  DurationS : Float32
  Success : Bool
  EpisodePath : String
deriving DecidableEq, Repr

/-- The message `commonpb.DoCommandRequest`. -/
structure commonpb.DoCommandRequest where
  Name : String
  Command : Option Struct

/-- The message `commonpb.DoCommandResponse`. -/
structure commonpb.DoCommandResponse where
  Result : Option Struct

/-! ## `server.go`: the dispatcher -/

/-- A call of one method of an instance, with the arguments it was given. -/
inductive Call where
  | StartRecording : Context → String → GoMap → Call
  | StopRecording : Context → String → GoMap → Call
  | RecordEpisode : Context → RecordEpisodeRequest → Call
  | ReplayEpisode : Context → ReplayEpisodeRequest → Call
  | StartTeleoperation : Context → StartTeleoperationRequest → Call
  | StopTeleoperation : Context → String → GoMap → Call
  | LoadPolicy : Context → LoadPolicyRequest → Call
  | RunPolicyEpisode : Context → RunPolicyEpisodeRequest → Call
  | DoCommand : Context → GoMap → Call

/-- What a dispatcher operation does to the outside: a lookup `coll.Resource(name)`, or a call
of a method of an instance. -/
inductive Event where
  | resolve : String → Event
  | invoke : Service → Call → Event

/-- Whether an event is a call of a method of an instance. -/
def Event.isInvoke : Event → Bool
  | .resolve _ => false
  | .invoke _ _ => true

/-- The interface `resource.APIResourceGetter[Service]`: its one method `Resource(name)`, which
returns an instance and an error. -/
structure resource.APIResourceGetter where
  Resource : String → Option Service × Option GoError

/-- The struct `serviceServer`. -/
structure serviceServer where
  coll : resource.APIResourceGetter

/-- The constructor `NewRPCServiceServer`. -/
def NewRPCServiceServer (coll : resource.APIResourceGetter) : serviceServer :=
  { coll := coll }

/-- The method `serviceServer.StartRecording`. -/
def serviceServer.StartRecording (s : serviceServer) (ctx : Context)
    (req : pb.StartRecordingRequest) : Run Event (Option pb.StartRecordingResponse) :=
  match s.coll.Resource req.Name with
  | (_, some err) => ⟨[.resolve req.Name], .returned none (some err)⟩
  | (none, none) => ⟨[.resolve req.Name], .panicked⟩
  | (some svc, none) =>
    let extra : GoMap :=
      match req.Extra with
      | some e => e.AsMap
      | none => GoMap.nil
    let call := Event.invoke svc (.StartRecording ctx req.DatasetName extra)
    match svc.StartRecording ctx req.DatasetName extra with
    | (_, some err) => ⟨[.resolve req.Name, call], .returned none (some err)⟩
    | (sessionID, none) =>
      ⟨[.resolve req.Name, call], .returned (some { SessionId := sessionID }) none⟩

/-- The method `serviceServer.StopRecording`. -/
def serviceServer.StopRecording (s : serviceServer) (ctx : Context)
    (req : pb.StopRecordingRequest) : Run Event (Option pb.StopRecordingResponse) :=
  match s.coll.Resource req.Name with
  | (_, some err) => ⟨[.resolve req.Name], .returned none (some err)⟩
  | (none, none) => ⟨[.resolve req.Name], .panicked⟩
  | (some svc, none) =>
    let extra : GoMap :=
      match req.Extra with
      | some e => e.AsMap
      | none => GoMap.nil
    let call := Event.invoke svc (.StopRecording ctx req.SessionId extra)
    match svc.StopRecording ctx req.SessionId extra with
    | (_, some err) => ⟨[.resolve req.Name, call], .returned none (some err)⟩
    | (durationS, none) =>
      ⟨[.resolve req.Name, call], .returned (some { DurationS := durationS }) none⟩

/-- The method `serviceServer.RecordEpisode`. -/
def serviceServer.RecordEpisode (s : serviceServer) (ctx : Context)
    (req : pb.RecordEpisodeRequest) : Run Event (Option pb.RecordEpisodeResponse) :=
  match s.coll.Resource req.Name with
  | (_, some err) => ⟨[.resolve req.Name], .returned none (some err)⟩
  | (none, none) => ⟨[.resolve req.Name], .panicked⟩
  | (some svc, none) =>
    let extra : GoMap :=
      match req.Extra with
      | some e => e.AsMap
      | none => GoMap.nil
    let arg : RecordEpisodeRequest :=
      { DatasetName := req.DatasetName
        EpisodeIndex := req.EpisodeIndex
        Source := ⟨req.Source.val⟩
        WarmupTimeS := req.WarmupTimeS
        EpisodeTimeS := req.EpisodeTimeS
        ResetTimeS := req.ResetTimeS
        Fps := req.Fps
        Tags := req.Tags
        Extra := extra }
    let call := Event.invoke svc (.RecordEpisode ctx arg)
    match svc.RecordEpisode ctx arg with
    | (_, some err) => ⟨[.resolve req.Name, call], .returned none (some err)⟩
    | (none, none) => ⟨[.resolve req.Name, call], .panicked⟩
    | (some resp, none) =>
      ⟨[.resolve req.Name, call],
        .returned (some
          { NumFrames := resp.NumFrames
            ActualDurationS := resp.ActualDurationS
            EpisodePath := resp.EpisodePath }) none⟩

/-- The method `serviceServer.ReplayEpisode`. -/
def serviceServer.ReplayEpisode (s : serviceServer) (ctx : Context)
    (req : pb.ReplayEpisodeRequest) : Run Event (Option pb.ReplayEpisodeResponse) :=
  match s.coll.Resource req.Name with
  | (_, some err) => ⟨[.resolve req.Name], .returned none (some err)⟩
  | (none, none) => ⟨[.resolve req.Name], .panicked⟩
  | (some svc, none) =>
    let extra : GoMap :=
      match req.Extra with
      | some e => e.AsMap
      | none => GoMap.nil
    let arg : ReplayEpisodeRequest :=
      { DatasetName := req.DatasetName
        EpisodeIndex := req.EpisodeIndex
        Fps := req.Fps
        Extra := extra }
    let call := Event.invoke svc (.ReplayEpisode ctx arg)
    match svc.ReplayEpisode ctx arg with
    | (_, some err) => ⟨[.resolve req.Name, call], .returned none (some err)⟩
    | (none, none) => ⟨[.resolve req.Name, call], .panicked⟩
    | (some resp, none) =>
      ⟨[.resolve req.Name, call],
        .returned (some
          { NumFramesReplayed := resp.NumFramesReplayed
            DurationS := resp.DurationS }) none⟩

/-- The method `serviceServer.StartTeleoperation`. The struct literal it builds names
`TeleopDeviceType`, `Fps` and `Extra`; `DisplayCameras` keeps its zero value `false`. -/
def serviceServer.StartTeleoperation (s : serviceServer) (ctx : Context)
    (req : pb.StartTeleoperationRequest) : Run Event (Option pb.StartTeleoperationResponse) :=
  match s.coll.Resource req.Name with
  | (_, some err) => ⟨[.resolve req.Name], .returned none (some err)⟩
  | (none, none) => ⟨[.resolve req.Name], .panicked⟩
  | (some svc, none) =>
    let extra : GoMap :=
      match req.Extra with
      | some e => e.AsMap
      | none => GoMap.nil
    let arg : StartTeleoperationRequest :=
      { TeleopDeviceType := req.TeleopDeviceType
        Fps := req.Fps
        DisplayCameras := false
        Extra := extra }
    let call := Event.invoke svc (.StartTeleoperation ctx arg)
    match svc.StartTeleoperation ctx arg with
    | (_, some err) => ⟨[.resolve req.Name, call], .returned none (some err)⟩
    | (sessionID, none) =>
      ⟨[.resolve req.Name, call], .returned (some { SessionId := sessionID }) none⟩

/-- The method `serviceServer.StopTeleoperation`. -/
def serviceServer.StopTeleoperation (s : serviceServer) (ctx : Context)
    (req : pb.StopTeleoperationRequest) : Run Event (Option pb.StopTeleoperationResponse) :=
  match s.coll.Resource req.Name with
  | (_, some err) => ⟨[.resolve req.Name], .returned none (some err)⟩
  | (none, none) => ⟨[.resolve req.Name], .panicked⟩
  | (some svc, none) =>
    let extra : GoMap :=
      match req.Extra with
      | some e => e.AsMap
      | none => GoMap.nil
    let call := Event.invoke svc (.StopTeleoperation ctx req.SessionId extra)
    match svc.StopTeleoperation ctx req.SessionId extra with
    | (_, some err) => ⟨[.resolve req.Name, call], .returned none (some err)⟩
    | (durationS, none) =>
      ⟨[.resolve req.Name, call], .returned (some { DurationS := durationS }) none⟩

/-- The method `serviceServer.LoadPolicy`. -/
def serviceServer.LoadPolicy (s : serviceServer) (ctx : Context)
    (req : pb.LoadPolicyRequest) : Run Event (Option pb.LoadPolicyResponse) :=
  match s.coll.Resource req.Name with
  | (_, some err) => ⟨[.resolve req.Name], .returned none (some err)⟩
  | (none, none) => ⟨[.resolve req.Name], .panicked⟩
  | (some svc, none) =>
    let extra : GoMap :=
      match req.Extra with
      | some e => e.AsMap
      | none => GoMap.nil
    let arg : LoadPolicyRequest :=
      { PolicyRepoID := req.PolicyRepoId
        Extra := extra }
    let call := Event.invoke svc (.LoadPolicy ctx arg)
    match svc.LoadPolicy ctx arg with
    | (_, some err) => ⟨[.resolve req.Name, call], .returned none (some err)⟩
    | (none, none) => ⟨[.resolve req.Name, call], .panicked⟩
    | (some resp, none) =>
      ⟨[.resolve req.Name, call],
        .returned (some
          { PolicyId := resp.PolicyID
            PolicyType := resp.PolicyType }) none⟩

/-- The method `serviceServer.RunPolicyEpisode`. The response literal it builds names
`NumSteps`, `DurationS` and `EpisodePath`; `Success` keeps its zero value `false`. -/
def serviceServer.RunPolicyEpisode (s : serviceServer) (ctx : Context)
    (req : pb.RunPolicyEpisodeRequest) : Run Event (Option pb.RunPolicyEpisodeResponse) :=
  match s.coll.Resource req.Name with
  | (_, some err) => ⟨[.resolve req.Name], .returned none (some err)⟩
  | (none, none) => ⟨[.resolve req.Name], .panicked⟩
  | (some svc, none) =>
    let extra : GoMap :=
      match req.Extra with
      | some e => e.AsMap
      | none => GoMap.nil
    let arg : RunPolicyEpisodeRequest :=
      { PolicyID := req.PolicyId
        MaxSteps := req.MaxSteps
        Fps := req.Fps
        RecordToDataset := req.RecordToDataset
        DatasetName := req.DatasetName
        EpisodeIndex := req.EpisodeIndex
        Extra := extra }
    let call := Event.invoke svc (.RunPolicyEpisode ctx arg)
    match svc.RunPolicyEpisode ctx arg with
    | (_, some err) => ⟨[.resolve req.Name, call], .returned none (some err)⟩
    | (none, none) => ⟨[.resolve req.Name, call], .panicked⟩
    | (some resp, none) =>
      ⟨[.resolve req.Name, call],
        .returned (some
          { NumSteps := resp.NumSteps
            DurationS := resp.DurationS
            Success := false
            EpisodePath := resp.EpisodePath }) none⟩

/-- Modelled from the spec: `protoutils.DoFromResourceServer` of package `rdk/protoutils`, which
is not among the sources. The spec: the operation "accepts an arbitrary open map, forwards it
unmodified to a single named method on the instance, and returns whatever open map that method
produces"; an invocation failure is "surfaced unchanged"; "an absent payload decodes to an empty
map, never an error". -/
def protoutils.DoFromResourceServer (ctx : Context) (svc : Service)
    (req : commonpb.DoCommandRequest) : Run Event (Option commonpb.DoCommandResponse) :=
  let cmd : GoMap :=
    match req.Command with
    | some c => c.AsMap
    | none => some []
  match svc.DoCommand ctx cmd with
  | (_, some err) => ⟨[.invoke svc (.DoCommand ctx cmd)], .returned none (some err)⟩
  | (result, none) =>
    ⟨[.invoke svc (.DoCommand ctx cmd)],
      .returned (some { Result := some ⟨result.getD []⟩ }) none⟩

/-- The method `serviceServer.DoCommand`. -/
def serviceServer.DoCommand (server : serviceServer) (ctx : Context)
    (req : commonpb.DoCommandRequest) : Run Event (Option commonpb.DoCommandResponse) :=
  let ctx := trace.StartSpan ctx "discovery::server::DoCommand"
  match server.coll.Resource req.Name with
  | (_, some err) => ⟨[.resolve req.Name], .returned none (some err)⟩
  | (none, none) => ⟨[.resolve req.Name], .panicked⟩
  | (some svc, none) =>
    let r := protoutils.DoFromResourceServer ctx svc req
    ⟨.resolve req.Name :: r.trace, r.outcome⟩

/-! ## `client.go`: the client proxy -/

/-- Modelled from the spec: `resource.API` of package `rdk/resource`, which is not among the
sources. The spec: "API identifier: namespace + type string; globally unique". -/
structure resource.API where
  Namespace : String
  ResourceType : String
  SubtypeName : String
deriving DecidableEq, Repr

/-- Modelled from the spec: `resource.Name` of package `rdk/resource`, which is not among the
sources. The spec: "Resource Name: API identifier + instance name + ordered list of remote-hop
prefixes". -/
structure resource.Name where
  API : resource.API
  Remote : List String
  Name : String
deriving DecidableEq, Repr

/-- Modelled from the spec: `resource.Name.PrependRemote`, which is not among the sources. The
spec: "construction prepends each intermediate system's identifier, in traversal order, to the
instance name", and "construction appends one prefix segment per federation hop". The spec does
not say what an empty identifier does. -/
def resource.Name.PrependRemote (n : resource.Name) (remoteName : String) : resource.Name :=
  { n with Remote := remoteName :: n.Remote }

/-- Modelled from the spec: `resource.NewName`, which is not among the sources: the name of a
local instance, with no remote-hop segment. -/
def resource.NewName (api : resource.API) (name : String) : resource.Name :=
  { API := api, Remote := [], Name := name }

/-- The constant `SubtypeName`. -/
def SubtypeName : String := "lerobot"

/-- The variable `API`, `resource.APINamespaceRDK.WithServiceType(SubtypeName)`. -/
def API : resource.API :=
  { Namespace := "rdk", ResourceType := "service", SubtypeName := SubtypeName }

/-- The function `Named`. -/
def Named (name : String) : resource.Name :=
  resource.NewName API name

/-- The interface `pb.LeRobotServiceClient`: the remote stub, one method per remote call. -/
structure pb.LeRobotServiceClient where
  StartRecording :
    Context → pb.StartRecordingRequest → Option pb.StartRecordingResponse × Option GoError
  StopRecording :
    Context → pb.StopRecordingRequest → Option pb.StopRecordingResponse × Option GoError
  RecordEpisode :
    Context → pb.RecordEpisodeRequest → Option pb.RecordEpisodeResponse × Option GoError
  ReplayEpisode :
    Context → pb.ReplayEpisodeRequest → Option pb.ReplayEpisodeResponse × Option GoError
  StartTeleoperation :
    Context → pb.StartTeleoperationRequest →
      Option pb.StartTeleoperationResponse × Option GoError
  StopTeleoperation :
    Context → pb.StopTeleoperationRequest → Option pb.StopTeleoperationResponse × Option GoError
  LoadPolicy : Context → pb.LoadPolicyRequest → Option pb.LoadPolicyResponse × Option GoError
  RunPolicyEpisode :
    Context → pb.RunPolicyEpisodeRequest → Option pb.RunPolicyEpisodeResponse × Option GoError
  DoCommand :
    Context → commonpb.DoCommandRequest → Option commonpb.DoCommandResponse × Option GoError

/-- The interface `rpc.ClientConn`: a connection, by what the calls issued over it return. -/
structure rpc.ClientConn where
  stub : pb.LeRobotServiceClient

/-- The function `pb.NewLeRobotServiceClient`. -/
def pb.NewLeRobotServiceClient (conn : rpc.ClientConn) : pb.LeRobotServiceClient :=
  conn.stub

/-- The function `protoutils.StructToStructPb` of `go.viam.com/utils`, an external library: it
is a parameter of every proxy method. It returns the wire open map, or an error. -/
abbrev Encoder := GoMap → Option Struct × Option GoError

/-- A remote call issued by the proxy, with the context and the request it carries. -/
inductive RemoteCall where
  | StartRecording : Context → pb.StartRecordingRequest → RemoteCall
  | StopRecording : Context → pb.StopRecordingRequest → RemoteCall
  | RecordEpisode : Context → pb.RecordEpisodeRequest → RemoteCall
  | ReplayEpisode : Context → pb.ReplayEpisodeRequest → RemoteCall
  | StartTeleoperation : Context → pb.StartTeleoperationRequest → RemoteCall
  | StopTeleoperation : Context → pb.StopTeleoperationRequest → RemoteCall
  | LoadPolicy : Context → pb.LoadPolicyRequest → RemoteCall
  | RunPolicyEpisode : Context → pb.RunPolicyEpisodeRequest → RemoteCall
  | DoCommand : Context → commonpb.DoCommandRequest → RemoteCall

/-- The routing name carried by the request of a remote call. -/
def RemoteCall.routingName : RemoteCall → String
  | .StartRecording _ req => req.Name
  | .StopRecording _ req => req.Name
  | .RecordEpisode _ req => req.Name
  | .ReplayEpisode _ req => req.Name
  | .StartTeleoperation _ req => req.Name
  | .StopTeleoperation _ req => req.Name
  | .LoadPolicy _ req => req.Name
  | .RunPolicyEpisode _ req => req.Name
  | .DoCommand _ req => req.Name

/-- The struct `client`: the embedded `resource.Named` by the name it holds, the routing name
and the remote stub. The logger is never read. -/
structure client where
  Named : resource.Name
  name : String
  client : pb.LeRobotServiceClient

/-- The constructor `NewClientFromConn`. -/
def NewClientFromConn (_ctx : Context) (conn : rpc.ClientConn) (remoteName : String)
    (name : resource.Name) : Option client × Option GoError :=
  let c := pb.NewLeRobotServiceClient conn
  (some
    { Named := name.PrependRemote remoteName
      name := name.Name
      client := c }, none)

/-- The method `client.StartRecording`. -/
def client.StartRecording (StructToStructPb : Encoder) (c : LeRobot.client) (ctx : Context)
    (datasetName : String) (extra : GoMap) : Run RemoteCall String :=
  match StructToStructPb extra with
  | (_, some err) => ⟨[], .returned "" (some err)⟩
  | (ext, none) =>
    let req : pb.StartRecordingRequest :=
      { Name := c.name
        DatasetName := datasetName
        Extra := ext }
    match c.client.StartRecording ctx req with
    | (_, some err) => ⟨[.StartRecording ctx req], .returned "" (some err)⟩
    | (none, none) => ⟨[.StartRecording ctx req], .panicked⟩
    | (some resp, none) => ⟨[.StartRecording ctx req], .returned resp.SessionId none⟩

/-- The method `client.StopRecording`. -/
def client.StopRecording (StructToStructPb : Encoder) (c : LeRobot.client) (ctx : Context)
    (sessionID : String) (extra : GoMap) : Run RemoteCall Float32 :=
  match StructToStructPb extra with
  | (_, some err) => ⟨[], .returned Float32.zero (some err)⟩
  | (ext, none) =>
    let req : pb.StopRecordingRequest :=
      { Name := c.name
        SessionId := sessionID
        Extra := ext }
    match c.client.StopRecording ctx req with
    | (_, some err) => ⟨[.StopRecording ctx req], .returned Float32.zero (some err)⟩
    | (none, none) => ⟨[.StopRecording ctx req], .panicked⟩
    | (some resp, none) => ⟨[.StopRecording ctx req], .returned resp.DurationS none⟩

/-- The method `client.RecordEpisode`. -/
def client.RecordEpisode (StructToStructPb : Encoder) (c : LeRobot.client) (ctx : Context)
    (req : RecordEpisodeRequest) : Run RemoteCall (Option RecordEpisodeResponse) :=
  match StructToStructPb req.Extra with
  | (_, some err) => ⟨[], .returned none (some err)⟩
  | (ext, none) =>
    let wire : pb.RecordEpisodeRequest :=
      { Name := c.name
        DatasetName := req.DatasetName
        EpisodeIndex := req.EpisodeIndex
        Source := ⟨req.Source.val⟩
        WarmupTimeS := req.WarmupTimeS
        EpisodeTimeS := req.EpisodeTimeS
        ResetTimeS := req.ResetTimeS
        Fps := req.Fps
        Tags := req.Tags
        Extra := ext }
    match c.client.RecordEpisode ctx wire with
    | (_, some err) => ⟨[.RecordEpisode ctx wire], .returned none (some err)⟩
    | (none, none) => ⟨[.RecordEpisode ctx wire], .panicked⟩
    | (some resp, none) =>
      ⟨[.RecordEpisode ctx wire],
        .returned (some
          { NumFrames := resp.NumFrames
            ActualDurationS := resp.ActualDurationS
            EpisodePath := resp.EpisodePath }) none⟩

/-- The method `client.ReplayEpisode`. -/
def client.ReplayEpisode (StructToStructPb : Encoder) (c : LeRobot.client) (ctx : Context)
    (req : ReplayEpisodeRequest) : Run RemoteCall (Option ReplayEpisodeResponse) :=
  match StructToStructPb req.Extra with
  | (_, some err) => ⟨[], .returned none (some err)⟩
  | (ext, none) =>
    let wire : pb.ReplayEpisodeRequest :=
      { Name := c.name
        DatasetName := req.DatasetName
        EpisodeIndex := req.EpisodeIndex
        Fps := req.Fps
        Extra := ext }
    match c.client.ReplayEpisode ctx wire with
    | (_, some err) => ⟨[.ReplayEpisode ctx wire], .returned none (some err)⟩
    | (none, none) => ⟨[.ReplayEpisode ctx wire], .panicked⟩
    | (some resp, none) =>
      ⟨[.ReplayEpisode ctx wire],
        .returned (some
          { NumFramesReplayed := resp.NumFramesReplayed
            DurationS := resp.DurationS }) none⟩

/-- The method `client.StartTeleoperation`. The request literal it builds names `Name`,
`TeleopDeviceType`, `Fps` and `Extra`; `DisplayCameras` keeps its zero value `false`. -/
def client.StartTeleoperation (StructToStructPb : Encoder) (c : LeRobot.client) (ctx : Context)
    (req : StartTeleoperationRequest) : Run RemoteCall String :=
  match StructToStructPb req.Extra with
  | (_, some err) => ⟨[], .returned "" (some err)⟩
  | (ext, none) =>
    let wire : pb.StartTeleoperationRequest :=
      { Name := c.name
        TeleopDeviceType := req.TeleopDeviceType
        Fps := req.Fps
        DisplayCameras := false
        Extra := ext }
    match c.client.StartTeleoperation ctx wire with
    | (_, some err) => ⟨[.StartTeleoperation ctx wire], .returned "" (some err)⟩
    | (none, none) => ⟨[.StartTeleoperation ctx wire], .panicked⟩
    | (some resp, none) => ⟨[.StartTeleoperation ctx wire], .returned resp.SessionId none⟩

/-- The method `client.StopTeleoperation`. -/
def client.StopTeleoperation (StructToStructPb : Encoder) (c : LeRobot.client) (ctx : Context)
    (sessionID : String) (extra : GoMap) : Run RemoteCall Float32 :=
  match StructToStructPb extra with
  | (_, some err) => ⟨[], .returned Float32.zero (some err)⟩
  | (ext, none) =>
    let req : pb.StopTeleoperationRequest :=
      { Name := c.name
        SessionId := sessionID
        Extra := ext }
    match c.client.StopTeleoperation ctx req with
    | (_, some err) => ⟨[.StopTeleoperation ctx req], .returned Float32.zero (some err)⟩
    | (none, none) => ⟨[.StopTeleoperation ctx req], .panicked⟩
    | (some resp, none) => ⟨[.StopTeleoperation ctx req], .returned resp.DurationS none⟩

/-- The method `client.LoadPolicy`. -/
def client.LoadPolicy (StructToStructPb : Encoder) (c : LeRobot.client) (ctx : Context)
    (req : LoadPolicyRequest) : Run RemoteCall (Option LoadPolicyResponse) :=
  match StructToStructPb req.Extra with
  | (_, some err) => ⟨[], .returned none (some err)⟩
  | (ext, none) =>
    let wire : pb.LoadPolicyRequest :=
      { Name := c.name
        PolicyRepoId := req.PolicyRepoID
        Extra := ext }
    match c.client.LoadPolicy ctx wire with
    | (_, some err) => ⟨[.LoadPolicy ctx wire], .returned none (some err)⟩
    | (none, none) => ⟨[.LoadPolicy ctx wire], .panicked⟩
    | (some resp, none) =>
      ⟨[.LoadPolicy ctx wire],
        .returned (some
          { PolicyID := resp.PolicyId
            PolicyType := resp.PolicyType }) none⟩

/-- The method `client.RunPolicyEpisode`. The response literal it builds names `NumSteps`,
`DurationS` and `EpisodePath`; `Success` keeps its zero value `false`. -/
def client.RunPolicyEpisode (StructToStructPb : Encoder) (c : LeRobot.client) (ctx : Context)
    (req : RunPolicyEpisodeRequest) : Run RemoteCall (Option RunPolicyEpisodeResponse) :=
  match StructToStructPb req.Extra with
  | (_, some err) => ⟨[], .returned none (some err)⟩
  | (ext, none) =>
    let wire : pb.RunPolicyEpisodeRequest :=
      { Name := c.name
        PolicyId := req.PolicyID
        MaxSteps := req.MaxSteps
        Fps := req.Fps
        RecordToDataset := req.RecordToDataset
        DatasetName := req.DatasetName
        EpisodeIndex := req.EpisodeIndex
        Extra := ext }
    match c.client.RunPolicyEpisode ctx wire with
    | (_, some err) => ⟨[.RunPolicyEpisode ctx wire], .returned none (some err)⟩
    | (none, none) => ⟨[.RunPolicyEpisode ctx wire], .panicked⟩
    | (some resp, none) =>
      ⟨[.RunPolicyEpisode ctx wire],
        .returned (some
          { NumSteps := resp.NumSteps
            DurationS := resp.DurationS
            Success := false
            EpisodePath := resp.EpisodePath }) none⟩

/-- The method `(*structpb.Struct).AsMap` on a receiver that may be nil: a nil receiver has no
fields, and the map returned is made fresh either way. -/
def Struct.AsMapOfPtr (x : Option Struct) : GoMap :=
  match x with
  | some st => st.AsMap
  | none => some []

/-- The method `client.DoCommand`. -/
def client.DoCommand (StructToStructPb : Encoder) (c : LeRobot.client) (ctx : Context)
    (cmd : GoMap) : Run RemoteCall GoMap :=
  match StructToStructPb cmd with
  | (_, some err) => ⟨[], .returned GoMap.nil (some err)⟩
  | (command, none) =>
    let req : commonpb.DoCommandRequest :=
      { Name := c.name
        Command := command }
    match c.client.DoCommand ctx req with
    | (_, some err) => ⟨[.DoCommand ctx req], .returned GoMap.nil (some err)⟩
    | (none, none) => ⟨[.DoCommand ctx req], .panicked⟩
    | (some resp, none) => ⟨[.DoCommand ctx req], .returned (Struct.AsMapOfPtr resp.Result) none⟩

/-! ## `testutils/inject/lerobot_service.go`: the injected double -/

/-- The interface `resource.Resource`, by the two methods the double forwards to. -/
structure resource.Resource where
  DoCommand : Context → GoMap → GoMap × Option GoError
  Close : Context → Option GoError

/-- The struct `inject.LeRobotService`; a nil function field, or a nil embedded `Resource`, is
`none`. The struct literal with no field set is the structure with every field at its default. -/
structure inject.LeRobotService where
  Resource : Option resource.Resource := none
  name : resource.Name := { API := ⟨"", "", ""⟩, Remote := [], Name := "" }
  StartRecordingFunc : Option (Context → String → GoMap → String × Option GoError) := none
  StopRecordingFunc : Option (Context → String → GoMap → Float32 × Option GoError) := none
  RecordEpisodeFunc :
    Option (Context → RecordEpisodeRequest → Option RecordEpisodeResponse × Option GoError) :=
    none
  ReplayEpisodeFunc :
    Option (Context → ReplayEpisodeRequest → Option ReplayEpisodeResponse × Option GoError) :=
    none
  StartTeleoperationFunc :
    Option (Context → StartTeleoperationRequest → String × Option GoError) := none
  StopTeleoperationFunc : Option (Context → String → GoMap → Float32 × Option GoError) := none
  LoadPolicyFunc :
    Option (Context → LoadPolicyRequest → Option LoadPolicyResponse × Option GoError) := none
  RunPolicyEpisodeFunc :
    Option
      (Context → RunPolicyEpisodeRequest → Option RunPolicyEpisodeResponse × Option GoError) :=
    none
  DoFunc : Option (Context → GoMap → GoMap × Option GoError) := none
  CloseFunc : Option (Context → Option GoError) := none

/-- The constructor `inject.NewLeRobotService`. -/
def inject.NewLeRobotService (name : String) : inject.LeRobotService :=
  { name := Named name }

/-- The method `inject.LeRobotService.Name`. -/
def inject.LeRobotService.Name (s : inject.LeRobotService) : resource.Name :=
  s.name

/-- The method `inject.LeRobotService.StartRecording`. -/
def inject.LeRobotService.StartRecording (s : inject.LeRobotService) (ctx : Context)
    (datasetName : String) (extra : GoMap) : String × Option GoError :=
  match s.StartRecordingFunc with
  | none => ("", none)
  | some f => f ctx datasetName extra

/-- The method `inject.LeRobotService.StopRecording`. -/
def inject.LeRobotService.StopRecording (s : inject.LeRobotService) (ctx : Context)
    (sessionID : String) (extra : GoMap) : Float32 × Option GoError :=
  match s.StopRecordingFunc with
  | none => (Float32.zero, none)
  | some f => f ctx sessionID extra

/-- The method `inject.LeRobotService.RecordEpisode`. -/
def inject.LeRobotService.RecordEpisode (s : inject.LeRobotService) (ctx : Context)
    (req : RecordEpisodeRequest) : Option RecordEpisodeResponse × Option GoError :=
  match s.RecordEpisodeFunc with
  | none => (some { NumFrames := 0, ActualDurationS := Float32.zero, EpisodePath := "" }, none)
  | some f => f ctx req

/-- The method `inject.LeRobotService.ReplayEpisode`. -/
def inject.LeRobotService.ReplayEpisode (s : inject.LeRobotService) (ctx : Context)
    (req : ReplayEpisodeRequest) : Option ReplayEpisodeResponse × Option GoError :=
  match s.ReplayEpisodeFunc with
  | none => (some { NumFramesReplayed := 0, DurationS := Float32.zero }, none)
  | some f => f ctx req

/-- The method `inject.LeRobotService.StartTeleoperation`. -/
def inject.LeRobotService.StartTeleoperation (s : inject.LeRobotService) (ctx : Context)
    (req : StartTeleoperationRequest) : String × Option GoError :=
  match s.StartTeleoperationFunc with
  | none => ("", none)
  | some f => f ctx req

/-- The method `inject.LeRobotService.StopTeleoperation`. -/
def inject.LeRobotService.StopTeleoperation (s : inject.LeRobotService) (ctx : Context)
    (sessionID : String) (extra : GoMap) : Float32 × Option GoError :=
  match s.StopTeleoperationFunc with
  | none => (Float32.zero, none)
  | some f => f ctx sessionID extra

/-- The method `inject.LeRobotService.LoadPolicy`. -/
def inject.LeRobotService.LoadPolicy (s : inject.LeRobotService) (ctx : Context)
    (req : LoadPolicyRequest) : Option LoadPolicyResponse × Option GoError :=
  match s.LoadPolicyFunc with
  | none => (some { PolicyID := "", PolicyType := "" }, none)
  | some f => f ctx req

/-- The method `inject.LeRobotService.RunPolicyEpisode`. -/
def inject.LeRobotService.RunPolicyEpisode (s : inject.LeRobotService) (ctx : Context)
    (req : RunPolicyEpisodeRequest) : Option RunPolicyEpisodeResponse × Option GoError :=
  match s.RunPolicyEpisodeFunc with
  | none =>
    (some { NumSteps := 0, DurationS := Float32.zero, Success := false, EpisodePath := "" }, none)
  | some f => f ctx req

/-- The method `inject.LeRobotService.DoCommand`. -/
def inject.LeRobotService.DoCommand (s : inject.LeRobotService) (ctx : Context)
    (cmd : GoMap) : GoMap × Option GoError :=
  match s.DoFunc with
  | none =>
    match s.Resource with
    | none => (GoMap.nil, none)
    | some r => r.DoCommand ctx cmd
  | some f => f ctx cmd

/-- The method `inject.LeRobotService.Close`. -/
def inject.LeRobotService.Close (s : inject.LeRobotService) (ctx : Context) : Option GoError :=
  match s.CloseFunc with
  | none =>
    match s.Resource with
    | none => none
    | some r => r.Close ctx
  | some f => f ctx

/-- An injected double used as a `Service`: each interface method is the method of the double. -/
def inject.LeRobotService.asService (s : inject.LeRobotService) : Service :=
  { StartRecording := s.StartRecording
    StopRecording := s.StopRecording
    RecordEpisode := s.RecordEpisode
    ReplayEpisode := s.ReplayEpisode
    StartTeleoperation := s.StartTeleoperation
    StopTeleoperation := s.StopTeleoperation
    LoadPolicy := s.LoadPolicy
    RunPolicyEpisode := s.RunPolicyEpisode
    DoCommand := s.DoCommand
    Close := s.Close }

/-! ## The scenario of `server_test.go` and `client_test.go` -/

/-- The test variable `testLeRobotName`. -/
def testLeRobotName : String := "lerobot1"

/-- The test variable `failLeRobotName`. -/
def failLeRobotName : String := "lerobot2"

/-- The test variable `errTestFailed`. -/
def errTestFailed : GoError := ⟨"test failed"⟩

/-- The `float32` constant 20.0, by its bit pattern. -/
def float20 : Float32 := ⟨0x41A00000⟩

/-- The working double of the tests, with the overrides the tests assign to it. -/
def workingLeRobot : inject.LeRobotService :=
  { StartRecordingFunc := some (fun _ _ _ => ("session-123", none))
    StartTeleoperationFunc := some (fun _ _ => ("teleop-456", none))
    RunPolicyEpisodeFunc := some (fun _ _ =>
      (some
        { NumSteps := 200
          DurationS := float20
          Success := true
          EpisodePath := "/path/to/policy/episode" }, none)) }

/-- The failing double of the tests: every override returns `errTestFailed`. -/
def failingLeRobot : inject.LeRobotService :=
  { StartRecordingFunc := some (fun _ _ _ => ("", some errTestFailed))
    StopRecordingFunc := some (fun _ _ _ => (Float32.zero, some errTestFailed))
    RecordEpisodeFunc := some (fun _ _ => (none, some errTestFailed))
    ReplayEpisodeFunc := some (fun _ _ => (none, some errTestFailed))
    StartTeleoperationFunc := some (fun _ _ => ("", some errTestFailed))
    StopTeleoperationFunc := some (fun _ _ _ => (Float32.zero, some errTestFailed))
    LoadPolicyFunc := some (fun _ _ => (none, some errTestFailed))
    RunPolicyEpisodeFunc := some (fun _ _ => (none, some errTestFailed)) }

/-- The collection of the tests: `lerobot1` is the first double, `lerobot2` the second, and
every other name is not found. -/
def testColl (first second : inject.LeRobotService) : resource.APIResourceGetter :=
  { Resource := fun name =>
      if name = testLeRobotName then (some first.asService, none)
      else if name = failLeRobotName then (some second.asService, none)
      else (none, some ⟨"resource not found: " ++ name⟩) }

/-- The test helper `newServer`, over the two doubles given. -/
def newServer (first second : inject.LeRobotService) : serviceServer :=
  NewRPCServiceServer (testColl first second)

/-- The request that `TestRunPolicyEpisode` sends for the working instance. -/
def testRunPolicyEpisodeRequest : pb.RunPolicyEpisodeRequest :=
  { Name := testLeRobotName
    PolicyId := "policy-789"
    MaxSteps := 300
    Fps := 30
    RecordToDataset := true
    DatasetName := "eval-dataset"
    EpisodeIndex := 0
    Extra := none }

/-- The request that `TestStartTeleoperation` sends for the working instance. -/
def testStartTeleoperationWire : pb.StartTeleoperationRequest :=
  { Name := testLeRobotName
    TeleopDeviceType := "keyboard"
    Fps := 30
    DisplayCameras := true
    Extra := none }

/-- The request that `TestClient` passes to the proxy method `StartTeleoperation`. -/
def testStartTeleoperationRequest : StartTeleoperationRequest :=
  { TeleopDeviceType := "keyboard"
    Fps := 30
    DisplayCameras := true
    Extra := GoMap.nil }

/-- The request that `TestClient` passes to the proxy method `RunPolicyEpisode`. -/
def testRunPolicyEpisodeCall : RunPolicyEpisodeRequest :=
  { PolicyID := "policy-789"
    MaxSteps := 300
    Fps := 30
    RecordToDataset := true
    DatasetName := "eval-dataset"
    EpisodeIndex := 0
    Extra := GoMap.nil }

/-- An encoder that succeeds on every map; the nil map becomes a message with no fields. -/
def encodeAll : Encoder :=
  fun m => (some ⟨m.getD []⟩, none)

/-- What the in-process transport hands back for a run of the dispatcher: the response and
error returned; a panic of the handler reaches the caller as an error of the transport. -/
def deliver {α : Type} (r : Run Event (Option α)) : Option α × Option GoError :=
  match r.outcome with
  | .returned resp err => (resp, err)
  | .panicked => (none, some ⟨"transport: handler panicked"⟩)

/-- The in-process transport: a remote stub that hands each request to the dispatcher `s`
unchanged and hands back what the dispatcher returned, unchanged. -/
def inProcessStub (s : serviceServer) : pb.LeRobotServiceClient :=
  { StartRecording := fun ctx req => deliver (s.StartRecording ctx req)
    StopRecording := fun ctx req => deliver (s.StopRecording ctx req)
    RecordEpisode := fun ctx req => deliver (s.RecordEpisode ctx req)
    ReplayEpisode := fun ctx req => deliver (s.ReplayEpisode ctx req)
    StartTeleoperation := fun ctx req => deliver (s.StartTeleoperation ctx req)
    StopTeleoperation := fun ctx req => deliver (s.StopTeleoperation ctx req)
    LoadPolicy := fun ctx req => deliver (s.LoadPolicy ctx req)
    RunPolicyEpisode := fun ctx req => deliver (s.RunPolicyEpisode ctx req)
    DoCommand := fun ctx req => deliver (s.DoCommand ctx req) }

/-- A remote stub on which every call fails with the error given. -/
def failingStub (e : GoError) : pb.LeRobotServiceClient :=
  { StartRecording := fun _ _ => (none, some e)
    StopRecording := fun _ _ => (none, some e)
    RecordEpisode := fun _ _ => (none, some e)
    ReplayEpisode := fun _ _ => (none, some e)
    StartTeleoperation := fun _ _ => (none, some e)
    StopTeleoperation := fun _ _ => (none, some e)
    LoadPolicy := fun _ _ => (none, some e)
    RunPolicyEpisode := fun _ _ => (none, some e)
    DoCommand := fun _ _ => (none, some e) }

/-- The proxy of `TestClient` for the name given, over the stub given: what
`NewClientFromConn(ctx, conn, "", lerobot.Named(name), logger)` builds, by its routing name and
stub. -/
def testClient (stub : pb.LeRobotServiceClient) (name : String) : client :=
  { Named := Named name, name := name, client := stub }

/-- The name of the method of the instance that a call invokes. -/
def Call.method : Call → String
  | .StartRecording _ _ _ => "StartRecording"
  | .StopRecording _ _ _ => "StopRecording"
  | .RecordEpisode _ _ => "RecordEpisode"
  | .ReplayEpisode _ _ => "ReplayEpisode"
  | .StartTeleoperation _ _ => "StartTeleoperation"
  | .StopTeleoperation _ _ _ => "StopTeleoperation"
  | .LoadPolicy _ _ => "LoadPolicy"
  | .RunPolicyEpisode _ _ => "RunPolicyEpisode"
  | .DoCommand _ _ => "DoCommand"

/-- The options map (for `DoCommand`, the command map) that a call hands to the instance. -/
def Call.extra : Call → GoMap
  | .StartRecording _ _ extra => extra
  | .StopRecording _ _ extra => extra
  | .RecordEpisode _ req => req.Extra
  | .ReplayEpisode _ req => req.Extra
  | .StartTeleoperation _ req => req.Extra
  | .StopTeleoperation _ _ extra => extra
  | .LoadPolicy _ req => req.Extra
  | .RunPolicyEpisode _ req => req.Extra
  | .DoCommand _ cmd => cmd

/-- The error that the instance `svc` returns when the call is made on it. -/
def Call.errorOn (svc : Service) : Call → Option GoError
  | .StartRecording ctx datasetName extra => (svc.StartRecording ctx datasetName extra).2
  | .StopRecording ctx sessionID extra => (svc.StopRecording ctx sessionID extra).2
  | .RecordEpisode ctx req => (svc.RecordEpisode ctx req).2
  | .ReplayEpisode ctx req => (svc.ReplayEpisode ctx req).2
  | .StartTeleoperation ctx req => (svc.StartTeleoperation ctx req).2
  | .StopTeleoperation ctx sessionID extra => (svc.StopTeleoperation ctx sessionID extra).2
  | .LoadPolicy ctx req => (svc.LoadPolicy ctx req).2
  | .RunPolicyEpisode ctx req => (svc.RunPolicyEpisode ctx req).2
  | .DoCommand ctx cmd => (svc.DoCommand ctx cmd).2

/-- The error with which the collection of the tests answers the name `lerobot3`. -/
def errNotFound3 : GoError := ⟨"resource not found: lerobot3"⟩

/-- The dispatcher of the tests, over the working and the failing double. -/
def testServer : serviceServer :=
  newServer workingLeRobot failingLeRobot

/-- The `StartRecording` request of the tests, for the name given; it carries no `Extra`. -/
def wireStartRecording (name : String) : pb.StartRecordingRequest :=
  { Name := name, DatasetName := "test-dataset", Extra := none }

/-- The `StopRecording` request of the tests, for the name given. -/
def wireStopRecording (name : String) : pb.StopRecordingRequest :=
  { Name := name, SessionId := "session-123", Extra := none }

/-- The `RecordEpisode` request of the tests, for the name given. -/
def wireRecordEpisode (name : String) : pb.RecordEpisodeRequest :=
  { Name := name, DatasetName := "test-dataset", EpisodeIndex := 1, Source := ⟨0⟩,
    WarmupTimeS := 0, EpisodeTimeS := 0, ResetTimeS := 0, Fps := 30, Tags := [],
    Extra := none }

/-- The `ReplayEpisode` request of the tests, for the name given. -/
def wireReplayEpisode (name : String) : pb.ReplayEpisodeRequest :=
  { Name := name, DatasetName := "test-dataset", EpisodeIndex := 1, Fps := 30, Extra := none }

/-- The `StartTeleoperation` request of the tests, for the name given. -/
def wireStartTeleoperation (name : String) : pb.StartTeleoperationRequest :=
  { Name := name, TeleopDeviceType := "keyboard", Fps := 30, DisplayCameras := true,
    Extra := none }

/-- The `StopTeleoperation` request of the tests, for the name given. -/
def wireStopTeleoperation (name : String) : pb.StopTeleoperationRequest :=
  { Name := name, SessionId := "teleop-session-456", Extra := none }

/-- The `LoadPolicy` request of the tests, for the name given. -/
def wireLoadPolicy (name : String) : pb.LoadPolicyRequest :=
  { Name := name, PolicyRepoId := "huggingface/lerobot-act", Extra := none }

/-- The `RunPolicyEpisode` request of the tests, for the name given. -/
def wireRunPolicyEpisode (name : String) : pb.RunPolicyEpisodeRequest :=
  { Name := name, PolicyId := "policy-789", MaxSteps := 300, Fps := 30,
    RecordToDataset := true, DatasetName := "eval-dataset", EpisodeIndex := 0, Extra := none }

/-- A `DoCommand` request with no command, for the name given. -/
def wireDoCommand (name : String) : commonpb.DoCommandRequest :=
  { Name := name, Command := none }

/-- A `RecordEpisode` request as a caller of the proxy builds it, with the recording source
given and no options. -/
def callRecordEpisode (source : RecordingSource) : RecordEpisodeRequest :=
  { DatasetName := "test-dataset", EpisodeIndex := 1, Source := source, WarmupTimeS := 0,
    EpisodeTimeS := 0, ResetTimeS := 0, Fps := 30, Tags := [], Extra := GoMap.nil }

/-- The names that a run of a dispatcher operation looked up in the collection, in order. -/
def resolvedNames : List Event → List String
  | [] => []
  | .resolve name :: rest => name :: resolvedNames rest
  | .invoke _ _ :: rest => resolvedNames rest

/-- The name `Name()` of the proxy that `NewClientFromConn(ctx, conn, remoteName, name, logger)`
returns, and `name` itself should no proxy be returned. -/
def proxyName (ctx : Context) (conn : rpc.ClientConn) (remoteName : String)
    (name : resource.Name) : resource.Name :=
  match (NewClientFromConn ctx conn remoteName name).1 with
  | some c => c.Named
  | none => name

/-- The construction of a proxy applied once per intermediate system, the first identifier of
the list first: the name of the last proxy built. -/
def proxyNameThrough (ctx : Context) (conn : rpc.ClientConn) :
    List String → resource.Name → resource.Name
  | [], name => name
  | remoteName :: rest, name => proxyNameThrough ctx conn rest (proxyName ctx conn remoteName name)

/-- A connection to the dispatcher of the tests over the in-process transport. -/
def testConn : rpc.ClientConn :=
  { stub := inProcessStub testServer }

/-- The `StartRecording` request that the proxy of the tests sends for `lerobot1` when called
with the dataset `test-dataset` and the nil options map, under the encoder `encodeAll`. -/
def sentStartRecording : pb.StartRecordingRequest :=
  { Name := "lerobot1", DatasetName := "test-dataset", Extra := some ⟨[]⟩ }

/-- The entries of a map; the nil map has none. -/
def GoMap.entries (m : GoMap) : List (String × Value) :=
  m.getD []

/-- A double whose `DoFunc` hands back the command map it was given, with no error. -/
def echoLeRobot : inject.LeRobotService :=
  { DoFunc := some (fun _ cmd => (cmd, none)) }

/-- The dispatcher over the echoing double, installed as `lerobot1`. -/
def echoServer : serviceServer :=
  newServer echoLeRobot failingLeRobot

/-- A command map with one entry. -/
def testCommand : GoMap :=
  some [("command", Value.str "test")]

/-- The span name under which the dispatcher operation `DoCommand` runs. -/
def doCommandSpan : String := "discovery::server::DoCommand"

/-- The `DoCommand` request that carries `testCommand` for the name `lerobot1`. -/
def wireTestCommand : commonpb.DoCommandRequest :=
  { Name := "lerobot1", Command := some ⟨[("command", Value.str "test")]⟩ }

/-- The request that `TestClient` passes to the proxy method `ReplayEpisode`. -/
def callReplayEpisode : ReplayEpisodeRequest :=
  { DatasetName := "test-dataset", EpisodeIndex := 1, Fps := 30, Extra := GoMap.nil }

/-- The request that `TestClient` passes to the proxy method `LoadPolicy`. -/
def callLoadPolicy : LoadPolicyRequest :=
  { PolicyRepoID := "huggingface/lerobot-act", Extra := GoMap.nil }

/-- A proxy for `lerobot2` over a stub on which every remote call fails with
`errTestFailed`. -/
def failingClient : client :=
  testClient (failingStub errTestFailed) "lerobot2"

/-! ## Closing a proxy -/

/-- A connection shared by proxies, seen by its owner: the connection, and whether the owner
has closed it. -/
structure SharedConn where
  conn : rpc.ClientConn
  closed : Bool

/-- Modelled from the spec: the method `Close` of `resource.TriviallyCloseable` of package
`rdk/resource`, which is not among the sources; the struct `client` embeds it and has no `Close`
of its own. The spec: "Closing a proxy that owns no local resource is a no-op — it never closes
the shared connection, whose lifetime belongs to its owner." It takes the state around it and
returns no error and that state as it was. -/
def resource.TriviallyCloseable.Close {σ : Type} (_ctx : Context) (world : σ) :
    Option GoError × σ :=
  (none, world)

/-- The method `Close` of the proxy, promoted from the embedded `resource.TriviallyCloseable`,
run on the shared connection the proxy was built from. -/
def client.Close (_c : LeRobot.client) (ctx : Context) (shared : SharedConn) :
    Option GoError × SharedConn :=
  resource.TriviallyCloseable.Close ctx shared

/-- The method `Close` of the proxy called `k` times in a row: the errors returned, in order,
and the shared connection after the last call. -/
def client.CloseTimes (c : LeRobot.client) (ctx : Context) : Nat → SharedConn →
    List (Option GoError) × SharedConn
  | 0, shared => ([], shared)
  | k + 1, shared =>
    let r := c.Close ctx shared
    let rest := client.CloseTimes c ctx k r.2
    (r.1 :: rest.1, rest.2)

/-- The shared connection of the tests, open. -/
def testSharedConn : SharedConn :=
  { conn := testConn, closed := false }

/-! ## The injected double, with the calls it makes -/

/-- The double with no field set, the struct literal of the tests before any override is
assigned. -/
def unsetLeRobot : inject.LeRobotService := {}

/-- A call that a method of the double makes: of the injected function of an operation, of the
injected `CloseFunc`, or of `DoCommand` or `Close` of the embedded `Resource`. -/
inductive inject.Called where
  | func : Call → inject.Called
  | closeFunc : Context → inject.Called
  | resource : Call → inject.Called
  | resourceClose : Context → inject.Called

/-- The method `inject.LeRobotService.StartRecording`, with the calls it makes. -/
def inject.LeRobotService.StartRecordingRun (s : inject.LeRobotService) (ctx : Context)
    (datasetName : String) (extra : GoMap) : Run inject.Called String :=
  match s.StartRecordingFunc with
  | none => ⟨[], .returned "" none⟩
  | some f =>
    ⟨[.func (.StartRecording ctx datasetName extra)],
      .returned (f ctx datasetName extra).1 (f ctx datasetName extra).2⟩

/-- The method `inject.LeRobotService.StopRecording`, with the calls it makes. -/
def inject.LeRobotService.StopRecordingRun (s : inject.LeRobotService) (ctx : Context)
    (sessionID : String) (extra : GoMap) : Run inject.Called Float32 :=
  match s.StopRecordingFunc with
  | none => ⟨[], .returned Float32.zero none⟩
  | some f =>
    ⟨[.func (.StopRecording ctx sessionID extra)],
      .returned (f ctx sessionID extra).1 (f ctx sessionID extra).2⟩

/-- The method `inject.LeRobotService.RecordEpisode`, with the calls it makes. -/
def inject.LeRobotService.RecordEpisodeRun (s : inject.LeRobotService) (ctx : Context)
    (req : RecordEpisodeRequest) : Run inject.Called (Option RecordEpisodeResponse) :=
  match s.RecordEpisodeFunc with
  | none =>
    ⟨[], .returned (some { NumFrames := 0, ActualDurationS := Float32.zero, EpisodePath := "" })
      none⟩
  | some f => ⟨[.func (.RecordEpisode ctx req)], .returned (f ctx req).1 (f ctx req).2⟩

/-- The method `inject.LeRobotService.ReplayEpisode`, with the calls it makes. -/
def inject.LeRobotService.ReplayEpisodeRun (s : inject.LeRobotService) (ctx : Context)
    (req : ReplayEpisodeRequest) : Run inject.Called (Option ReplayEpisodeResponse) :=
  match s.ReplayEpisodeFunc with
  | none => ⟨[], .returned (some { NumFramesReplayed := 0, DurationS := Float32.zero }) none⟩
  | some f => ⟨[.func (.ReplayEpisode ctx req)], .returned (f ctx req).1 (f ctx req).2⟩

/-- The method `inject.LeRobotService.StartTeleoperation`, with the calls it makes. -/
def inject.LeRobotService.StartTeleoperationRun (s : inject.LeRobotService) (ctx : Context)
    (req : StartTeleoperationRequest) : Run inject.Called String :=
  match s.StartTeleoperationFunc with
  | none => ⟨[], .returned "" none⟩
  | some f => ⟨[.func (.StartTeleoperation ctx req)], .returned (f ctx req).1 (f ctx req).2⟩

/-- The method `inject.LeRobotService.StopTeleoperation`, with the calls it makes. -/
def inject.LeRobotService.StopTeleoperationRun (s : inject.LeRobotService) (ctx : Context)
    (sessionID : String) (extra : GoMap) : Run inject.Called Float32 :=
  match s.StopTeleoperationFunc with
  | none => ⟨[], .returned Float32.zero none⟩
  | some f =>
    ⟨[.func (.StopTeleoperation ctx sessionID extra)],
      .returned (f ctx sessionID extra).1 (f ctx sessionID extra).2⟩

/-- The method `inject.LeRobotService.LoadPolicy`, with the calls it makes. -/
def inject.LeRobotService.LoadPolicyRun (s : inject.LeRobotService) (ctx : Context)
    (req : LoadPolicyRequest) : Run inject.Called (Option LoadPolicyResponse) :=
  match s.LoadPolicyFunc with
  | none => ⟨[], .returned (some { PolicyID := "", PolicyType := "" }) none⟩
  | some f => ⟨[.func (.LoadPolicy ctx req)], .returned (f ctx req).1 (f ctx req).2⟩

/-- The method `inject.LeRobotService.RunPolicyEpisode`, with the calls it makes. -/
def inject.LeRobotService.RunPolicyEpisodeRun (s : inject.LeRobotService) (ctx : Context)
    (req : RunPolicyEpisodeRequest) : Run inject.Called (Option RunPolicyEpisodeResponse) :=
  match s.RunPolicyEpisodeFunc with
  | none =>
    ⟨[],
      .returned
        (some { NumSteps := 0, DurationS := Float32.zero, Success := false, EpisodePath := "" })
        none⟩
  | some f => ⟨[.func (.RunPolicyEpisode ctx req)], .returned (f ctx req).1 (f ctx req).2⟩

/-- The method `inject.LeRobotService.DoCommand`, with the calls it makes. -/
def inject.LeRobotService.DoCommandRun (s : inject.LeRobotService) (ctx : Context)
    (cmd : GoMap) : Run inject.Called GoMap :=
  match s.DoFunc with
  | none =>
    match s.Resource with
    | none => ⟨[], .returned GoMap.nil none⟩
    | some r =>
      ⟨[.resource (.DoCommand ctx cmd)], .returned (r.DoCommand ctx cmd).1 (r.DoCommand ctx cmd).2⟩
  | some f => ⟨[.func (.DoCommand ctx cmd)], .returned (f ctx cmd).1 (f ctx cmd).2⟩

/-- The method `inject.LeRobotService.Close`, with the calls it makes. -/
def inject.LeRobotService.CloseRun (s : inject.LeRobotService) (ctx : Context) :
    Run inject.Called Unit :=
  match s.CloseFunc with
  | none =>
    match s.Resource with
    | none => ⟨[], .returned () none⟩
    | some r => ⟨[.resourceClose ctx], .returned () (r.Close ctx)⟩
  | some f => ⟨[.closeFunc ctx], .returned () (f ctx)⟩

/-- The working double of `TestClient`, with every override the test assigns to it, and with a
`DoFunc` that hands back its command and a `CloseFunc` that returns no error. -/
def fullLeRobot : inject.LeRobotService :=
  { StartRecordingFunc := some (fun _ _ _ => ("session-123", none))
    StopRecordingFunc := some (fun _ _ _ => (⟨0x42F70000⟩, none))
    RecordEpisodeFunc := some (fun _ _ =>
      (some { NumFrames := 100, ActualDurationS := ⟨0x41280000⟩,
              EpisodePath := "/path/to/episode" }, none))
    ReplayEpisodeFunc := some (fun _ _ =>
      (some { NumFramesReplayed := 50, DurationS := ⟨0x40A00000⟩ }, none))
    StartTeleoperationFunc := some (fun _ _ => ("teleop-456", none))
    StopTeleoperationFunc := some (fun _ _ _ => (⟨0x42700000⟩, none))
    LoadPolicyFunc := some (fun _ _ =>
      (some { PolicyID := "policy-789", PolicyType := "act" }, none))
    RunPolicyEpisodeFunc := some (fun _ _ =>
      (some
        { NumSteps := 200
          DurationS := float20
          Success := true
          EpisodePath := "/path/to/policy/episode" }, none))
    DoFunc := some (fun _ cmd => (cmd, none))
    CloseFunc := some (fun _ => none) }

/-- A dispatcher whose collection holds the working double under both names of the tests. -/
def twinServer : serviceServer :=
  newServer workingLeRobot workingLeRobot

/-! ## The collection and the registry of `rdk/resource` -/

/-- Modelled from the spec: the error with which a collection answers a name it does not hold,
"the not-found condition"; package `rdk/resource` is not among the sources. -/
def resource.NewNotFoundError (name : String) : GoError :=
  ⟨"resource not found: " ++ name⟩

/-- Modelled from the spec: the method `Resource` of the collection of package `rdk/resource`,
which is not among the sources. The spec: "`Resource(name) -> instance` returns the not-found
condition if absent", and "for all names present in a collection, `Resource(name)` returns the
exact installed instance". -/
def resource.APIResourceCollection.Resource (resources : List (resource.Name × Service))
    (name : String) : Option Service × Option GoError :=
  match resources.find? (fun r => r.1.Name == name) with
  | some r => (some r.2, none)
  | none => (none, some (resource.NewNotFoundError name))

/-- Modelled from the spec: `resource.NewAPIResourceCollection` of package `rdk/resource`, which
is not among the sources. The spec: "`New(apiID, nameToInstance)` validates name uniqueness and
that every value satisfies the API's required capability set; fails with a validation error
otherwise". Every value here is a `Service`, so it has the capability set. -/
def resource.NewAPIResourceCollection (_api : resource.API)
    (resources : List (resource.Name × Service)) :
    Option resource.APIResourceGetter × Option GoError :=
  if (resources.map (fun r => r.1.Name)).Nodup then
    (some { Resource := resource.APIResourceCollection.Resource resources }, none)
  else
    (none, some ⟨"duplicate resource name"⟩)

/-- The resource map of the tests: `lerobot1` is the working double of `TestClient`, with
every override assigned, and `lerobot2` the failing one. -/
def testResources : List (resource.Name × Service) :=
  [(Named testLeRobotName, fullLeRobot.asService),
   (Named failLeRobotName, failingLeRobot.asService)]

/-- The collection over the resource map of the tests. -/
def testCollection : resource.APIResourceGetter :=
  { Resource := resource.APIResourceCollection.Resource testResources }

/-- The struct `resource.APIRegistration[Service]`, by the two constructors that `init`
supplies from this package; the handler and the service descriptor it also carries are generated
wire code. -/
structure resource.APIRegistration where
  RPCServiceServerConstructor : resource.APIResourceGetter → serviceServer
  RPCClient :
    Context → rpc.ClientConn → String → resource.Name → Option client × Option GoError

/-- Modelled from the spec: the process-wide registry of package `rdk/resource`, which is not
among the sources. The spec: a "process-wide table mapping an API identifier to its registration
record". -/
abbrev resource.Registry := List (resource.API × resource.APIRegistration)

/-- Modelled from the spec: `resource.LookupAPIRegistration`, which is not among the sources.
The spec: "`Lookup(apiID) -> (registration, found)`"; the test reads a registration, a found
flag and an error. -/
def resource.LookupAPIRegistration (registry : resource.Registry) (api : resource.API) :
    Option resource.APIRegistration × Bool × Option GoError :=
  match registry.find? (fun entry => entry.1 == api) with
  | some entry => (some entry.2, true, none)
  | none => (none, false, none)

/-- Modelled from the spec: `resource.RegisterAPI`, which is not among the sources. The spec:
"`Register(apiID, registration)` fails with a duplicate-registration error if apiID is already
present"; there is "no unregister operation". It returns the registry after the call. -/
def resource.RegisterAPI (registry : resource.Registry) (api : resource.API)
    (registration : resource.APIRegistration) : resource.Registry × Option GoError :=
  match registry.find? (fun entry => entry.1 == api) with
  | some _ => (registry, some ⟨"duplicate API registration"⟩)
  | none => ((api, registration) :: registry, none)

/-- The registration that `init` supplies. -/
def lerobotRegistration : resource.APIRegistration :=
  { RPCServiceServerConstructor := NewRPCServiceServer
    RPCClient := NewClientFromConn }

/-- The function `init` of `lerobot.go`, run on the registry as startup finds it. -/
def init (registry : resource.Registry) : resource.Registry × Option GoError :=
  resource.RegisterAPI registry API lerobotRegistration

/-- The context that a call hands to the instance. -/
def Call.ctx : Call → Context
  | .StartRecording ctx _ _ => ctx
  | .StopRecording ctx _ _ => ctx
  | .RecordEpisode ctx _ => ctx
  | .ReplayEpisode ctx _ => ctx
  | .StartTeleoperation ctx _ => ctx
  | .StopTeleoperation ctx _ _ => ctx
  | .LoadPolicy ctx _ => ctx
  | .RunPolicyEpisode ctx _ => ctx
  | .DoCommand ctx _ => ctx

/-- The context that a remote call is issued with. -/
def RemoteCall.ctx : RemoteCall → Context
  | .StartRecording ctx _ => ctx
  | .StopRecording ctx _ => ctx
  | .RecordEpisode ctx _ => ctx
  | .ReplayEpisode ctx _ => ctx
  | .StartTeleoperation ctx _ => ctx
  | .StopTeleoperation ctx _ => ctx
  | .LoadPolicy ctx _ => ctx
  | .RunPolicyEpisode ctx _ => ctx
  | .DoCommand ctx _ => ctx

/-- A `RecordEpisode` request with every field set, two tags among them, as a caller of the
proxy builds it. -/
def callRecordEpisodeTagged : RecordEpisodeRequest :=
  { DatasetName := "test-dataset", EpisodeIndex := 1, Source := RecordingSourceTeleoperation,
    WarmupTimeS := 2, EpisodeTimeS := 10, ResetTimeS := 3, Fps := 30,
    Tags := ["pick", "place"], Extra := GoMap.nil }

/-- An error of the encoder. -/
def errEncode : GoError := ⟨"unable to encode options"⟩

/-- An encoder that fails on every map with `errEncode`. -/
def rejectAll : Encoder :=
  fun _ => (none, some errEncode)

/-- The proxy of the tests for `lerobot1`, over the in-process transport. -/
def workingClient : client :=
  testClient (inProcessStub testServer) "lerobot1"

/-- The Go assignment `m[k] = v`. On the nil map it panics ("assignment to entry in nil map");
on an allocated map it gives the map with the entry set. -/
def GoMap.set (m : GoMap) (k : String) (v : Value) : Outcome GoMap :=
  match m with
  | none => .panicked
  | some kvs => .returned (some ((k, v) :: kvs.filter (fun kv => kv.1 != k))) none

/-- The options map that each of the eight dispatcher operations builds from the `Extra` of
its request: `var extra map[string]interface{}`, then `extra = req.Extra.AsMap()` when
`req.Extra` is not nil. -/
def optionsOf (extra : Option Struct) : GoMap :=
  match extra with
  | some e => e.AsMap
  | none => GoMap.nil

/-- The dispatcher over the working double of `TestClient` with every override assigned,
installed as `lerobot1`, and the failing double as `lerobot2`. -/
def fullServer : serviceServer :=
  newServer fullLeRobot failingLeRobot

/-- The proxy for `lerobot1` over the in-process transport to `fullServer`. -/
def fullClient : client :=
  testClient (inProcessStub fullServer) "lerobot1"

/-! ## Theorems -/

/-- Every response that the dispatcher operation `RunPolicyEpisode` returns has
`Success = false`, whatever the instance returned. -/
theorem dispatcher_RunPolicyEpisode_Success_false (s : serviceServer) (ctx : Context)
    (req : pb.RunPolicyEpisodeRequest) (resp : pb.RunPolicyEpisodeResponse)
    (err : Option GoError)
    (h : (s.RunPolicyEpisode ctx req).outcome = .returned (some resp) err) :
    resp.Success = false := by
  simp only [serviceServer.RunPolicyEpisode] at h
  split at h
  · simp at h
  · simp at h
  · split at h <;> simp at h
    obtain ⟨h1, -⟩ := h
    rw [← h1]

/-- Every response that the proxy method `RunPolicyEpisode` returns has `Success = false`,
whatever the remote call returned. -/
theorem proxy_RunPolicyEpisode_Success_false (StructToStructPb : Encoder) (c : client)
    (ctx : Context) (req : RunPolicyEpisodeRequest) (resp : RunPolicyEpisodeResponse)
    (err : Option GoError)
    (h : (client.RunPolicyEpisode StructToStructPb c ctx req).outcome
      = .returned (some resp) err) :
    resp.Success = false := by
  simp only [client.RunPolicyEpisode] at h
  split at h
  · simp at h
  · split at h <;> simp at h
    obtain ⟨h1, -⟩ := h
    rw [← h1]

/-- Every `StartTeleoperation` call that the dispatcher makes on an instance, and every
`StartTeleoperation` request that the proxy sends, has `DisplayCameras = false`. -/
theorem StartTeleoperation_DisplayCameras_false (ctx : Context) :
    (∀ (s : serviceServer) (req : pb.StartTeleoperationRequest) (svc : Service) (ctx1 : Context)
        (arg : StartTeleoperationRequest),
        Event.invoke svc (.StartTeleoperation ctx1 arg) ∈ (s.StartTeleoperation ctx req).trace →
        arg.DisplayCameras = false)
    ∧ (∀ (StructToStructPb : Encoder) (c : client) (q : StartTeleoperationRequest)
        (ctx1 : Context) (w : pb.StartTeleoperationRequest),
        RemoteCall.StartTeleoperation ctx1 w
          ∈ (client.StartTeleoperation StructToStructPb c ctx q).trace →
        w.DisplayCameras = false) := by
  constructor
  · intro s req svc ctx1 arg h
    simp only [serviceServer.StartTeleoperation] at h
    split at h
    · simp at h
    · simp at h
    · split at h <;> simp at h <;> obtain ⟨-, -, h3⟩ := h <;> rw [h3]
  · intro enc c q ctx1 w h
    simp only [client.StartTeleoperation] at h
    split at h
    · simp at h
    · split at h <;> simp at h <;> obtain ⟨-, h2⟩ := h <;> rw [h2]

/-- C1, at the input of `TestRunPolicyEpisode`: the instance returns a response with
`Success = true` and no error, and the dispatcher returns no error and a wire response with the
instance's `NumSteps`, `DurationS` and `EpisodePath` but with `Success = false`. -/
theorem C1_dispatcher_RunPolicyEpisode_loses_Success :
    workingLeRobot.asService.RunPolicyEpisode Context.Background
        { PolicyID := "policy-789", MaxSteps := 300, Fps := 30, RecordToDataset := true,
          DatasetName := "eval-dataset", EpisodeIndex := 0, Extra := GoMap.nil }
      = (some { NumSteps := 200, DurationS := float20, Success := true,
                EpisodePath := "/path/to/policy/episode" }, none)
    ∧ (serviceServer.RunPolicyEpisode (newServer workingLeRobot failingLeRobot)
        Context.Background testRunPolicyEpisodeRequest).outcome
      = .returned (some { NumSteps := 200, DurationS := float20, Success := false,
                          EpisodePath := "/path/to/policy/episode" }) none := by
  constructor
  · rfl
  · simp [serviceServer.RunPolicyEpisode, newServer, NewRPCServiceServer, testColl,
      testRunPolicyEpisodeRequest, testLeRobotName, inject.LeRobotService.asService,
      inject.LeRobotService.RunPolicyEpisode, workingLeRobot]

/-- C2, at the input of `TestClient`: the remote call succeeds with a wire response `w` that has
`Success = true`, and the proxy returns no error and a response with the `NumSteps`, `DurationS`
and `EpisodePath` of `w` but with `Success = false`; the same holds when the remote call is the
dispatcher over the working instance of the test, which reports `Success = true`. -/
theorem C2_proxy_RunPolicyEpisode_loses_Success :
    (client.RunPolicyEpisode encodeAll
        (testClient
          { failingStub errTestFailed with
            RunPolicyEpisode := fun _ _ =>
              (some { NumSteps := 200, DurationS := float20, Success := true,
                      EpisodePath := "/path/to/policy/episode" }, none) }
          testLeRobotName)
        Context.Background testRunPolicyEpisodeCall).outcome
      = .returned (some { NumSteps := 200, DurationS := float20, Success := false,
                          EpisodePath := "/path/to/policy/episode" }) none
    ∧ (client.RunPolicyEpisode encodeAll
        (testClient (inProcessStub (newServer workingLeRobot failingLeRobot)) testLeRobotName)
        Context.Background testRunPolicyEpisodeCall).outcome
      = .returned (some { NumSteps := 200, DurationS := float20, Success := false,
                          EpisodePath := "/path/to/policy/episode" }) none := by
  constructor
  · simp [client.RunPolicyEpisode, encodeAll, testClient, testRunPolicyEpisodeCall]
  · simp [client.RunPolicyEpisode, encodeAll, testClient, testRunPolicyEpisodeCall,
      inProcessStub, deliver, serviceServer.RunPolicyEpisode, newServer, NewRPCServiceServer,
      testColl, testLeRobotName, inject.LeRobotService.asService,
      inject.LeRobotService.RunPolicyEpisode, workingLeRobot]

/-- C3, at the input of the tests: the proxy, given a request with `DisplayCameras = true`,
sends a wire request with `DisplayCameras = false`; and the dispatcher, given a wire request
with `DisplayCameras = true`, calls the instance with `DisplayCameras = false`.
`TeleopDeviceType` and `Fps` arrive unchanged. -/
theorem C3_StartTeleoperation_loses_DisplayCameras :
    (client.StartTeleoperation encodeAll
        (testClient (inProcessStub (newServer workingLeRobot failingLeRobot)) testLeRobotName)
        Context.Background testStartTeleoperationRequest).trace
      = [.StartTeleoperation Context.Background
          { Name := "lerobot1", TeleopDeviceType := "keyboard", Fps := 30,
            DisplayCameras := false, Extra := some ⟨[]⟩ }]
    ∧ (serviceServer.StartTeleoperation (newServer workingLeRobot failingLeRobot)
        Context.Background testStartTeleoperationWire).trace
      = [.resolve "lerobot1",
         .invoke workingLeRobot.asService
          (.StartTeleoperation Context.Background
            { TeleopDeviceType := "keyboard", Fps := 30, DisplayCameras := false,
              Extra := GoMap.nil })] := by
  constructor
  · simp [client.StartTeleoperation, encodeAll, testClient, testStartTeleoperationRequest,
      inProcessStub, deliver, serviceServer.StartTeleoperation, newServer, NewRPCServiceServer,
      testColl, testLeRobotName, inject.LeRobotService.asService,
      inject.LeRobotService.StartTeleoperation, workingLeRobot, GoMap.nil]
  · simp [serviceServer.StartTeleoperation, newServer, NewRPCServiceServer, testColl,
      testStartTeleoperationWire, testLeRobotName, inject.LeRobotService.asService,
      inject.LeRobotService.StartTeleoperation, workingLeRobot]

/-- C4: for each of the nine dispatcher operations, when the lookup `coll.Resource(req.Name)`
returns an error `e`, the run of the operation is that one lookup and nothing else (no method
of any instance is called), and it returns a nil response together with `e` itself. -/
theorem C4_unresolved_name_surfaces_lookup_error (s : serviceServer) (ctx : Context)
    (e : GoError) :
    (∀ (req : pb.StartRecordingRequest) (x : Option Service),
        s.coll.Resource req.Name = (x, some e) →
        s.StartRecording ctx req = ⟨[.resolve req.Name], .returned none (some e)⟩)
    ∧ (∀ (req : pb.StopRecordingRequest) (x : Option Service),
        s.coll.Resource req.Name = (x, some e) →
        s.StopRecording ctx req = ⟨[.resolve req.Name], .returned none (some e)⟩)
    ∧ (∀ (req : pb.RecordEpisodeRequest) (x : Option Service),
        s.coll.Resource req.Name = (x, some e) →
        s.RecordEpisode ctx req = ⟨[.resolve req.Name], .returned none (some e)⟩)
    ∧ (∀ (req : pb.ReplayEpisodeRequest) (x : Option Service),
        s.coll.Resource req.Name = (x, some e) →
        s.ReplayEpisode ctx req = ⟨[.resolve req.Name], .returned none (some e)⟩)
    ∧ (∀ (req : pb.StartTeleoperationRequest) (x : Option Service),
        s.coll.Resource req.Name = (x, some e) →
        s.StartTeleoperation ctx req = ⟨[.resolve req.Name], .returned none (some e)⟩)
    ∧ (∀ (req : pb.StopTeleoperationRequest) (x : Option Service),
        s.coll.Resource req.Name = (x, some e) →
        s.StopTeleoperation ctx req = ⟨[.resolve req.Name], .returned none (some e)⟩)
    ∧ (∀ (req : pb.LoadPolicyRequest) (x : Option Service),
        s.coll.Resource req.Name = (x, some e) →
        s.LoadPolicy ctx req = ⟨[.resolve req.Name], .returned none (some e)⟩)
    ∧ (∀ (req : pb.RunPolicyEpisodeRequest) (x : Option Service),
        s.coll.Resource req.Name = (x, some e) →
        s.RunPolicyEpisode ctx req = ⟨[.resolve req.Name], .returned none (some e)⟩)
    ∧ (∀ (req : commonpb.DoCommandRequest) (x : Option Service),
        s.coll.Resource req.Name = (x, some e) →
        s.DoCommand ctx req = ⟨[.resolve req.Name], .returned none (some e)⟩) := by
  refine ⟨?_, ?_, ?_, ?_, ?_, ?_, ?_, ?_, ?_⟩
  · intro req x h
    simp only [serviceServer.StartRecording, h]
  · intro req x h
    simp only [serviceServer.StopRecording, h]
  · intro req x h
    simp only [serviceServer.RecordEpisode, h]
  · intro req x h
    simp only [serviceServer.ReplayEpisode, h]
  · intro req x h
    simp only [serviceServer.StartTeleoperation, h]
  · intro req x h
    simp only [serviceServer.StopTeleoperation, h]
  · intro req x h
    simp only [serviceServer.LoadPolicy, h]
  · intro req x h
    simp only [serviceServer.RunPolicyEpisode, h]
  · intro req x h
    simp only [serviceServer.DoCommand, h]

/-- The collection of the tests answers the name `lerobot3` with not-found. -/
theorem testServer_lerobot3 :
    testServer.coll.Resource "lerobot3" = (none, some errNotFound3) := by
  simp [testServer, newServer, NewRPCServiceServer, testColl, testLeRobotName, failLeRobotName,
    errNotFound3]

/-- Witness of C4: the dispatcher of the tests, asked for the name `lerobot3` that its
collection does not hold, answers each of the nine operations with the lookup error, after the
lookup alone. -/
theorem C4_unresolved_name_witness :
    testServer.coll.Resource "lerobot3" = (none, some errNotFound3)
    ∧ testServer.StartRecording Context.Background (wireStartRecording "lerobot3")
      = ⟨[.resolve "lerobot3"], .returned none (some errNotFound3)⟩
    ∧ testServer.StopRecording Context.Background (wireStopRecording "lerobot3")
      = ⟨[.resolve "lerobot3"], .returned none (some errNotFound3)⟩
    ∧ testServer.RecordEpisode Context.Background (wireRecordEpisode "lerobot3")
      = ⟨[.resolve "lerobot3"], .returned none (some errNotFound3)⟩
    ∧ testServer.ReplayEpisode Context.Background (wireReplayEpisode "lerobot3")
      = ⟨[.resolve "lerobot3"], .returned none (some errNotFound3)⟩
    ∧ testServer.StartTeleoperation Context.Background (wireStartTeleoperation "lerobot3")
      = ⟨[.resolve "lerobot3"], .returned none (some errNotFound3)⟩
    ∧ testServer.StopTeleoperation Context.Background (wireStopTeleoperation "lerobot3")
      = ⟨[.resolve "lerobot3"], .returned none (some errNotFound3)⟩
    ∧ testServer.LoadPolicy Context.Background (wireLoadPolicy "lerobot3")
      = ⟨[.resolve "lerobot3"], .returned none (some errNotFound3)⟩
    ∧ testServer.RunPolicyEpisode Context.Background (wireRunPolicyEpisode "lerobot3")
      = ⟨[.resolve "lerobot3"], .returned none (some errNotFound3)⟩
    ∧ testServer.DoCommand Context.Background (wireDoCommand "lerobot3")
      = ⟨[.resolve "lerobot3"], .returned none (some errNotFound3)⟩ :=
  have h := C4_unresolved_name_surfaces_lookup_error testServer Context.Background errNotFound3
  ⟨testServer_lerobot3,
    h.1 (wireStartRecording "lerobot3") none testServer_lerobot3,
    h.2.1 (wireStopRecording "lerobot3") none testServer_lerobot3,
    h.2.2.1 (wireRecordEpisode "lerobot3") none testServer_lerobot3,
    h.2.2.2.1 (wireReplayEpisode "lerobot3") none testServer_lerobot3,
    h.2.2.2.2.1 (wireStartTeleoperation "lerobot3") none testServer_lerobot3,
    h.2.2.2.2.2.1 (wireStopTeleoperation "lerobot3") none testServer_lerobot3,
    h.2.2.2.2.2.2.1 (wireLoadPolicy "lerobot3") none testServer_lerobot3,
    h.2.2.2.2.2.2.2.1 (wireRunPolicyEpisode "lerobot3") none testServer_lerobot3,
    h.2.2.2.2.2.2.2.2 (wireDoCommand "lerobot3") none testServer_lerobot3⟩

/-- C5: for each of the eight service operations, when the name resolves to an instance, the
dispatcher makes exactly one call, of the corresponding method of that instance, and if the
instance returns an error `e` on that call the dispatcher returns a nil response together with
`e` itself. -/
theorem C5_instance_error_surfaces_unchanged (s : serviceServer) (ctx : Context) :
    (∀ (req : pb.StartRecordingRequest) (svc : Service),
        s.coll.Resource req.Name = (some svc, none) →
        ∃ c, c.method = "StartRecording"
          ∧ (s.StartRecording ctx req).trace = [.resolve req.Name, .invoke svc c]
          ∧ ∀ e, c.errorOn svc = some e →
              (s.StartRecording ctx req).outcome = .returned none (some e))
    ∧ (∀ (req : pb.StopRecordingRequest) (svc : Service),
        s.coll.Resource req.Name = (some svc, none) →
        ∃ c, c.method = "StopRecording"
          ∧ (s.StopRecording ctx req).trace = [.resolve req.Name, .invoke svc c]
          ∧ ∀ e, c.errorOn svc = some e →
              (s.StopRecording ctx req).outcome = .returned none (some e))
    ∧ (∀ (req : pb.RecordEpisodeRequest) (svc : Service),
        s.coll.Resource req.Name = (some svc, none) →
        ∃ c, c.method = "RecordEpisode"
          ∧ (s.RecordEpisode ctx req).trace = [.resolve req.Name, .invoke svc c]
          ∧ ∀ e, c.errorOn svc = some e →
              (s.RecordEpisode ctx req).outcome = .returned none (some e))
    ∧ (∀ (req : pb.ReplayEpisodeRequest) (svc : Service),
        s.coll.Resource req.Name = (some svc, none) →
        ∃ c, c.method = "ReplayEpisode"
          ∧ (s.ReplayEpisode ctx req).trace = [.resolve req.Name, .invoke svc c]
          ∧ ∀ e, c.errorOn svc = some e →
              (s.ReplayEpisode ctx req).outcome = .returned none (some e))
    ∧ (∀ (req : pb.StartTeleoperationRequest) (svc : Service),
        s.coll.Resource req.Name = (some svc, none) →
        ∃ c, c.method = "StartTeleoperation"
          ∧ (s.StartTeleoperation ctx req).trace = [.resolve req.Name, .invoke svc c]
          ∧ ∀ e, c.errorOn svc = some e →
              (s.StartTeleoperation ctx req).outcome = .returned none (some e))
    ∧ (∀ (req : pb.StopTeleoperationRequest) (svc : Service),
        s.coll.Resource req.Name = (some svc, none) →
        ∃ c, c.method = "StopTeleoperation"
          ∧ (s.StopTeleoperation ctx req).trace = [.resolve req.Name, .invoke svc c]
          ∧ ∀ e, c.errorOn svc = some e →
              (s.StopTeleoperation ctx req).outcome = .returned none (some e))
    ∧ (∀ (req : pb.LoadPolicyRequest) (svc : Service),
        s.coll.Resource req.Name = (some svc, none) →
        ∃ c, c.method = "LoadPolicy"
          ∧ (s.LoadPolicy ctx req).trace = [.resolve req.Name, .invoke svc c]
          ∧ ∀ e, c.errorOn svc = some e →
              (s.LoadPolicy ctx req).outcome = .returned none (some e))
    ∧ (∀ (req : pb.RunPolicyEpisodeRequest) (svc : Service),
        s.coll.Resource req.Name = (some svc, none) →
        ∃ c, c.method = "RunPolicyEpisode"
          ∧ (s.RunPolicyEpisode ctx req).trace = [.resolve req.Name, .invoke svc c]
          ∧ ∀ e, c.errorOn svc = some e →
              (s.RunPolicyEpisode ctx req).outcome = .returned none (some e)) := by
  refine ⟨?_, ?_, ?_, ?_, ?_, ?_, ?_, ?_⟩
  · intro req svc h
    simp only [serviceServer.StartRecording, h]
    split <;> refine ⟨_, ?_, rfl, ?_⟩ <;> simp_all [Call.method, Call.errorOn]
  · intro req svc h
    simp only [serviceServer.StopRecording, h]
    split <;> refine ⟨_, ?_, rfl, ?_⟩ <;> simp_all [Call.method, Call.errorOn]
  · intro req svc h
    simp only [serviceServer.RecordEpisode, h]
    split <;> refine ⟨_, ?_, rfl, ?_⟩ <;> simp_all [Call.method, Call.errorOn]
  · intro req svc h
    simp only [serviceServer.ReplayEpisode, h]
    split <;> refine ⟨_, ?_, rfl, ?_⟩ <;> simp_all [Call.method, Call.errorOn]
  · intro req svc h
    simp only [serviceServer.StartTeleoperation, h]
    split <;> refine ⟨_, ?_, rfl, ?_⟩ <;> simp_all [Call.method, Call.errorOn]
  · intro req svc h
    simp only [serviceServer.StopTeleoperation, h]
    split <;> refine ⟨_, ?_, rfl, ?_⟩ <;> simp_all [Call.method, Call.errorOn]
  · intro req svc h
    simp only [serviceServer.LoadPolicy, h]
    split <;> refine ⟨_, ?_, rfl, ?_⟩ <;> simp_all [Call.method, Call.errorOn]
  · intro req svc h
    simp only [serviceServer.RunPolicyEpisode, h]
    split <;> refine ⟨_, ?_, rfl, ?_⟩ <;> simp_all [Call.method, Call.errorOn]

/-- The collection of the tests answers the name `lerobot2` with the failing double. -/
theorem testServer_lerobot2 :
    testServer.coll.Resource "lerobot2" = (some failingLeRobot.asService, none) := by
  simp [testServer, newServer, NewRPCServiceServer, testColl, testLeRobotName, failLeRobotName]

/-- Every method of the failing double returns `errTestFailed`, whatever the call. -/
theorem failingLeRobot_errorOn (c : Call) (h : c.method ≠ "DoCommand") :
    c.errorOn failingLeRobot.asService = some errTestFailed := by
  cases c <;> first
    | rfl
    | exact absurd rfl h

/-- Witness of C5: the dispatcher of the tests, asked for `lerobot2`, whose every override
returns `errTestFailed`, answers each of the eight operations with a nil response and
`errTestFailed`. -/
theorem C5_instance_error_witness :
    testServer.coll.Resource "lerobot2" = (some failingLeRobot.asService, none)
    ∧ (testServer.StartRecording Context.Background (wireStartRecording "lerobot2")).outcome
      = .returned none (some errTestFailed)
    ∧ (testServer.StopRecording Context.Background (wireStopRecording "lerobot2")).outcome
      = .returned none (some errTestFailed)
    ∧ (testServer.RecordEpisode Context.Background (wireRecordEpisode "lerobot2")).outcome
      = .returned none (some errTestFailed)
    ∧ (testServer.ReplayEpisode Context.Background (wireReplayEpisode "lerobot2")).outcome
      = .returned none (some errTestFailed)
    ∧ (testServer.StartTeleoperation Context.Background
        (wireStartTeleoperation "lerobot2")).outcome
      = .returned none (some errTestFailed)
    ∧ (testServer.StopTeleoperation Context.Background
        (wireStopTeleoperation "lerobot2")).outcome
      = .returned none (some errTestFailed)
    ∧ (testServer.LoadPolicy Context.Background (wireLoadPolicy "lerobot2")).outcome
      = .returned none (some errTestFailed)
    ∧ (testServer.RunPolicyEpisode Context.Background
        (wireRunPolicyEpisode "lerobot2")).outcome
      = .returned none (some errTestFailed) := by
  have h := C5_instance_error_surfaces_unchanged testServer Context.Background
  refine ⟨testServer_lerobot2, ?_, ?_, ?_, ?_, ?_, ?_, ?_, ?_⟩
  · obtain ⟨c, hm, -, he⟩ := h.1 (wireStartRecording "lerobot2") _ testServer_lerobot2
    exact he _ (failingLeRobot_errorOn c (by rw [hm]; decide))
  · obtain ⟨c, hm, -, he⟩ := h.2.1 (wireStopRecording "lerobot2") _ testServer_lerobot2
    exact he _ (failingLeRobot_errorOn c (by rw [hm]; decide))
  · obtain ⟨c, hm, -, he⟩ := h.2.2.1 (wireRecordEpisode "lerobot2") _ testServer_lerobot2
    exact he _ (failingLeRobot_errorOn c (by rw [hm]; decide))
  · obtain ⟨c, hm, -, he⟩ := h.2.2.2.1 (wireReplayEpisode "lerobot2") _ testServer_lerobot2
    exact he _ (failingLeRobot_errorOn c (by rw [hm]; decide))
  · obtain ⟨c, hm, -, he⟩ :=
      h.2.2.2.2.1 (wireStartTeleoperation "lerobot2") _ testServer_lerobot2
    exact he _ (failingLeRobot_errorOn c (by rw [hm]; decide))
  · obtain ⟨c, hm, -, he⟩ :=
      h.2.2.2.2.2.1 (wireStopTeleoperation "lerobot2") _ testServer_lerobot2
    exact he _ (failingLeRobot_errorOn c (by rw [hm]; decide))
  · obtain ⟨c, hm, -, he⟩ := h.2.2.2.2.2.2.1 (wireLoadPolicy "lerobot2") _ testServer_lerobot2
    exact he _ (failingLeRobot_errorOn c (by rw [hm]; decide))
  · obtain ⟨c, hm, -, he⟩ :=
      h.2.2.2.2.2.2.2 (wireRunPolicyEpisode "lerobot2") _ testServer_lerobot2
    exact he _ (failingLeRobot_errorOn c (by rw [hm]; decide))

/-- C6: when the name of a `StartRecording` request resolves to an instance that returns the
session id `sid` and no error on the call the dispatcher makes, the dispatcher returns a
response with `SessionId = sid` and no error; and a proxy whose remote call yields that response
returns `sid` and no error. -/
theorem C6_StartRecording_returns_session_id (d sid : String) (ctx : Context) :
    (∀ (s : serviceServer) (req : pb.StartRecordingRequest) (svc : Service),
        req.DatasetName = d →
        s.coll.Resource req.Name = (some svc, none) →
        svc.StartRecording ctx d
            (match req.Extra with
              | some e => e.AsMap
              | none => GoMap.nil) = (sid, none) →
        (s.StartRecording ctx req).outcome = .returned (some { SessionId := sid }) none)
    ∧ (∀ (StructToStructPb : Encoder) (c : client) (extra : GoMap) (ext : Option Struct),
        StructToStructPb extra = (ext, none) →
        c.client.StartRecording ctx { Name := c.name, DatasetName := d, Extra := ext }
          = (some { SessionId := sid }, none) →
        (client.StartRecording StructToStructPb c ctx d extra).outcome
          = .returned sid none) := by
  constructor
  · intro s req svc hd hres hsvc
    subst hd
    simp only [serviceServer.StartRecording, hres, hsvc]
  · intro enc c extra ext henc hcall
    simp only [client.StartRecording, henc, hcall]

/-- The collection of the tests answers the name `lerobot1` with the working double. -/
theorem testServer_lerobot1 :
    testServer.coll.Resource "lerobot1" = (some workingLeRobot.asService, none) := by
  simp [testServer, newServer, NewRPCServiceServer, testColl, testLeRobotName]

/-- Witness of C6, the case of the tests: the working double returns `session-123`, the
dispatcher answers the request for dataset `test-dataset` without options with
`SessionId = session-123`, and the proxy called with that dataset and the nil options map
returns `session-123` and no error. -/
theorem C6_StartRecording_witness :
    (testServer.StartRecording Context.Background (wireStartRecording "lerobot1")).outcome
      = .returned (some { SessionId := "session-123" }) none
    ∧ (client.StartRecording encodeAll (testClient (inProcessStub testServer) "lerobot1")
        Context.Background "test-dataset" GoMap.nil).outcome
      = .returned "session-123" none :=
  have h := C6_StartRecording_returns_session_id "test-dataset" "session-123"
    Context.Background
  have hd : (testServer.StartRecording Context.Background
      (wireStartRecording "lerobot1")).outcome
      = .returned (some { SessionId := "session-123" }) none :=
    h.1 testServer (wireStartRecording "lerobot1") workingLeRobot.asService rfl
      testServer_lerobot1 rfl
  ⟨hd,
    h.2 encodeAll (testClient (inProcessStub testServer) "lerobot1") GoMap.nil (some ⟨[]⟩) rfl
      (by
        simp [testClient, inProcessStub, deliver, serviceServer.StartRecording, testServer,
          newServer, NewRPCServiceServer, testColl, testLeRobotName,
          inject.LeRobotService.asService, inject.LeRobotService.StartRecording,
          workingLeRobot])⟩

/-- C8: the recording source `v` of a request passed to the proxy method `RecordEpisode` goes
into the wire request, and the dispatcher, given that wire request, calls the instance with a
request whose `Source` is `v` again. The dispatcher turns the wire value 2 into
`RecordingSourcePolicy`, 1 into `RecordingSourceTeleoperation` and 0 into
`RecordingSourceUnspecified`; with the wire value 0 it still calls the instance, and returns an
error only if the instance returned that error. -/
theorem C8_RecordingSource_round_trip (v : RecordingSource) (ctx : Context) :
    (∀ (StructToStructPb : Encoder) (c : client) (q : RecordEpisodeRequest)
        (ext : Option Struct),
        q.Source = v →
        StructToStructPb q.Extra = (ext, none) →
        ∃ w, (client.RecordEpisode StructToStructPb c ctx q).trace = [.RecordEpisode ctx w]
          ∧ ∀ (s : serviceServer) (svc : Service),
              s.coll.Resource w.Name = (some svc, none) →
              ∃ arg, (s.RecordEpisode ctx w).trace
                    = [.resolve w.Name, .invoke svc (.RecordEpisode ctx arg)]
                ∧ arg.Source = v)
    ∧ (∀ (s : serviceServer) (req : pb.RecordEpisodeRequest) (svc : Service),
        s.coll.Resource req.Name = (some svc, none) →
        ∃ arg, (s.RecordEpisode ctx req).trace
              = [.resolve req.Name, .invoke svc (.RecordEpisode ctx arg)]
          ∧ (req.Source = ⟨2⟩ → arg.Source = RecordingSourcePolicy)
          ∧ (req.Source = ⟨1⟩ → arg.Source = RecordingSourceTeleoperation)
          ∧ (req.Source = ⟨0⟩ → arg.Source = RecordingSourceUnspecified)
          ∧ ∀ r err, (s.RecordEpisode ctx req).outcome = .returned r (some err) →
              (svc.RecordEpisode ctx arg).2 = some err) := by
  constructor
  · intro enc c q ext hq henc
    simp only [client.RecordEpisode, henc]
    split <;> refine ⟨_, rfl, ?_⟩ <;>
    · intro s svc hres
      simp only [serviceServer.RecordEpisode, hres]
      split <;> exact ⟨_, rfl, hq⟩
  · intro s req svc hres
    simp only [serviceServer.RecordEpisode, hres]
    split <;> refine ⟨_, rfl, ?_, ?_, ?_, ?_⟩ <;>
      simp_all [RecordingSourcePolicy, RecordingSourceTeleoperation,
        RecordingSourceUnspecified]

/-- Witness of C8, the case of the spec: the source `RecordingSourcePolicy` (value 2), sent by
the proxy of the tests and received by the dispatcher of the tests. -/
theorem C8_RecordingSource_witness :
    (callRecordEpisode RecordingSourcePolicy).Source = RecordingSourcePolicy
    ∧ encodeAll (callRecordEpisode RecordingSourcePolicy).Extra = (some ⟨[]⟩, none)
    ∧ (∃ w, (client.RecordEpisode encodeAll (testClient (inProcessStub testServer) "lerobot1")
            Context.Background (callRecordEpisode RecordingSourcePolicy)).trace
          = [.RecordEpisode Context.Background w]
        ∧ ∀ (s : serviceServer) (svc : Service),
            s.coll.Resource w.Name = (some svc, none) →
            ∃ arg, (s.RecordEpisode Context.Background w).trace
                  = [.resolve w.Name, .invoke svc (.RecordEpisode Context.Background arg)]
              ∧ arg.Source = RecordingSourcePolicy)
    ∧ (∃ arg, (testServer.RecordEpisode Context.Background (wireRecordEpisode "lerobot1")).trace
            = [.resolve "lerobot1",
               .invoke workingLeRobot.asService (.RecordEpisode Context.Background arg)]
        ∧ ((wireRecordEpisode "lerobot1").Source = ⟨2⟩ → arg.Source = RecordingSourcePolicy)
        ∧ ((wireRecordEpisode "lerobot1").Source = ⟨1⟩ →
            arg.Source = RecordingSourceTeleoperation)
        ∧ ((wireRecordEpisode "lerobot1").Source = ⟨0⟩ →
            arg.Source = RecordingSourceUnspecified)
        ∧ ∀ r err,
            (testServer.RecordEpisode Context.Background (wireRecordEpisode "lerobot1")).outcome
              = .returned r (some err) →
            (workingLeRobot.asService.RecordEpisode Context.Background arg).2 = some err) :=
  have h := C8_RecordingSource_round_trip RecordingSourcePolicy Context.Background
  ⟨rfl, rfl,
    h.1 encodeAll (testClient (inProcessStub testServer) "lerobot1")
      (callRecordEpisode RecordingSourcePolicy) (some ⟨[]⟩) rfl rfl,
    h.2 testServer (wireRecordEpisode "lerobot1") workingLeRobot.asService
      testServer_lerobot1⟩

/-- C9, as stated, fails: the proxy built with the identifier `remote1` for the instance
`lerobot1` sends `lerobot1` as the routing name, and the dispatcher looks up that very name;
the routing name is not the looked-up name behind a segment, so the dispatcher has stripped
no segment. -/
theorem C9_dispatcher_strips_no_segment :
    ∃ c w, NewClientFromConn Context.Background testConn "remote1" (Named "lerobot1")
          = (some c, none)
      ∧ (client.StartRecording encodeAll c Context.Background "test-dataset" GoMap.nil).trace
          = [.StartRecording Context.Background w]
      ∧ w.Name = "lerobot1"
      ∧ resolvedNames (testServer.StartRecording Context.Background w).trace = ["lerobot1"]
      ∧ ¬ ∃ seg : String, 0 < seg.length ∧ w.Name = seg ++ "lerobot1" := by
  refine ⟨_, { Name := "lerobot1", DatasetName := "test-dataset", Extra := some ⟨[]⟩ },
    rfl, ?_, rfl, ?_, ?_⟩
  · simp [client.StartRecording, encodeAll, pb.NewLeRobotServiceClient, testConn,
      inProcessStub, deliver, serviceServer.StartRecording, testServer, newServer,
      NewRPCServiceServer, testColl, testLeRobotName, inject.LeRobotService.asService,
      inject.LeRobotService.StartRecording, workingLeRobot, Named, resource.NewName, GoMap.nil]
  · simp [serviceServer.StartRecording, testServer, newServer, NewRPCServiceServer, testColl,
      testLeRobotName, inject.LeRobotService.asService,
      inject.LeRobotService.StartRecording, workingLeRobot, resolvedNames]
  · rintro ⟨seg, hpos, heq⟩
    dsimp only at heq
    have hlen := congrArg String.length heq
    rw [String.length_append] at hlen
    omega

/-- C9, amended: the proxy that `NewClientFromConn` builds for the name `n` keeps `n.Name` as
its routing name, whatever the identifier of the intermediate system; every remote call of each
of its nine methods carries `n.Name`; and each of the nine dispatcher operations looks up, once,
exactly the name the request carries. -/
theorem C9_routing_name_is_local_name (ctx0 : Context) (conn : rpc.ClientConn) (p : String)
    (n : resource.Name) :
    ∃ c, NewClientFromConn ctx0 conn p n = (some c, none)
      ∧ c.name = n.Name
      ∧ (∀ (StructToStructPb : Encoder) (ctx : Context) (d : String) (x : GoMap),
          ∀ rc ∈ (client.StartRecording StructToStructPb c ctx d x).trace, rc.routingName = n.Name)
      ∧ (∀ (StructToStructPb : Encoder) (ctx : Context) (d : String) (x : GoMap),
          ∀ rc ∈ (client.StopRecording StructToStructPb c ctx d x).trace, rc.routingName = n.Name)
      ∧ (∀ (StructToStructPb : Encoder) (ctx : Context) (q : RecordEpisodeRequest),
          ∀ rc ∈ (client.RecordEpisode StructToStructPb c ctx q).trace, rc.routingName = n.Name)
      ∧ (∀ (StructToStructPb : Encoder) (ctx : Context) (q : ReplayEpisodeRequest),
          ∀ rc ∈ (client.ReplayEpisode StructToStructPb c ctx q).trace, rc.routingName = n.Name)
      ∧ (∀ (StructToStructPb : Encoder) (ctx : Context) (q : StartTeleoperationRequest),
          ∀ rc ∈ (client.StartTeleoperation StructToStructPb c ctx q).trace, rc.routingName = n.Name)
      ∧ (∀ (StructToStructPb : Encoder) (ctx : Context) (d : String) (x : GoMap),
          ∀ rc ∈ (client.StopTeleoperation StructToStructPb c ctx d x).trace, rc.routingName = n.Name)
      ∧ (∀ (StructToStructPb : Encoder) (ctx : Context) (q : LoadPolicyRequest),
          ∀ rc ∈ (client.LoadPolicy StructToStructPb c ctx q).trace, rc.routingName = n.Name)
      ∧ (∀ (StructToStructPb : Encoder) (ctx : Context) (q : RunPolicyEpisodeRequest),
          ∀ rc ∈ (client.RunPolicyEpisode StructToStructPb c ctx q).trace, rc.routingName = n.Name)
      ∧ (∀ (StructToStructPb : Encoder) (ctx : Context) (x : GoMap),
          ∀ rc ∈ (client.DoCommand StructToStructPb c ctx x).trace, rc.routingName = n.Name)
      ∧ (∀ (s : serviceServer) (ctx : Context) (req : pb.StartRecordingRequest),
          resolvedNames (s.StartRecording ctx req).trace = [req.Name])
      ∧ (∀ (s : serviceServer) (ctx : Context) (req : pb.StopRecordingRequest),
          resolvedNames (s.StopRecording ctx req).trace = [req.Name])
      ∧ (∀ (s : serviceServer) (ctx : Context) (req : pb.RecordEpisodeRequest),
          resolvedNames (s.RecordEpisode ctx req).trace = [req.Name])
      ∧ (∀ (s : serviceServer) (ctx : Context) (req : pb.ReplayEpisodeRequest),
          resolvedNames (s.ReplayEpisode ctx req).trace = [req.Name])
      ∧ (∀ (s : serviceServer) (ctx : Context) (req : pb.StartTeleoperationRequest),
          resolvedNames (s.StartTeleoperation ctx req).trace = [req.Name])
      ∧ (∀ (s : serviceServer) (ctx : Context) (req : pb.StopTeleoperationRequest),
          resolvedNames (s.StopTeleoperation ctx req).trace = [req.Name])
      ∧ (∀ (s : serviceServer) (ctx : Context) (req : pb.LoadPolicyRequest),
          resolvedNames (s.LoadPolicy ctx req).trace = [req.Name])
      ∧ (∀ (s : serviceServer) (ctx : Context) (req : pb.RunPolicyEpisodeRequest),
          resolvedNames (s.RunPolicyEpisode ctx req).trace = [req.Name])
      ∧ (∀ (s : serviceServer) (ctx : Context) (req : commonpb.DoCommandRequest),
          resolvedNames (s.DoCommand ctx req).trace = [req.Name]) := by
  refine ⟨_, rfl, rfl, ?_, ?_, ?_, ?_, ?_, ?_, ?_, ?_, ?_, ?_, ?_, ?_, ?_, ?_, ?_, ?_, ?_, ?_⟩
  · intro enc ctx d x rc hrc
    simp only [client.StartRecording] at hrc
    split at hrc
    · simp at hrc
    · split at hrc <;> simp_all [RemoteCall.routingName]
  · intro enc ctx d x rc hrc
    simp only [client.StopRecording] at hrc
    split at hrc
    · simp at hrc
    · split at hrc <;> simp_all [RemoteCall.routingName]
  · intro enc ctx q rc hrc
    simp only [client.RecordEpisode] at hrc
    split at hrc
    · simp at hrc
    · split at hrc <;> simp_all [RemoteCall.routingName]
  · intro enc ctx q rc hrc
    simp only [client.ReplayEpisode] at hrc
    split at hrc
    · simp at hrc
    · split at hrc <;> simp_all [RemoteCall.routingName]
  · intro enc ctx q rc hrc
    simp only [client.StartTeleoperation] at hrc
    split at hrc
    · simp at hrc
    · split at hrc <;> simp_all [RemoteCall.routingName]
  · intro enc ctx d x rc hrc
    simp only [client.StopTeleoperation] at hrc
    split at hrc
    · simp at hrc
    · split at hrc <;> simp_all [RemoteCall.routingName]
  · intro enc ctx q rc hrc
    simp only [client.LoadPolicy] at hrc
    split at hrc
    · simp at hrc
    · split at hrc <;> simp_all [RemoteCall.routingName]
  · intro enc ctx q rc hrc
    simp only [client.RunPolicyEpisode] at hrc
    split at hrc
    · simp at hrc
    · split at hrc <;> simp_all [RemoteCall.routingName]
  · intro enc ctx x rc hrc
    simp only [client.DoCommand] at hrc
    split at hrc
    · simp at hrc
    · split at hrc <;> simp_all [RemoteCall.routingName]
  · intro s ctx req
    simp only [serviceServer.StartRecording]
    split
    · rfl
    · rfl
    · split <;> rfl
  · intro s ctx req
    simp only [serviceServer.StopRecording]
    split
    · rfl
    · rfl
    · split <;> rfl
  · intro s ctx req
    simp only [serviceServer.RecordEpisode]
    split
    · rfl
    · rfl
    · split <;> rfl
  · intro s ctx req
    simp only [serviceServer.ReplayEpisode]
    split
    · rfl
    · rfl
    · split <;> rfl
  · intro s ctx req
    simp only [serviceServer.StartTeleoperation]
    split
    · rfl
    · rfl
    · split <;> rfl
  · intro s ctx req
    simp only [serviceServer.StopTeleoperation]
    split
    · rfl
    · rfl
    · split <;> rfl
  · intro s ctx req
    simp only [serviceServer.LoadPolicy]
    split
    · rfl
    · rfl
    · split <;> rfl
  · intro s ctx req
    simp only [serviceServer.RunPolicyEpisode]
    split
    · rfl
    · rfl
    · split <;> rfl
  · intro s ctx req
    simp only [serviceServer.DoCommand, protoutils.DoFromResourceServer]
    split
    · rfl
    · rfl
    · split <;> rfl

/-- Witness of C9, amended: the proxy built with the identifier `remote1` for the instance
`lerobot1` issues a `StartRecording` call whose routing name is `lerobot1`, and the dispatcher
of the tests, given the request of that call, looks up `lerobot1`. -/
theorem C9_routing_name_witness :
    (∃ c, NewClientFromConn Context.Background testConn "remote1" (Named "lerobot1")
          = (some c, none)
      ∧ c.name = "lerobot1"
      ∧ RemoteCall.StartRecording Context.Background sentStartRecording
          ∈ (client.StartRecording encodeAll c Context.Background "test-dataset"
              GoMap.nil).trace)
    ∧ (RemoteCall.StartRecording Context.Background sentStartRecording).routingName
        = "lerobot1"
    ∧ resolvedNames (testServer.StartRecording Context.Background sentStartRecording).trace
        = ["lerobot1"] := by
  obtain ⟨c, hc, hname, h1, -, -, -, -, -, -, -, -, hs, -⟩ :=
    C9_routing_name_is_local_name Context.Background testConn "remote1" (Named "lerobot1")
  have hmem : RemoteCall.StartRecording Context.Background sentStartRecording
      ∈ (client.StartRecording encodeAll c Context.Background "test-dataset"
          GoMap.nil).trace := by
    simp only [NewClientFromConn, Prod.mk.injEq, Option.some.injEq, and_true] at hc
    subst hc
    simp [client.StartRecording, encodeAll, pb.NewLeRobotServiceClient, testConn,
      inProcessStub, deliver, serviceServer.StartRecording, testServer, newServer,
      NewRPCServiceServer, testColl, testLeRobotName, inject.LeRobotService.asService,
      inject.LeRobotService.StartRecording, workingLeRobot, Named, resource.NewName, GoMap.nil,
      sentStartRecording]
  exact ⟨⟨c, hc, hname, hmem⟩, h1 encodeAll Context.Background "test-dataset" GoMap.nil _ hmem,
    hs testServer Context.Background sentStartRecording⟩

/-- The construction applied through a list of intermediate systems puts their identifiers, the
last applied first, in front of the segments the name had. -/
theorem proxyNameThrough_Remote (ctx : Context) (conn : rpc.ClientConn) (ps : List String) :
    ∀ n : resource.Name,
      (proxyNameThrough ctx conn ps n).Remote = ps.reverse ++ n.Remote
      ∧ (proxyNameThrough ctx conn ps n).API = n.API
      ∧ (proxyNameThrough ctx conn ps n).Name = n.Name := by
  induction ps with
  | nil => intro n; simp [proxyNameThrough]
  | cons p rest ih =>
    intro n
    obtain ⟨h1, h2, h3⟩ := ih (proxyName ctx conn p n)
    simp only [proxyNameThrough, h1, h2, h3]
    simp [proxyName, NewClientFromConn, resource.Name.PrependRemote]

/-- C10: for a name `n` and a non-empty identifier `p`, `NewClientFromConn` returns no error
and a proxy whose name has the segments of `n` with `p` put first, so one segment more, and the
API identifier and instance name of `n`; applied once for each of a list of non-empty
identifiers, the construction adds as many segments as the list is long. -/
theorem C10_construction_adds_one_segment (ctx : Context) (conn : rpc.ClientConn) (p : String)
    (n : resource.Name) (ps : List String) (_hp : p ≠ "") (_hps : ∀ q ∈ ps, q ≠ "") :
    (∃ c, NewClientFromConn ctx conn p n = (some c, none)
      ∧ c.Named.Remote = p :: n.Remote
      ∧ c.Named.Remote.length = n.Remote.length + 1
      ∧ c.Named.API = n.API
      ∧ c.Named.Name = n.Name)
    ∧ (proxyNameThrough ctx conn ps n).Remote.length = n.Remote.length + ps.length
    ∧ (proxyNameThrough ctx conn ps n).API = n.API
    ∧ (proxyNameThrough ctx conn ps n).Name = n.Name := by
  refine ⟨⟨_, rfl, rfl, ?_, rfl, rfl⟩, ?_, ?_, ?_⟩
  · simp [resource.Name.PrependRemote]
  · rw [(proxyNameThrough_Remote ctx conn ps n).1]
    simp [Nat.add_comm]
  · exact (proxyNameThrough_Remote ctx conn ps n).2.1
  · exact (proxyNameThrough_Remote ctx conn ps n).2.2

/-- Witness of C10: the instance `lerobot1`, already behind the system `inner`, reached through
`outer`; and the construction applied for `hop1`, then `hop2`. -/
theorem C10_construction_witness :
    (∃ c, NewClientFromConn Context.Background testConn "outer"
            { API := API, Remote := ["inner"], Name := "lerobot1" } = (some c, none)
      ∧ c.Named.Remote = ["outer", "inner"]
      ∧ c.Named.Remote.length = 1 + 1
      ∧ c.Named.API = API
      ∧ c.Named.Name = "lerobot1")
    ∧ (proxyNameThrough Context.Background testConn ["hop1", "hop2"]
        { API := API, Remote := ["inner"], Name := "lerobot1" }).Remote.length = 1 + 2
    ∧ (proxyNameThrough Context.Background testConn ["hop1", "hop2"]
        { API := API, Remote := ["inner"], Name := "lerobot1" }).API = API
    ∧ (proxyNameThrough Context.Background testConn ["hop1", "hop2"]
        { API := API, Remote := ["inner"], Name := "lerobot1" }).Name = "lerobot1" :=
  C10_construction_adds_one_segment Context.Background testConn "outer"
    { API := API, Remote := ["inner"], Name := "lerobot1" } ["hop1", "hop2"]
    (by decide) (by decide)

/-- C11: when the name of a `DoCommand` request resolves to an instance, the dispatcher makes
exactly one call, of `DoCommand` of that instance, with the command of the request as a map; it
returns a response whose result holds the entries of the map the instance produced, or a nil
response and the instance's own error. The proxy issues one `DoCommand` call that carries its
routing name and the encoded command, and returns the result of the response as a map. When the
encoded command decodes to the map `m` the caller gave, the instance receives `m`. -/
theorem C11_DoCommand_forwards_open_map (ctx : Context) :
    (∀ (s : serviceServer) (req : commonpb.DoCommandRequest) (svc : Service),
        s.coll.Resource req.Name = (some svc, none) →
        (s.DoCommand ctx req).trace
            = [.resolve req.Name,
               .invoke svc (.DoCommand (trace.StartSpan ctx doCommandSpan)
                 (Struct.AsMapOfPtr req.Command))]
          ∧ (∀ result,
              svc.DoCommand (trace.StartSpan ctx doCommandSpan) (Struct.AsMapOfPtr req.Command)
                = (result, none) →
              ∃ resp, (s.DoCommand ctx req).outcome = .returned (some resp) none
                ∧ (Struct.AsMapOfPtr resp.Result).entries = result.entries)
          ∧ (∀ result e,
              svc.DoCommand (trace.StartSpan ctx doCommandSpan) (Struct.AsMapOfPtr req.Command)
                = (result, some e) →
              (s.DoCommand ctx req).outcome = .returned none (some e)))
    ∧ (∀ (StructToStructPb : Encoder) (c : client) (m : GoMap) (command : Option Struct),
        StructToStructPb m = (command, none) →
        (client.DoCommand StructToStructPb c ctx m).trace
            = [.DoCommand ctx { Name := c.name, Command := command }]
          ∧ (∀ resp,
              c.client.DoCommand ctx { Name := c.name, Command := command } = (some resp, none) →
              (client.DoCommand StructToStructPb c ctx m).outcome
                = .returned (Struct.AsMapOfPtr resp.Result) none)
          ∧ (∀ (s : serviceServer) (svc : Service),
              Struct.AsMapOfPtr command = m →
              s.coll.Resource c.name = (some svc, none) →
              (s.DoCommand ctx { Name := c.name, Command := command }).trace
                = [.resolve c.name,
                   .invoke svc (.DoCommand (trace.StartSpan ctx doCommandSpan) m)])) := by
  have hd : ∀ (s : serviceServer) (req : commonpb.DoCommandRequest) (svc : Service),
      s.coll.Resource req.Name = (some svc, none) →
      (s.DoCommand ctx req).trace
        = [.resolve req.Name,
           .invoke svc (.DoCommand (trace.StartSpan ctx doCommandSpan)
             (Struct.AsMapOfPtr req.Command))] := by
    intro s req svc hres
    simp only [serviceServer.DoCommand, hres, protoutils.DoFromResourceServer, doCommandSpan,
      Struct.AsMapOfPtr]
    split <;> rfl
  refine ⟨fun s req svc hres => ⟨hd s req svc hres, ?_, ?_⟩, ?_⟩
  · intro result hsvc
    simp only [doCommandSpan, Struct.AsMapOfPtr] at hsvc
    simp only [serviceServer.DoCommand, hres, protoutils.DoFromResourceServer, hsvc]
    exact ⟨_, rfl, by simp [Struct.AsMapOfPtr, Struct.AsMap, GoMap.entries]⟩
  · intro result e hsvc
    simp only [doCommandSpan, Struct.AsMapOfPtr] at hsvc
    simp only [serviceServer.DoCommand, hres, protoutils.DoFromResourceServer, hsvc]
  · intro enc c m command henc
    refine ⟨?_, ?_, ?_⟩
    · simp only [client.DoCommand, henc]
      split <;> rfl
    · intro resp hcall
      simp only [client.DoCommand, henc, hcall]
    · intro s svc hm hres
      have := hd s { Name := c.name, Command := command } svc hres
      simpa [hm] using this

/-- The collection of `echoServer` answers the name `lerobot1` with the echoing double. -/
theorem echoServer_lerobot1 :
    echoServer.coll.Resource "lerobot1" = (some echoLeRobot.asService, none) := by
  simp [echoServer, newServer, NewRPCServiceServer, testColl, testLeRobotName]

/-- Witness of C11: the command map with the one entry `command: test`, sent by the proxy for
`lerobot1` to the dispatcher over the echoing double, reaches the double unchanged and comes
back to the caller of the proxy. -/
theorem C11_DoCommand_witness :
    echoServer.coll.Resource "lerobot1" = (some echoLeRobot.asService, none)
    ∧ (echoServer.DoCommand Context.Background wireTestCommand).trace
        = [.resolve "lerobot1",
           .invoke echoLeRobot.asService
             (.DoCommand (trace.StartSpan Context.Background doCommandSpan) testCommand)]
    ∧ (∃ resp, (echoServer.DoCommand Context.Background wireTestCommand).outcome
          = .returned (some resp) none
        ∧ (Struct.AsMapOfPtr resp.Result).entries = testCommand.entries)
    ∧ (client.DoCommand encodeAll (testClient (inProcessStub echoServer) "lerobot1")
        Context.Background testCommand).trace
        = [.DoCommand Context.Background wireTestCommand]
    ∧ (client.DoCommand encodeAll (testClient (inProcessStub echoServer) "lerobot1")
        Context.Background testCommand).outcome
        = .returned testCommand none :=
  have h := C11_DoCommand_forwards_open_map Context.Background
  have hs := h.1 echoServer wireTestCommand echoLeRobot.asService echoServer_lerobot1
  have hc := h.2 encodeAll (testClient (inProcessStub echoServer) "lerobot1") testCommand
    (some ⟨[("command", Value.str "test")]⟩) rfl
  ⟨echoServer_lerobot1, hs.1, hs.2.1 testCommand rfl, hc.1,
    hc.2.1 { Result := some ⟨[("command", Value.str "test")]⟩ }
      (by
        simp [testClient, inProcessStub, deliver, serviceServer.DoCommand,
          protoutils.DoFromResourceServer, echoServer, newServer, NewRPCServiceServer, testColl,
          testLeRobotName, inject.LeRobotService.asService, inject.LeRobotService.DoCommand,
          echoLeRobot, Struct.AsMap])⟩

/-- C12: for each of the nine proxy methods, when the options (or the command) are encoded and
the remote call returns an error `e`, with a response or with none, the proxy has issued that one
call and returns `e` itself together with the zero value of its result: the empty string for a
session id, 0 for a duration, nil for a structured response and for a result map. -/
theorem C12_remote_error_surfaces_unchanged (StructToStructPb : Encoder) (c : client)
    (ctx : Context) (e : GoError) :
    (∀ (d : String) (x : GoMap) (ext : Option Struct) (r : Option pb.StartRecordingResponse),
        StructToStructPb x = (ext, none) →
        c.client.StartRecording ctx
            { Name := c.name, DatasetName := d, Extra := ext } = (r, some e) →
        client.StartRecording StructToStructPb c ctx d x
          = ⟨[.StartRecording ctx
              { Name := c.name, DatasetName := d, Extra := ext }],
            .returned "" (some e)⟩)
    ∧ (∀ (d : String) (x : GoMap) (ext : Option Struct) (r : Option pb.StopRecordingResponse),
        StructToStructPb x = (ext, none) →
        c.client.StopRecording ctx
            { Name := c.name, SessionId := d, Extra := ext } = (r, some e) →
        client.StopRecording StructToStructPb c ctx d x
          = ⟨[.StopRecording ctx
              { Name := c.name, SessionId := d, Extra := ext }],
            .returned Float32.zero (some e)⟩)
    ∧ (∀ (q : RecordEpisodeRequest) (ext : Option Struct) (r : Option pb.RecordEpisodeResponse),
        StructToStructPb q.Extra = (ext, none) →
        c.client.RecordEpisode ctx
            { Name := c.name, DatasetName := q.DatasetName, EpisodeIndex := q.EpisodeIndex,
              Source := ⟨q.Source.val⟩, WarmupTimeS := q.WarmupTimeS,
              EpisodeTimeS := q.EpisodeTimeS, ResetTimeS := q.ResetTimeS, Fps := q.Fps,
              Tags := q.Tags, Extra := ext } = (r, some e) →
        client.RecordEpisode StructToStructPb c ctx q
          = ⟨[.RecordEpisode ctx
              { Name := c.name, DatasetName := q.DatasetName, EpisodeIndex := q.EpisodeIndex,
                Source := ⟨q.Source.val⟩, WarmupTimeS := q.WarmupTimeS,
                EpisodeTimeS := q.EpisodeTimeS, ResetTimeS := q.ResetTimeS, Fps := q.Fps,
                Tags := q.Tags, Extra := ext }],
            .returned none (some e)⟩)
    ∧ (∀ (q : ReplayEpisodeRequest) (ext : Option Struct) (r : Option pb.ReplayEpisodeResponse),
        StructToStructPb q.Extra = (ext, none) →
        c.client.ReplayEpisode ctx
            { Name := c.name, DatasetName := q.DatasetName, EpisodeIndex := q.EpisodeIndex,
              Fps := q.Fps, Extra := ext } = (r, some e) →
        client.ReplayEpisode StructToStructPb c ctx q
          = ⟨[.ReplayEpisode ctx
              { Name := c.name, DatasetName := q.DatasetName, EpisodeIndex := q.EpisodeIndex,
                Fps := q.Fps, Extra := ext }],
            .returned none (some e)⟩)
    ∧ (∀ (q : StartTeleoperationRequest) (ext : Option Struct) (r : Option pb.StartTeleoperationResponse),
        StructToStructPb q.Extra = (ext, none) →
        c.client.StartTeleoperation ctx
            { Name := c.name, TeleopDeviceType := q.TeleopDeviceType, Fps := q.Fps,
              DisplayCameras := false, Extra := ext } = (r, some e) →
        client.StartTeleoperation StructToStructPb c ctx q
          = ⟨[.StartTeleoperation ctx
              { Name := c.name, TeleopDeviceType := q.TeleopDeviceType, Fps := q.Fps,
                DisplayCameras := false, Extra := ext }],
            .returned "" (some e)⟩)
    ∧ (∀ (d : String) (x : GoMap) (ext : Option Struct) (r : Option pb.StopTeleoperationResponse),
        StructToStructPb x = (ext, none) →
        c.client.StopTeleoperation ctx
            { Name := c.name, SessionId := d, Extra := ext } = (r, some e) →
        client.StopTeleoperation StructToStructPb c ctx d x
          = ⟨[.StopTeleoperation ctx
              { Name := c.name, SessionId := d, Extra := ext }],
            .returned Float32.zero (some e)⟩)
    ∧ (∀ (q : LoadPolicyRequest) (ext : Option Struct) (r : Option pb.LoadPolicyResponse),
        StructToStructPb q.Extra = (ext, none) →
        c.client.LoadPolicy ctx
            { Name := c.name, PolicyRepoId := q.PolicyRepoID, Extra := ext } = (r, some e) →
        client.LoadPolicy StructToStructPb c ctx q
          = ⟨[.LoadPolicy ctx
              { Name := c.name, PolicyRepoId := q.PolicyRepoID, Extra := ext }],
            .returned none (some e)⟩)
    ∧ (∀ (q : RunPolicyEpisodeRequest) (ext : Option Struct) (r : Option pb.RunPolicyEpisodeResponse),
        StructToStructPb q.Extra = (ext, none) →
        c.client.RunPolicyEpisode ctx
            { Name := c.name, PolicyId := q.PolicyID, MaxSteps := q.MaxSteps, Fps := q.Fps,
              RecordToDataset := q.RecordToDataset, DatasetName := q.DatasetName,
              EpisodeIndex := q.EpisodeIndex, Extra := ext } = (r, some e) →
        client.RunPolicyEpisode StructToStructPb c ctx q
          = ⟨[.RunPolicyEpisode ctx
              { Name := c.name, PolicyId := q.PolicyID, MaxSteps := q.MaxSteps, Fps := q.Fps,
                RecordToDataset := q.RecordToDataset, DatasetName := q.DatasetName,
                EpisodeIndex := q.EpisodeIndex, Extra := ext }],
            .returned none (some e)⟩)
    ∧ (∀ (x : GoMap) (ext : Option Struct) (r : Option commonpb.DoCommandResponse),
        StructToStructPb x = (ext, none) →
        c.client.DoCommand ctx
            { Name := c.name, Command := ext } = (r, some e) →
        client.DoCommand StructToStructPb c ctx x
          = ⟨[.DoCommand ctx
              { Name := c.name, Command := ext }],
            .returned GoMap.nil (some e)⟩) := by
  refine ⟨?_, ?_, ?_, ?_, ?_, ?_, ?_, ?_, ?_⟩
  · intro d x ext r henc hcall
    simp only [client.StartRecording, henc, hcall]
  · intro d x ext r henc hcall
    simp only [client.StopRecording, henc, hcall]
  · intro q ext r henc hcall
    simp only [client.RecordEpisode, henc, hcall]
  · intro q ext r henc hcall
    simp only [client.ReplayEpisode, henc, hcall]
  · intro q ext r henc hcall
    simp only [client.StartTeleoperation, henc, hcall]
  · intro d x ext r henc hcall
    simp only [client.StopTeleoperation, henc, hcall]
  · intro q ext r henc hcall
    simp only [client.LoadPolicy, henc, hcall]
  · intro q ext r henc hcall
    simp only [client.RunPolicyEpisode, henc, hcall]
  · intro x ext r henc hcall
    simp only [client.DoCommand, henc, hcall]

/-- Witness of C12: on a proxy whose every remote call fails with `errTestFailed`, each of the
nine methods returns `errTestFailed` and the zero value of its result. -/
theorem C12_remote_error_witness :
    (client.StartRecording encodeAll failingClient Context.Background "test-dataset"
        GoMap.nil).outcome = .returned "" (some errTestFailed)
    ∧ (client.StopRecording encodeAll failingClient Context.Background "session-123"
        GoMap.nil).outcome = .returned Float32.zero (some errTestFailed)
    ∧ (client.RecordEpisode encodeAll failingClient Context.Background
        (callRecordEpisode RecordingSourceUnspecified)).outcome
        = .returned none (some errTestFailed)
    ∧ (client.ReplayEpisode encodeAll failingClient Context.Background
        callReplayEpisode).outcome = .returned none (some errTestFailed)
    ∧ (client.StartTeleoperation encodeAll failingClient Context.Background
        testStartTeleoperationRequest).outcome = .returned "" (some errTestFailed)
    ∧ (client.StopTeleoperation encodeAll failingClient Context.Background "teleop-456"
        GoMap.nil).outcome = .returned Float32.zero (some errTestFailed)
    ∧ (client.LoadPolicy encodeAll failingClient Context.Background callLoadPolicy).outcome
        = .returned none (some errTestFailed)
    ∧ (client.RunPolicyEpisode encodeAll failingClient Context.Background
        testRunPolicyEpisodeCall).outcome = .returned none (some errTestFailed)
    ∧ (client.DoCommand encodeAll failingClient Context.Background testCommand).outcome
        = .returned GoMap.nil (some errTestFailed) :=
  have h := C12_remote_error_surfaces_unchanged encodeAll failingClient Context.Background
    errTestFailed
  ⟨congrArg Run.outcome (h.1 "test-dataset" GoMap.nil (some ⟨[]⟩) none rfl rfl),
    congrArg Run.outcome (h.2.1 "session-123" GoMap.nil (some ⟨[]⟩) none rfl rfl),
    congrArg Run.outcome
      (h.2.2.1 (callRecordEpisode RecordingSourceUnspecified) (some ⟨[]⟩) none rfl rfl),
    congrArg Run.outcome (h.2.2.2.1 callReplayEpisode (some ⟨[]⟩) none rfl rfl),
    congrArg Run.outcome
      (h.2.2.2.2.1 testStartTeleoperationRequest (some ⟨[]⟩) none rfl rfl),
    congrArg Run.outcome (h.2.2.2.2.2.1 "teleop-456" GoMap.nil (some ⟨[]⟩) none rfl rfl),
    congrArg Run.outcome (h.2.2.2.2.2.2.1 callLoadPolicy (some ⟨[]⟩) none rfl rfl),
    congrArg Run.outcome (h.2.2.2.2.2.2.2.1 testRunPolicyEpisodeCall (some ⟨[]⟩) none rfl rfl),
    congrArg Run.outcome
      (h.2.2.2.2.2.2.2.2 testCommand (some ⟨[("command", Value.str "test")]⟩) none rfl rfl)⟩

/-- Closing the proxy `k` times returns no error each time and leaves the shared connection as
it was. -/
theorem client_CloseTimes (c : client) (ctx : Context) (k : Nat) :
    ∀ shared : SharedConn,
      client.CloseTimes c ctx k shared = (List.replicate k none, shared) := by
  induction k with
  | zero => intro shared; rfl
  | succ k ih =>
    intro shared
    simp only [client.CloseTimes, client.Close, resource.TriviallyCloseable.Close, ih,
      List.replicate_succ]

/-- C13: closing a proxy returns no error and leaves the connection it was built from as it
was; closing it any number of times in a row returns no error each time and still leaves the
connection as it was, so a connection that was open is open, with the same stub for the other
proxies and for its owner. -/
theorem C13_proxy_Close_leaves_connection (c : client) (ctx : Context) (shared : SharedConn)
    (k : Nat) (hopen : shared.closed = false) :
    c.Close ctx shared = (none, shared)
    ∧ (client.CloseTimes c ctx k shared).1 = List.replicate k none
    ∧ (client.CloseTimes c ctx k shared).2 = shared
    ∧ (client.CloseTimes c ctx k shared).2.closed = false
    ∧ (client.CloseTimes c ctx k shared).2.conn.stub = shared.conn.stub := by
  rw [client_CloseTimes]
  exact ⟨rfl, rfl, rfl, hopen, rfl⟩

/-- Witness of C13: the proxy of the tests for `lerobot1`, closed once and closed three times,
on the open connection of the tests. -/
theorem C13_proxy_Close_witness :
    testSharedConn.closed = false
    ∧ (testClient (inProcessStub testServer) "lerobot1").Close Context.Background
        testSharedConn = (none, testSharedConn)
    ∧ (client.CloseTimes (testClient (inProcessStub testServer) "lerobot1")
        Context.Background 3 testSharedConn).1 = [none, none, none]
    ∧ (client.CloseTimes (testClient (inProcessStub testServer) "lerobot1")
        Context.Background 3 testSharedConn).2 = testSharedConn
    ∧ (client.CloseTimes (testClient (inProcessStub testServer) "lerobot1")
        Context.Background 3 testSharedConn).2.closed = false
    ∧ (client.CloseTimes (testClient (inProcessStub testServer) "lerobot1")
        Context.Background 3 testSharedConn).2.conn.stub = testSharedConn.conn.stub :=
  ⟨rfl,
    C13_proxy_Close_leaves_connection (testClient (inProcessStub testServer) "lerobot1")
      Context.Background testSharedConn 3 rfl⟩

/-- C14: a double with no override assigned for an operation answers that operation, for every
input, with a nil error and the zero value: the empty string for `StartRecording` and
`StartTeleoperation`, 0 for `StopRecording` and `StopTeleoperation`, and a response that is not
nil and has every field zero for `RecordEpisode`, `ReplayEpisode`, `LoadPolicy` and
`RunPolicyEpisode`. -/
theorem C14_unset_override_gives_zero_value (s : inject.LeRobotService) :
    (s.StartRecordingFunc = none →
        ∀ (ctx : Context) (d : String) (x : GoMap), s.StartRecording ctx d x
          = ("", none))
    ∧ (s.StopRecordingFunc = none →
        ∀ (ctx : Context) (d : String) (x : GoMap), s.StopRecording ctx d x
          = (Float32.zero, none))
    ∧ (s.RecordEpisodeFunc = none →
        ∀ (ctx : Context) (q : RecordEpisodeRequest), s.RecordEpisode ctx q
          = (some { NumFrames := 0, ActualDurationS := Float32.zero, EpisodePath := "" }, none))
    ∧ (s.ReplayEpisodeFunc = none →
        ∀ (ctx : Context) (q : ReplayEpisodeRequest), s.ReplayEpisode ctx q
          = (some { NumFramesReplayed := 0, DurationS := Float32.zero }, none))
    ∧ (s.StartTeleoperationFunc = none →
        ∀ (ctx : Context) (q : StartTeleoperationRequest), s.StartTeleoperation ctx q
          = ("", none))
    ∧ (s.StopTeleoperationFunc = none →
        ∀ (ctx : Context) (d : String) (x : GoMap), s.StopTeleoperation ctx d x
          = (Float32.zero, none))
    ∧ (s.LoadPolicyFunc = none →
        ∀ (ctx : Context) (q : LoadPolicyRequest), s.LoadPolicy ctx q
          = (some { PolicyID := "", PolicyType := "" }, none))
    ∧ (s.RunPolicyEpisodeFunc = none →
        ∀ (ctx : Context) (q : RunPolicyEpisodeRequest), s.RunPolicyEpisode ctx q
          = (some
              { NumSteps := 0, DurationS := Float32.zero, Success := false,
                EpisodePath := "" }, none)) := by
  refine ⟨?_, ?_, ?_, ?_, ?_, ?_, ?_, ?_⟩
  · intro h ctx d x
    simp only [inject.LeRobotService.StartRecording, h]
  · intro h ctx d x
    simp only [inject.LeRobotService.StopRecording, h]
  · intro h ctx q
    simp only [inject.LeRobotService.RecordEpisode, h]
  · intro h ctx q
    simp only [inject.LeRobotService.ReplayEpisode, h]
  · intro h ctx q
    simp only [inject.LeRobotService.StartTeleoperation, h]
  · intro h ctx d x
    simp only [inject.LeRobotService.StopTeleoperation, h]
  · intro h ctx q
    simp only [inject.LeRobotService.LoadPolicy, h]
  · intro h ctx q
    simp only [inject.LeRobotService.RunPolicyEpisode, h]

/-- Witness of C14: the double with no field set, called with the inputs of the tests. -/
theorem C14_unset_override_witness :
    unsetLeRobot.StartRecordingFunc = none
    ∧ unsetLeRobot.StartRecording Context.Background "test-dataset" GoMap.nil
        = ("", none)
    ∧ unsetLeRobot.StopRecording Context.Background "session-123" GoMap.nil
        = (Float32.zero, none)
    ∧ unsetLeRobot.RecordEpisode Context.Background (callRecordEpisode RecordingSourceUnspecified)
        = (some { NumFrames := 0, ActualDurationS := Float32.zero, EpisodePath := "" }, none)
    ∧ unsetLeRobot.ReplayEpisode Context.Background callReplayEpisode
        = (some { NumFramesReplayed := 0, DurationS := Float32.zero }, none)
    ∧ unsetLeRobot.StartTeleoperation Context.Background testStartTeleoperationRequest
        = ("", none)
    ∧ unsetLeRobot.StopTeleoperation Context.Background "teleop-456" GoMap.nil
        = (Float32.zero, none)
    ∧ unsetLeRobot.LoadPolicy Context.Background callLoadPolicy
        = (some { PolicyID := "", PolicyType := "" }, none)
    ∧ unsetLeRobot.RunPolicyEpisode Context.Background testRunPolicyEpisodeCall
        = (some
              { NumSteps := 0, DurationS := Float32.zero, Success := false,
                EpisodePath := "" }, none) :=
  have h := C14_unset_override_gives_zero_value unsetLeRobot
  ⟨rfl,
    h.1 rfl Context.Background "test-dataset" GoMap.nil,
    h.2.1 rfl Context.Background "session-123" GoMap.nil,
    h.2.2.1 rfl Context.Background (callRecordEpisode RecordingSourceUnspecified),
    h.2.2.2.1 rfl Context.Background callReplayEpisode,
    h.2.2.2.2.1 rfl Context.Background testStartTeleoperationRequest,
    h.2.2.2.2.2.1 rfl Context.Background "teleop-456" GoMap.nil,
    h.2.2.2.2.2.2.1 rfl Context.Background callLoadPolicy,
    h.2.2.2.2.2.2.2 rfl Context.Background testRunPolicyEpisodeCall⟩

/-- C15, at the double with no field set: each of the eight operations returns a nil error,
where the claim has it return an error. -/
theorem C15_unset_override_returns_nil_error :
    (unsetLeRobot.StartRecording Context.Background "test-dataset" GoMap.nil).2 = none
    ∧ (unsetLeRobot.StopRecording Context.Background "session-123" GoMap.nil).2 = none
    ∧ (unsetLeRobot.RecordEpisode Context.Background (callRecordEpisode RecordingSourceUnspecified)).2 = none
    ∧ (unsetLeRobot.ReplayEpisode Context.Background callReplayEpisode).2 = none
    ∧ (unsetLeRobot.StartTeleoperation Context.Background testStartTeleoperationRequest).2 = none
    ∧ (unsetLeRobot.StopTeleoperation Context.Background "teleop-456" GoMap.nil).2 = none
    ∧ (unsetLeRobot.LoadPolicy Context.Background callLoadPolicy).2 = none
    ∧ (unsetLeRobot.RunPolicyEpisode Context.Background testRunPolicyEpisodeCall).2 = none :=
  ⟨rfl, rfl, rfl, rfl, rfl, rfl, rfl, rfl⟩

/-- The two embeddings of each method of the double agree: the run that lists the calls made
returns the value and the error of the method. -/
theorem inject_Run_outcome (s : inject.LeRobotService) (ctx : Context) :
    (∀ (d : String) (x : GoMap), (s.StartRecordingRun ctx d x).outcome
        = .returned (s.StartRecording ctx d x).1 (s.StartRecording ctx d x).2)
    ∧ (∀ (d : String) (x : GoMap), (s.StopRecordingRun ctx d x).outcome
        = .returned (s.StopRecording ctx d x).1 (s.StopRecording ctx d x).2)
    ∧ (∀ (q : RecordEpisodeRequest), (s.RecordEpisodeRun ctx q).outcome
        = .returned (s.RecordEpisode ctx q).1 (s.RecordEpisode ctx q).2)
    ∧ (∀ (q : ReplayEpisodeRequest), (s.ReplayEpisodeRun ctx q).outcome
        = .returned (s.ReplayEpisode ctx q).1 (s.ReplayEpisode ctx q).2)
    ∧ (∀ (q : StartTeleoperationRequest), (s.StartTeleoperationRun ctx q).outcome
        = .returned (s.StartTeleoperation ctx q).1 (s.StartTeleoperation ctx q).2)
    ∧ (∀ (d : String) (x : GoMap), (s.StopTeleoperationRun ctx d x).outcome
        = .returned (s.StopTeleoperation ctx d x).1 (s.StopTeleoperation ctx d x).2)
    ∧ (∀ (q : LoadPolicyRequest), (s.LoadPolicyRun ctx q).outcome
        = .returned (s.LoadPolicy ctx q).1 (s.LoadPolicy ctx q).2)
    ∧ (∀ (q : RunPolicyEpisodeRequest), (s.RunPolicyEpisodeRun ctx q).outcome
        = .returned (s.RunPolicyEpisode ctx q).1 (s.RunPolicyEpisode ctx q).2)
    ∧ (∀ (x : GoMap), (s.DoCommandRun ctx x).outcome
        = .returned (s.DoCommand ctx x).1 (s.DoCommand ctx x).2)
    ∧ (s.CloseRun ctx).outcome = .returned () (s.Close ctx) := by
  refine ⟨?_, ?_, ?_, ?_, ?_, ?_, ?_, ?_, ?_, ?_⟩
  · intro d x
    simp only [inject.LeRobotService.StartRecordingRun, inject.LeRobotService.StartRecording]
    split <;> rfl
  · intro d x
    simp only [inject.LeRobotService.StopRecordingRun, inject.LeRobotService.StopRecording]
    split <;> rfl
  · intro q
    simp only [inject.LeRobotService.RecordEpisodeRun, inject.LeRobotService.RecordEpisode]
    split <;> rfl
  · intro q
    simp only [inject.LeRobotService.ReplayEpisodeRun, inject.LeRobotService.ReplayEpisode]
    split <;> rfl
  · intro q
    simp only [inject.LeRobotService.StartTeleoperationRun, inject.LeRobotService.StartTeleoperation]
    split <;> rfl
  · intro d x
    simp only [inject.LeRobotService.StopTeleoperationRun, inject.LeRobotService.StopTeleoperation]
    split <;> rfl
  · intro q
    simp only [inject.LeRobotService.LoadPolicyRun, inject.LeRobotService.LoadPolicy]
    split <;> rfl
  · intro q
    simp only [inject.LeRobotService.RunPolicyEpisodeRun, inject.LeRobotService.RunPolicyEpisode]
    split <;> rfl
  · intro x
    simp only [inject.LeRobotService.DoCommandRun, inject.LeRobotService.DoCommand]
    split
    · split <;> rfl
    · rfl
  · simp only [inject.LeRobotService.CloseRun, inject.LeRobotService.Close]
    split
    · split <;> rfl
    · rfl

/-- C16: for a double and each of its operations (the eight service operations, `DoCommand` and
`Close`): when the override `f` of the operation is assigned, the operation returns what `f`
returns on the arguments given, value and error, and makes one call, of `f`, with those
arguments; and the operation is the same on every double that has the same override for it
(and, for `DoCommand` and `Close`, the same embedded `Resource`), whatever the overrides of the
other operations. -/
theorem C16_assigned_override_is_called_once (s : inject.LeRobotService) :
    (∀ f, s.StartRecordingFunc = some f →
        ∀ (ctx : Context) (d : String) (x : GoMap),
          s.StartRecording ctx d x = f ctx d x
          ∧ s.StartRecordingRun ctx d x
            = ⟨[.func (.StartRecording ctx d x)], .returned (f ctx d x).1 (f ctx d x).2⟩)
    ∧ (∀ f, s.StopRecordingFunc = some f →
        ∀ (ctx : Context) (d : String) (x : GoMap),
          s.StopRecording ctx d x = f ctx d x
          ∧ s.StopRecordingRun ctx d x
            = ⟨[.func (.StopRecording ctx d x)], .returned (f ctx d x).1 (f ctx d x).2⟩)
    ∧ (∀ f, s.RecordEpisodeFunc = some f →
        ∀ (ctx : Context) (q : RecordEpisodeRequest),
          s.RecordEpisode ctx q = f ctx q
          ∧ s.RecordEpisodeRun ctx q
            = ⟨[.func (.RecordEpisode ctx q)], .returned (f ctx q).1 (f ctx q).2⟩)
    ∧ (∀ f, s.ReplayEpisodeFunc = some f →
        ∀ (ctx : Context) (q : ReplayEpisodeRequest),
          s.ReplayEpisode ctx q = f ctx q
          ∧ s.ReplayEpisodeRun ctx q
            = ⟨[.func (.ReplayEpisode ctx q)], .returned (f ctx q).1 (f ctx q).2⟩)
    ∧ (∀ f, s.StartTeleoperationFunc = some f →
        ∀ (ctx : Context) (q : StartTeleoperationRequest),
          s.StartTeleoperation ctx q = f ctx q
          ∧ s.StartTeleoperationRun ctx q
            = ⟨[.func (.StartTeleoperation ctx q)], .returned (f ctx q).1 (f ctx q).2⟩)
    ∧ (∀ f, s.StopTeleoperationFunc = some f →
        ∀ (ctx : Context) (d : String) (x : GoMap),
          s.StopTeleoperation ctx d x = f ctx d x
          ∧ s.StopTeleoperationRun ctx d x
            = ⟨[.func (.StopTeleoperation ctx d x)], .returned (f ctx d x).1 (f ctx d x).2⟩)
    ∧ (∀ f, s.LoadPolicyFunc = some f →
        ∀ (ctx : Context) (q : LoadPolicyRequest),
          s.LoadPolicy ctx q = f ctx q
          ∧ s.LoadPolicyRun ctx q
            = ⟨[.func (.LoadPolicy ctx q)], .returned (f ctx q).1 (f ctx q).2⟩)
    ∧ (∀ f, s.RunPolicyEpisodeFunc = some f →
        ∀ (ctx : Context) (q : RunPolicyEpisodeRequest),
          s.RunPolicyEpisode ctx q = f ctx q
          ∧ s.RunPolicyEpisodeRun ctx q
            = ⟨[.func (.RunPolicyEpisode ctx q)], .returned (f ctx q).1 (f ctx q).2⟩)
    ∧ (∀ f, s.DoFunc = some f →
        ∀ (ctx : Context) (x : GoMap),
          s.DoCommand ctx x = f ctx x
          ∧ s.DoCommandRun ctx x
            = ⟨[.func (.DoCommand ctx x)], .returned (f ctx x).1 (f ctx x).2⟩)
    ∧ (∀ f, s.CloseFunc = some f →
        ∀ (ctx : Context),
          s.Close ctx = f ctx
          ∧ s.CloseRun ctx = ⟨[.closeFunc ctx], .returned () (f ctx)⟩)
    ∧ (∀ t : inject.LeRobotService, t.StartRecordingFunc = s.StartRecordingFunc →
        t.StartRecording = s.StartRecording ∧ t.StartRecordingRun = s.StartRecordingRun)
    ∧ (∀ t : inject.LeRobotService, t.StopRecordingFunc = s.StopRecordingFunc →
        t.StopRecording = s.StopRecording ∧ t.StopRecordingRun = s.StopRecordingRun)
    ∧ (∀ t : inject.LeRobotService, t.RecordEpisodeFunc = s.RecordEpisodeFunc →
        t.RecordEpisode = s.RecordEpisode ∧ t.RecordEpisodeRun = s.RecordEpisodeRun)
    ∧ (∀ t : inject.LeRobotService, t.ReplayEpisodeFunc = s.ReplayEpisodeFunc →
        t.ReplayEpisode = s.ReplayEpisode ∧ t.ReplayEpisodeRun = s.ReplayEpisodeRun)
    ∧ (∀ t : inject.LeRobotService, t.StartTeleoperationFunc = s.StartTeleoperationFunc →
        t.StartTeleoperation = s.StartTeleoperation ∧ t.StartTeleoperationRun = s.StartTeleoperationRun)
    ∧ (∀ t : inject.LeRobotService, t.StopTeleoperationFunc = s.StopTeleoperationFunc →
        t.StopTeleoperation = s.StopTeleoperation ∧ t.StopTeleoperationRun = s.StopTeleoperationRun)
    ∧ (∀ t : inject.LeRobotService, t.LoadPolicyFunc = s.LoadPolicyFunc →
        t.LoadPolicy = s.LoadPolicy ∧ t.LoadPolicyRun = s.LoadPolicyRun)
    ∧ (∀ t : inject.LeRobotService, t.RunPolicyEpisodeFunc = s.RunPolicyEpisodeFunc →
        t.RunPolicyEpisode = s.RunPolicyEpisode ∧ t.RunPolicyEpisodeRun = s.RunPolicyEpisodeRun)
    ∧ (∀ t : inject.LeRobotService, t.DoFunc = s.DoFunc → t.Resource = s.Resource →
        t.DoCommand = s.DoCommand ∧ t.DoCommandRun = s.DoCommandRun)
    ∧ (∀ t : inject.LeRobotService, t.CloseFunc = s.CloseFunc → t.Resource = s.Resource →
        t.Close = s.Close ∧ t.CloseRun = s.CloseRun) := by
  refine ⟨?_, ?_, ?_, ?_, ?_, ?_, ?_, ?_, ?_, ?_, ?_, ?_, ?_, ?_, ?_, ?_, ?_, ?_, ?_, ?_⟩
  · intro f h ctx d x
    simp only [inject.LeRobotService.StartRecording, inject.LeRobotService.StartRecordingRun, h, and_self]
  · intro f h ctx d x
    simp only [inject.LeRobotService.StopRecording, inject.LeRobotService.StopRecordingRun, h, and_self]
  · intro f h ctx q
    simp only [inject.LeRobotService.RecordEpisode, inject.LeRobotService.RecordEpisodeRun, h, and_self]
  · intro f h ctx q
    simp only [inject.LeRobotService.ReplayEpisode, inject.LeRobotService.ReplayEpisodeRun, h, and_self]
  · intro f h ctx q
    simp only [inject.LeRobotService.StartTeleoperation, inject.LeRobotService.StartTeleoperationRun, h, and_self]
  · intro f h ctx d x
    simp only [inject.LeRobotService.StopTeleoperation, inject.LeRobotService.StopTeleoperationRun, h, and_self]
  · intro f h ctx q
    simp only [inject.LeRobotService.LoadPolicy, inject.LeRobotService.LoadPolicyRun, h, and_self]
  · intro f h ctx q
    simp only [inject.LeRobotService.RunPolicyEpisode, inject.LeRobotService.RunPolicyEpisodeRun, h, and_self]
  · intro f h ctx x
    simp only [inject.LeRobotService.DoCommand, inject.LeRobotService.DoCommandRun, h, and_self]
  · intro f h ctx
    simp only [inject.LeRobotService.Close, inject.LeRobotService.CloseRun, h, and_self]
  · intro t h
    constructor <;> funext ctx d x <;>
      simp only [inject.LeRobotService.StartRecording, inject.LeRobotService.StartRecordingRun, h]
  · intro t h
    constructor <;> funext ctx d x <;>
      simp only [inject.LeRobotService.StopRecording, inject.LeRobotService.StopRecordingRun, h]
  · intro t h
    constructor <;> funext ctx q <;>
      simp only [inject.LeRobotService.RecordEpisode, inject.LeRobotService.RecordEpisodeRun, h]
  · intro t h
    constructor <;> funext ctx q <;>
      simp only [inject.LeRobotService.ReplayEpisode, inject.LeRobotService.ReplayEpisodeRun, h]
  · intro t h
    constructor <;> funext ctx q <;>
      simp only [inject.LeRobotService.StartTeleoperation, inject.LeRobotService.StartTeleoperationRun, h]
  · intro t h
    constructor <;> funext ctx d x <;>
      simp only [inject.LeRobotService.StopTeleoperation, inject.LeRobotService.StopTeleoperationRun, h]
  · intro t h
    constructor <;> funext ctx q <;>
      simp only [inject.LeRobotService.LoadPolicy, inject.LeRobotService.LoadPolicyRun, h]
  · intro t h
    constructor <;> funext ctx q <;>
      simp only [inject.LeRobotService.RunPolicyEpisode, inject.LeRobotService.RunPolicyEpisodeRun, h]
  · intro t h hr
    constructor <;> funext ctx x <;>
      simp only [inject.LeRobotService.DoCommand, inject.LeRobotService.DoCommandRun, h, hr]
  · intro t h hr
    constructor <;> funext ctx <;>
      simp only [inject.LeRobotService.Close, inject.LeRobotService.CloseRun, h, hr]

/-- Witness of C16: the working double of `TestClient`, called with the inputs of the test,
returns what its overrides return and calls each once; and a double that has one override of
that double and no other behaves, for the operation of that override, as that double does. -/
theorem C16_assigned_override_witness :
    (fullLeRobot.StartRecording Context.Background "test-dataset" GoMap.nil
          = ("session-123", none)
        ∧ fullLeRobot.StartRecordingRun Context.Background "test-dataset" GoMap.nil
          = ⟨[.func (.StartRecording Context.Background "test-dataset" GoMap.nil)],
              .returned "session-123" none⟩)
    ∧ (fullLeRobot.StopRecording Context.Background "session-123" GoMap.nil
          = (⟨0x42F70000⟩, none)
        ∧ fullLeRobot.StopRecordingRun Context.Background "session-123" GoMap.nil
          = ⟨[.func (.StopRecording Context.Background "session-123" GoMap.nil)],
              .returned ⟨0x42F70000⟩ none⟩)
    ∧ (fullLeRobot.RecordEpisode Context.Background (callRecordEpisode RecordingSourceUnspecified)
          = ((some
              { NumFrames := 100, ActualDurationS := ⟨0x41280000⟩,
                EpisodePath := "/path/to/episode" }), none)
        ∧ fullLeRobot.RecordEpisodeRun Context.Background (callRecordEpisode RecordingSourceUnspecified)
          = ⟨[.func (.RecordEpisode Context.Background (callRecordEpisode RecordingSourceUnspecified))],
              .returned (some
              { NumFrames := 100, ActualDurationS := ⟨0x41280000⟩,
                EpisodePath := "/path/to/episode" }) none⟩)
    ∧ (fullLeRobot.ReplayEpisode Context.Background callReplayEpisode
          = ((some { NumFramesReplayed := 50, DurationS := ⟨0x40A00000⟩ }), none)
        ∧ fullLeRobot.ReplayEpisodeRun Context.Background callReplayEpisode
          = ⟨[.func (.ReplayEpisode Context.Background callReplayEpisode)],
              .returned (some { NumFramesReplayed := 50, DurationS := ⟨0x40A00000⟩ }) none⟩)
    ∧ (fullLeRobot.StartTeleoperation Context.Background testStartTeleoperationRequest
          = ("teleop-456", none)
        ∧ fullLeRobot.StartTeleoperationRun Context.Background testStartTeleoperationRequest
          = ⟨[.func (.StartTeleoperation Context.Background testStartTeleoperationRequest)],
              .returned "teleop-456" none⟩)
    ∧ (fullLeRobot.StopTeleoperation Context.Background "teleop-456" GoMap.nil
          = (⟨0x42700000⟩, none)
        ∧ fullLeRobot.StopTeleoperationRun Context.Background "teleop-456" GoMap.nil
          = ⟨[.func (.StopTeleoperation Context.Background "teleop-456" GoMap.nil)],
              .returned ⟨0x42700000⟩ none⟩)
    ∧ (fullLeRobot.LoadPolicy Context.Background callLoadPolicy
          = ((some { PolicyID := "policy-789", PolicyType := "act" }), none)
        ∧ fullLeRobot.LoadPolicyRun Context.Background callLoadPolicy
          = ⟨[.func (.LoadPolicy Context.Background callLoadPolicy)],
              .returned (some { PolicyID := "policy-789", PolicyType := "act" }) none⟩)
    ∧ (fullLeRobot.RunPolicyEpisode Context.Background testRunPolicyEpisodeCall
          = ((some
              { NumSteps := 200, DurationS := float20, Success := true,
                EpisodePath := "/path/to/policy/episode" }), none)
        ∧ fullLeRobot.RunPolicyEpisodeRun Context.Background testRunPolicyEpisodeCall
          = ⟨[.func (.RunPolicyEpisode Context.Background testRunPolicyEpisodeCall)],
              .returned (some
              { NumSteps := 200, DurationS := float20, Success := true,
                EpisodePath := "/path/to/policy/episode" }) none⟩)
    ∧ (fullLeRobot.DoCommand Context.Background testCommand
          = (testCommand, none)
        ∧ fullLeRobot.DoCommandRun Context.Background testCommand
          = ⟨[.func (.DoCommand Context.Background testCommand)],
              .returned testCommand none⟩)
    ∧ (fullLeRobot.Close Context.Background = none
        ∧ fullLeRobot.CloseRun Context.Background
          = ⟨[.closeFunc Context.Background], .returned () none⟩)
    ∧ (inject.LeRobotService.StartRecording { unsetLeRobot with StartRecordingFunc := fullLeRobot.StartRecordingFunc }
          = fullLeRobot.StartRecording
        ∧ inject.LeRobotService.StartRecordingRun
            { unsetLeRobot with StartRecordingFunc := fullLeRobot.StartRecordingFunc }
          = fullLeRobot.StartRecordingRun)
    ∧ (inject.LeRobotService.StopRecording { unsetLeRobot with StopRecordingFunc := fullLeRobot.StopRecordingFunc }
          = fullLeRobot.StopRecording
        ∧ inject.LeRobotService.StopRecordingRun
            { unsetLeRobot with StopRecordingFunc := fullLeRobot.StopRecordingFunc }
          = fullLeRobot.StopRecordingRun)
    ∧ (inject.LeRobotService.RecordEpisode { unsetLeRobot with RecordEpisodeFunc := fullLeRobot.RecordEpisodeFunc }
          = fullLeRobot.RecordEpisode
        ∧ inject.LeRobotService.RecordEpisodeRun
            { unsetLeRobot with RecordEpisodeFunc := fullLeRobot.RecordEpisodeFunc }
          = fullLeRobot.RecordEpisodeRun)
    ∧ (inject.LeRobotService.ReplayEpisode { unsetLeRobot with ReplayEpisodeFunc := fullLeRobot.ReplayEpisodeFunc }
          = fullLeRobot.ReplayEpisode
        ∧ inject.LeRobotService.ReplayEpisodeRun
            { unsetLeRobot with ReplayEpisodeFunc := fullLeRobot.ReplayEpisodeFunc }
          = fullLeRobot.ReplayEpisodeRun)
    ∧ (inject.LeRobotService.StartTeleoperation { unsetLeRobot with StartTeleoperationFunc := fullLeRobot.StartTeleoperationFunc }
          = fullLeRobot.StartTeleoperation
        ∧ inject.LeRobotService.StartTeleoperationRun
            { unsetLeRobot with StartTeleoperationFunc := fullLeRobot.StartTeleoperationFunc }
          = fullLeRobot.StartTeleoperationRun)
    ∧ (inject.LeRobotService.StopTeleoperation { unsetLeRobot with StopTeleoperationFunc := fullLeRobot.StopTeleoperationFunc }
          = fullLeRobot.StopTeleoperation
        ∧ inject.LeRobotService.StopTeleoperationRun
            { unsetLeRobot with StopTeleoperationFunc := fullLeRobot.StopTeleoperationFunc }
          = fullLeRobot.StopTeleoperationRun)
    ∧ (inject.LeRobotService.LoadPolicy { unsetLeRobot with LoadPolicyFunc := fullLeRobot.LoadPolicyFunc }
          = fullLeRobot.LoadPolicy
        ∧ inject.LeRobotService.LoadPolicyRun
            { unsetLeRobot with LoadPolicyFunc := fullLeRobot.LoadPolicyFunc }
          = fullLeRobot.LoadPolicyRun)
    ∧ (inject.LeRobotService.RunPolicyEpisode { unsetLeRobot with RunPolicyEpisodeFunc := fullLeRobot.RunPolicyEpisodeFunc }
          = fullLeRobot.RunPolicyEpisode
        ∧ inject.LeRobotService.RunPolicyEpisodeRun
            { unsetLeRobot with RunPolicyEpisodeFunc := fullLeRobot.RunPolicyEpisodeFunc }
          = fullLeRobot.RunPolicyEpisodeRun)
    ∧ (inject.LeRobotService.DoCommand { unsetLeRobot with DoFunc := fullLeRobot.DoFunc }
          = fullLeRobot.DoCommand
        ∧ inject.LeRobotService.DoCommandRun
            { unsetLeRobot with DoFunc := fullLeRobot.DoFunc }
          = fullLeRobot.DoCommandRun)
    ∧ (inject.LeRobotService.Close { unsetLeRobot with CloseFunc := fullLeRobot.CloseFunc }
          = fullLeRobot.Close
        ∧ inject.LeRobotService.CloseRun
            { unsetLeRobot with CloseFunc := fullLeRobot.CloseFunc }
          = fullLeRobot.CloseRun) :=
  have h := C16_assigned_override_is_called_once fullLeRobot
  ⟨h.1 _ rfl Context.Background "test-dataset" GoMap.nil,
    h.2.1 _ rfl Context.Background "session-123" GoMap.nil,
    h.2.2.1 _ rfl Context.Background (callRecordEpisode RecordingSourceUnspecified),
    h.2.2.2.1 _ rfl Context.Background callReplayEpisode,
    h.2.2.2.2.1 _ rfl Context.Background testStartTeleoperationRequest,
    h.2.2.2.2.2.1 _ rfl Context.Background "teleop-456" GoMap.nil,
    h.2.2.2.2.2.2.1 _ rfl Context.Background callLoadPolicy,
    h.2.2.2.2.2.2.2.1 _ rfl Context.Background testRunPolicyEpisodeCall,
    h.2.2.2.2.2.2.2.2.1 _ rfl Context.Background testCommand,
    h.2.2.2.2.2.2.2.2.2.1 _ rfl Context.Background,
    h.2.2.2.2.2.2.2.2.2.2.1 { unsetLeRobot with StartRecordingFunc := fullLeRobot.StartRecordingFunc } rfl,
    h.2.2.2.2.2.2.2.2.2.2.2.1 { unsetLeRobot with StopRecordingFunc := fullLeRobot.StopRecordingFunc } rfl,
    h.2.2.2.2.2.2.2.2.2.2.2.2.1 { unsetLeRobot with RecordEpisodeFunc := fullLeRobot.RecordEpisodeFunc } rfl,
    h.2.2.2.2.2.2.2.2.2.2.2.2.2.1 { unsetLeRobot with ReplayEpisodeFunc := fullLeRobot.ReplayEpisodeFunc } rfl,
    h.2.2.2.2.2.2.2.2.2.2.2.2.2.2.1 { unsetLeRobot with StartTeleoperationFunc := fullLeRobot.StartTeleoperationFunc } rfl,
    h.2.2.2.2.2.2.2.2.2.2.2.2.2.2.2.1 { unsetLeRobot with StopTeleoperationFunc := fullLeRobot.StopTeleoperationFunc } rfl,
    h.2.2.2.2.2.2.2.2.2.2.2.2.2.2.2.2.1 { unsetLeRobot with LoadPolicyFunc := fullLeRobot.LoadPolicyFunc } rfl,
    h.2.2.2.2.2.2.2.2.2.2.2.2.2.2.2.2.2.1 { unsetLeRobot with RunPolicyEpisodeFunc := fullLeRobot.RunPolicyEpisodeFunc } rfl,
    h.2.2.2.2.2.2.2.2.2.2.2.2.2.2.2.2.2.2.1 { unsetLeRobot with DoFunc := fullLeRobot.DoFunc } rfl rfl,
    h.2.2.2.2.2.2.2.2.2.2.2.2.2.2.2.2.2.2.2 { unsetLeRobot with CloseFunc := fullLeRobot.CloseFunc } rfl rfl⟩

/-- C17: for each of the eight service operations and two requests that differ only in their
name, when both names resolve to the same instance the dispatcher makes the same call on that
instance, with the same arguments, and returns the same outcome; the runs differ only in the
name looked up. -/
theorem C17_name_only_selects_the_instance (s : serviceServer) (ctx : Context) :
    (∀ (req : pb.StartRecordingRequest) (nm : String) (svc : Service),
        s.coll.Resource req.Name = (some svc, none) →
        s.coll.Resource nm = (some svc, none) →
        ∃ c, (s.StartRecording ctx req).trace = [.resolve req.Name, .invoke svc c]
          ∧ (s.StartRecording ctx { req with Name := nm }).trace = [.resolve nm, .invoke svc c]
          ∧ (s.StartRecording ctx { req with Name := nm }).outcome = (s.StartRecording ctx req).outcome)
    ∧ (∀ (req : pb.StopRecordingRequest) (nm : String) (svc : Service),
        s.coll.Resource req.Name = (some svc, none) →
        s.coll.Resource nm = (some svc, none) →
        ∃ c, (s.StopRecording ctx req).trace = [.resolve req.Name, .invoke svc c]
          ∧ (s.StopRecording ctx { req with Name := nm }).trace = [.resolve nm, .invoke svc c]
          ∧ (s.StopRecording ctx { req with Name := nm }).outcome = (s.StopRecording ctx req).outcome)
    ∧ (∀ (req : pb.RecordEpisodeRequest) (nm : String) (svc : Service),
        s.coll.Resource req.Name = (some svc, none) →
        s.coll.Resource nm = (some svc, none) →
        ∃ c, (s.RecordEpisode ctx req).trace = [.resolve req.Name, .invoke svc c]
          ∧ (s.RecordEpisode ctx { req with Name := nm }).trace = [.resolve nm, .invoke svc c]
          ∧ (s.RecordEpisode ctx { req with Name := nm }).outcome = (s.RecordEpisode ctx req).outcome)
    ∧ (∀ (req : pb.ReplayEpisodeRequest) (nm : String) (svc : Service),
        s.coll.Resource req.Name = (some svc, none) →
        s.coll.Resource nm = (some svc, none) →
        ∃ c, (s.ReplayEpisode ctx req).trace = [.resolve req.Name, .invoke svc c]
          ∧ (s.ReplayEpisode ctx { req with Name := nm }).trace = [.resolve nm, .invoke svc c]
          ∧ (s.ReplayEpisode ctx { req with Name := nm }).outcome = (s.ReplayEpisode ctx req).outcome)
    ∧ (∀ (req : pb.StartTeleoperationRequest) (nm : String) (svc : Service),
        s.coll.Resource req.Name = (some svc, none) →
        s.coll.Resource nm = (some svc, none) →
        ∃ c, (s.StartTeleoperation ctx req).trace = [.resolve req.Name, .invoke svc c]
          ∧ (s.StartTeleoperation ctx { req with Name := nm }).trace = [.resolve nm, .invoke svc c]
          ∧ (s.StartTeleoperation ctx { req with Name := nm }).outcome = (s.StartTeleoperation ctx req).outcome)
    ∧ (∀ (req : pb.StopTeleoperationRequest) (nm : String) (svc : Service),
        s.coll.Resource req.Name = (some svc, none) →
        s.coll.Resource nm = (some svc, none) →
        ∃ c, (s.StopTeleoperation ctx req).trace = [.resolve req.Name, .invoke svc c]
          ∧ (s.StopTeleoperation ctx { req with Name := nm }).trace = [.resolve nm, .invoke svc c]
          ∧ (s.StopTeleoperation ctx { req with Name := nm }).outcome = (s.StopTeleoperation ctx req).outcome)
    ∧ (∀ (req : pb.LoadPolicyRequest) (nm : String) (svc : Service),
        s.coll.Resource req.Name = (some svc, none) →
        s.coll.Resource nm = (some svc, none) →
        ∃ c, (s.LoadPolicy ctx req).trace = [.resolve req.Name, .invoke svc c]
          ∧ (s.LoadPolicy ctx { req with Name := nm }).trace = [.resolve nm, .invoke svc c]
          ∧ (s.LoadPolicy ctx { req with Name := nm }).outcome = (s.LoadPolicy ctx req).outcome)
    ∧ (∀ (req : pb.RunPolicyEpisodeRequest) (nm : String) (svc : Service),
        s.coll.Resource req.Name = (some svc, none) →
        s.coll.Resource nm = (some svc, none) →
        ∃ c, (s.RunPolicyEpisode ctx req).trace = [.resolve req.Name, .invoke svc c]
          ∧ (s.RunPolicyEpisode ctx { req with Name := nm }).trace = [.resolve nm, .invoke svc c]
          ∧ (s.RunPolicyEpisode ctx { req with Name := nm }).outcome = (s.RunPolicyEpisode ctx req).outcome) := by
  refine ⟨?_, ?_, ?_, ?_, ?_, ?_, ?_, ?_⟩
  · intro req nm svc h1 h2
    simp only [serviceServer.StartRecording, h1, h2]
    split <;> exact ⟨_, rfl, rfl, rfl⟩
  · intro req nm svc h1 h2
    simp only [serviceServer.StopRecording, h1, h2]
    split <;> exact ⟨_, rfl, rfl, rfl⟩
  · intro req nm svc h1 h2
    simp only [serviceServer.RecordEpisode, h1, h2]
    split <;> exact ⟨_, rfl, rfl, rfl⟩
  · intro req nm svc h1 h2
    simp only [serviceServer.ReplayEpisode, h1, h2]
    split <;> exact ⟨_, rfl, rfl, rfl⟩
  · intro req nm svc h1 h2
    simp only [serviceServer.StartTeleoperation, h1, h2]
    split <;> exact ⟨_, rfl, rfl, rfl⟩
  · intro req nm svc h1 h2
    simp only [serviceServer.StopTeleoperation, h1, h2]
    split <;> exact ⟨_, rfl, rfl, rfl⟩
  · intro req nm svc h1 h2
    simp only [serviceServer.LoadPolicy, h1, h2]
    split <;> exact ⟨_, rfl, rfl, rfl⟩
  · intro req nm svc h1 h2
    simp only [serviceServer.RunPolicyEpisode, h1, h2]
    split <;> exact ⟨_, rfl, rfl, rfl⟩

/-- The collection of `twinServer` answers the name `lerobot1` with the working double. -/
theorem twinServer_lerobot1 :
    twinServer.coll.Resource "lerobot1" = (some workingLeRobot.asService, none) := by
  simp [twinServer, newServer, NewRPCServiceServer, testColl, testLeRobotName]

/-- The collection of `twinServer` answers the name `lerobot2` with the working double. -/
theorem twinServer_lerobot2 :
    twinServer.coll.Resource "lerobot2" = (some workingLeRobot.asService, none) := by
  simp [twinServer, newServer, NewRPCServiceServer, testColl, testLeRobotName, failLeRobotName]

/-- Witness of C17: a collection that holds the working double under `lerobot1` and under
`lerobot2`, and the requests of the tests sent under the one name and under the other. -/
theorem C17_name_only_selects_witness :
    twinServer.coll.Resource "lerobot1" = (some workingLeRobot.asService, none)
    ∧ twinServer.coll.Resource "lerobot2" = (some workingLeRobot.asService, none)
    ∧ (∃ c, (twinServer.StartRecording Context.Background (wireStartRecording "lerobot1")).trace
            = [.resolve "lerobot1", .invoke workingLeRobot.asService c]
          ∧ (twinServer.StartRecording Context.Background (wireStartRecording "lerobot2")).trace
            = [.resolve "lerobot2", .invoke workingLeRobot.asService c]
          ∧ (twinServer.StartRecording Context.Background (wireStartRecording "lerobot2")).outcome
            = (twinServer.StartRecording Context.Background (wireStartRecording "lerobot1")).outcome)
    ∧ (∃ c, (twinServer.StopRecording Context.Background (wireStopRecording "lerobot1")).trace
            = [.resolve "lerobot1", .invoke workingLeRobot.asService c]
          ∧ (twinServer.StopRecording Context.Background (wireStopRecording "lerobot2")).trace
            = [.resolve "lerobot2", .invoke workingLeRobot.asService c]
          ∧ (twinServer.StopRecording Context.Background (wireStopRecording "lerobot2")).outcome
            = (twinServer.StopRecording Context.Background (wireStopRecording "lerobot1")).outcome)
    ∧ (∃ c, (twinServer.RecordEpisode Context.Background (wireRecordEpisode "lerobot1")).trace
            = [.resolve "lerobot1", .invoke workingLeRobot.asService c]
          ∧ (twinServer.RecordEpisode Context.Background (wireRecordEpisode "lerobot2")).trace
            = [.resolve "lerobot2", .invoke workingLeRobot.asService c]
          ∧ (twinServer.RecordEpisode Context.Background (wireRecordEpisode "lerobot2")).outcome
            = (twinServer.RecordEpisode Context.Background (wireRecordEpisode "lerobot1")).outcome)
    ∧ (∃ c, (twinServer.ReplayEpisode Context.Background (wireReplayEpisode "lerobot1")).trace
            = [.resolve "lerobot1", .invoke workingLeRobot.asService c]
          ∧ (twinServer.ReplayEpisode Context.Background (wireReplayEpisode "lerobot2")).trace
            = [.resolve "lerobot2", .invoke workingLeRobot.asService c]
          ∧ (twinServer.ReplayEpisode Context.Background (wireReplayEpisode "lerobot2")).outcome
            = (twinServer.ReplayEpisode Context.Background (wireReplayEpisode "lerobot1")).outcome)
    ∧ (∃ c, (twinServer.StartTeleoperation Context.Background (wireStartTeleoperation "lerobot1")).trace
            = [.resolve "lerobot1", .invoke workingLeRobot.asService c]
          ∧ (twinServer.StartTeleoperation Context.Background (wireStartTeleoperation "lerobot2")).trace
            = [.resolve "lerobot2", .invoke workingLeRobot.asService c]
          ∧ (twinServer.StartTeleoperation Context.Background (wireStartTeleoperation "lerobot2")).outcome
            = (twinServer.StartTeleoperation Context.Background (wireStartTeleoperation "lerobot1")).outcome)
    ∧ (∃ c, (twinServer.StopTeleoperation Context.Background (wireStopTeleoperation "lerobot1")).trace
            = [.resolve "lerobot1", .invoke workingLeRobot.asService c]
          ∧ (twinServer.StopTeleoperation Context.Background (wireStopTeleoperation "lerobot2")).trace
            = [.resolve "lerobot2", .invoke workingLeRobot.asService c]
          ∧ (twinServer.StopTeleoperation Context.Background (wireStopTeleoperation "lerobot2")).outcome
            = (twinServer.StopTeleoperation Context.Background (wireStopTeleoperation "lerobot1")).outcome)
    ∧ (∃ c, (twinServer.LoadPolicy Context.Background (wireLoadPolicy "lerobot1")).trace
            = [.resolve "lerobot1", .invoke workingLeRobot.asService c]
          ∧ (twinServer.LoadPolicy Context.Background (wireLoadPolicy "lerobot2")).trace
            = [.resolve "lerobot2", .invoke workingLeRobot.asService c]
          ∧ (twinServer.LoadPolicy Context.Background (wireLoadPolicy "lerobot2")).outcome
            = (twinServer.LoadPolicy Context.Background (wireLoadPolicy "lerobot1")).outcome)
    ∧ (∃ c, (twinServer.RunPolicyEpisode Context.Background (wireRunPolicyEpisode "lerobot1")).trace
            = [.resolve "lerobot1", .invoke workingLeRobot.asService c]
          ∧ (twinServer.RunPolicyEpisode Context.Background (wireRunPolicyEpisode "lerobot2")).trace
            = [.resolve "lerobot2", .invoke workingLeRobot.asService c]
          ∧ (twinServer.RunPolicyEpisode Context.Background (wireRunPolicyEpisode "lerobot2")).outcome
            = (twinServer.RunPolicyEpisode Context.Background (wireRunPolicyEpisode "lerobot1")).outcome) :=
  have h := C17_name_only_selects_the_instance twinServer Context.Background
  ⟨twinServer_lerobot1, twinServer_lerobot2,
    h.1 (wireStartRecording "lerobot1") "lerobot2" workingLeRobot.asService twinServer_lerobot1 twinServer_lerobot2,
    h.2.1 (wireStopRecording "lerobot1") "lerobot2" workingLeRobot.asService twinServer_lerobot1 twinServer_lerobot2,
    h.2.2.1 (wireRecordEpisode "lerobot1") "lerobot2" workingLeRobot.asService twinServer_lerobot1 twinServer_lerobot2,
    h.2.2.2.1 (wireReplayEpisode "lerobot1") "lerobot2" workingLeRobot.asService twinServer_lerobot1 twinServer_lerobot2,
    h.2.2.2.2.1 (wireStartTeleoperation "lerobot1") "lerobot2" workingLeRobot.asService twinServer_lerobot1 twinServer_lerobot2,
    h.2.2.2.2.2.1 (wireStopTeleoperation "lerobot1") "lerobot2" workingLeRobot.asService twinServer_lerobot1 twinServer_lerobot2,
    h.2.2.2.2.2.2.1 (wireLoadPolicy "lerobot1") "lerobot2" workingLeRobot.asService twinServer_lerobot1 twinServer_lerobot2,
    h.2.2.2.2.2.2.2 (wireRunPolicyEpisode "lerobot1") "lerobot2" workingLeRobot.asService twinServer_lerobot1 twinServer_lerobot2⟩

/-- A collection built over a resource map with distinct names answers the name of an entry of
the map with the instance of that entry. -/
theorem APIResourceCollection_Resource_of_mem (n : resource.Name) (svc : Service) :
    ∀ resources : List (resource.Name × Service),
      (resources.map (fun r => r.1.Name)).Nodup →
      (n, svc) ∈ resources →
      resource.APIResourceCollection.Resource resources n.Name = (some svc, none) := by
  intro resources
  induction resources with
  | nil => intro _ h; simp at h
  | cons hd tl ih =>
    intro hnd hmem
    simp only [List.map_cons, List.nodup_cons] at hnd
    rcases List.mem_cons.mp hmem with heq | htl
    · subst heq
      simp [resource.APIResourceCollection.Resource]
    · have hne : hd.1.Name ≠ n.Name := by
        intro hcontra
        apply hnd.1
        rw [hcontra]
        exact List.mem_map.mpr ⟨(n, svc), htl, rfl⟩
      have := ih hnd.2 htl
      simp only [resource.APIResourceCollection.Resource] at this ⊢
      rw [List.find?_cons_of_neg]
      · exact this
      · simpa using hne

/-- C19: on a registry that does not yet hold the lerobot API identifier, the startup
registration succeeds; after it, the lookup of the identifier (namespace `rdk`, type `service`,
subtype `lerobot`) reports found, with no error, and returns the registration supplied, whose
server constructor is `NewRPCServiceServer` and whose client constructor is
`NewClientFromConn`; and a second registration for the identifier fails and leaves the registry
as it was. -/
theorem C19_lookup_after_startup_registration (registry : resource.Registry)
    (hfresh : (resource.LookupAPIRegistration registry API).2.1 = false) :
    API = { Namespace := "rdk", ResourceType := "service", SubtypeName := "lerobot" }
    ∧ (init registry).2 = none
    ∧ resource.LookupAPIRegistration (init registry).1 API
        = (some lerobotRegistration, true, none)
    ∧ lerobotRegistration.RPCServiceServerConstructor = NewRPCServiceServer
    ∧ lerobotRegistration.RPCClient = NewClientFromConn
    ∧ ∀ again : resource.APIRegistration,
        (resource.RegisterAPI (init registry).1 API again).2 ≠ none
        ∧ (resource.RegisterAPI (init registry).1 API again).1 = (init registry).1 := by
  have hnone : registry.find? (fun entry => entry.1 == API) = none := by
    simp only [resource.LookupAPIRegistration] at hfresh
    split at hfresh
    · simp at hfresh
    · assumption
  have hinit : init registry = ((API, lerobotRegistration) :: registry, none) := by
    simp only [init, resource.RegisterAPI, hnone]
  refine ⟨rfl, by rw [hinit], ?_, rfl, rfl, ?_⟩
  · rw [hinit]
    simp [resource.LookupAPIRegistration]
  · intro again
    rw [hinit]
    simp [resource.RegisterAPI]

/-- Witness of C19: startup on the empty registry. -/
theorem C19_lookup_after_startup_witness :
    (resource.LookupAPIRegistration [] API).2.1 = false
    ∧ API = { Namespace := "rdk", ResourceType := "service", SubtypeName := "lerobot" }
    ∧ (init []).2 = none
    ∧ resource.LookupAPIRegistration (init []).1 API = (some lerobotRegistration, true, none)
    ∧ lerobotRegistration.RPCServiceServerConstructor = NewRPCServiceServer
    ∧ lerobotRegistration.RPCClient = NewClientFromConn
    ∧ ∀ again : resource.APIRegistration,
        (resource.RegisterAPI (init []).1 API again).2 ≠ none
        ∧ (resource.RegisterAPI (init []).1 API again).1 = (init []).1 :=
  ⟨rfl, C19_lookup_after_startup_registration [] rfl⟩

/-- Every remote call that a proxy method issues carries the context the method was called
with; every call that a dispatcher operation makes on an instance carries the context the
operation was called with, and for `DoCommand` that context with the span of the operation
opened on it, which is cancelled exactly when the caller's context is. -/
theorem context_is_handed_on (ctx : Context) :
    (∀ (StructToStructPb : Encoder) (c : client) (d : String) (x : GoMap),
        ∀ rc ∈ (client.StartRecording StructToStructPb c ctx d x).trace, rc.ctx = ctx)
    ∧ (∀ (StructToStructPb : Encoder) (c : client) (d : String) (x : GoMap),
        ∀ rc ∈ (client.StopRecording StructToStructPb c ctx d x).trace, rc.ctx = ctx)
    ∧ (∀ (StructToStructPb : Encoder) (c : client) (q : RecordEpisodeRequest),
        ∀ rc ∈ (client.RecordEpisode StructToStructPb c ctx q).trace, rc.ctx = ctx)
    ∧ (∀ (StructToStructPb : Encoder) (c : client) (q : ReplayEpisodeRequest),
        ∀ rc ∈ (client.ReplayEpisode StructToStructPb c ctx q).trace, rc.ctx = ctx)
    ∧ (∀ (StructToStructPb : Encoder) (c : client) (q : StartTeleoperationRequest),
        ∀ rc ∈ (client.StartTeleoperation StructToStructPb c ctx q).trace, rc.ctx = ctx)
    ∧ (∀ (StructToStructPb : Encoder) (c : client) (d : String) (x : GoMap),
        ∀ rc ∈ (client.StopTeleoperation StructToStructPb c ctx d x).trace, rc.ctx = ctx)
    ∧ (∀ (StructToStructPb : Encoder) (c : client) (q : LoadPolicyRequest),
        ∀ rc ∈ (client.LoadPolicy StructToStructPb c ctx q).trace, rc.ctx = ctx)
    ∧ (∀ (StructToStructPb : Encoder) (c : client) (q : RunPolicyEpisodeRequest),
        ∀ rc ∈ (client.RunPolicyEpisode StructToStructPb c ctx q).trace, rc.ctx = ctx)
    ∧ (∀ (StructToStructPb : Encoder) (c : client) (x : GoMap),
        ∀ rc ∈ (client.DoCommand StructToStructPb c ctx x).trace, rc.ctx = ctx)
    ∧ (∀ (s : serviceServer) (req : pb.StartRecordingRequest) (t : Service) (c : Call),
        Event.invoke t c ∈ (s.StartRecording ctx req).trace → c.ctx = ctx)
    ∧ (∀ (s : serviceServer) (req : pb.StopRecordingRequest) (t : Service) (c : Call),
        Event.invoke t c ∈ (s.StopRecording ctx req).trace → c.ctx = ctx)
    ∧ (∀ (s : serviceServer) (req : pb.RecordEpisodeRequest) (t : Service) (c : Call),
        Event.invoke t c ∈ (s.RecordEpisode ctx req).trace → c.ctx = ctx)
    ∧ (∀ (s : serviceServer) (req : pb.ReplayEpisodeRequest) (t : Service) (c : Call),
        Event.invoke t c ∈ (s.ReplayEpisode ctx req).trace → c.ctx = ctx)
    ∧ (∀ (s : serviceServer) (req : pb.StartTeleoperationRequest) (t : Service) (c : Call),
        Event.invoke t c ∈ (s.StartTeleoperation ctx req).trace → c.ctx = ctx)
    ∧ (∀ (s : serviceServer) (req : pb.StopTeleoperationRequest) (t : Service) (c : Call),
        Event.invoke t c ∈ (s.StopTeleoperation ctx req).trace → c.ctx = ctx)
    ∧ (∀ (s : serviceServer) (req : pb.LoadPolicyRequest) (t : Service) (c : Call),
        Event.invoke t c ∈ (s.LoadPolicy ctx req).trace → c.ctx = ctx)
    ∧ (∀ (s : serviceServer) (req : pb.RunPolicyEpisodeRequest) (t : Service) (c : Call),
        Event.invoke t c ∈ (s.RunPolicyEpisode ctx req).trace → c.ctx = ctx)
    ∧ (∀ (s : serviceServer) (req : commonpb.DoCommandRequest) (t : Service) (c : Call),
        Event.invoke t c ∈ (s.DoCommand ctx req).trace →
        c.ctx = trace.StartSpan ctx doCommandSpan ∧ c.ctx.cancelled = ctx.cancelled) := by
  refine ⟨?_, ?_, ?_, ?_, ?_, ?_, ?_, ?_, ?_, ?_, ?_, ?_, ?_, ?_, ?_, ?_, ?_, ?_⟩
  · intro enc c d x rc hrc
    simp only [client.StartRecording] at hrc
    split at hrc
    · simp at hrc
    · split at hrc <;> simp_all [RemoteCall.ctx]
  · intro enc c d x rc hrc
    simp only [client.StopRecording] at hrc
    split at hrc
    · simp at hrc
    · split at hrc <;> simp_all [RemoteCall.ctx]
  · intro enc c q rc hrc
    simp only [client.RecordEpisode] at hrc
    split at hrc
    · simp at hrc
    · split at hrc <;> simp_all [RemoteCall.ctx]
  · intro enc c q rc hrc
    simp only [client.ReplayEpisode] at hrc
    split at hrc
    · simp at hrc
    · split at hrc <;> simp_all [RemoteCall.ctx]
  · intro enc c q rc hrc
    simp only [client.StartTeleoperation] at hrc
    split at hrc
    · simp at hrc
    · split at hrc <;> simp_all [RemoteCall.ctx]
  · intro enc c d x rc hrc
    simp only [client.StopTeleoperation] at hrc
    split at hrc
    · simp at hrc
    · split at hrc <;> simp_all [RemoteCall.ctx]
  · intro enc c q rc hrc
    simp only [client.LoadPolicy] at hrc
    split at hrc
    · simp at hrc
    · split at hrc <;> simp_all [RemoteCall.ctx]
  · intro enc c q rc hrc
    simp only [client.RunPolicyEpisode] at hrc
    split at hrc
    · simp at hrc
    · split at hrc <;> simp_all [RemoteCall.ctx]
  · intro enc c x rc hrc
    simp only [client.DoCommand] at hrc
    split at hrc
    · simp at hrc
    · split at hrc <;> simp_all [RemoteCall.ctx]
  · intro s req t c hmem
    simp only [serviceServer.StartRecording] at hmem
    split at hmem
    · simp at hmem
    · simp at hmem
    · split at hmem <;> simp at hmem <;> obtain ⟨-, h2⟩ := hmem <;> rw [h2] <;> rfl
  · intro s req t c hmem
    simp only [serviceServer.StopRecording] at hmem
    split at hmem
    · simp at hmem
    · simp at hmem
    · split at hmem <;> simp at hmem <;> obtain ⟨-, h2⟩ := hmem <;> rw [h2] <;> rfl
  · intro s req t c hmem
    simp only [serviceServer.RecordEpisode] at hmem
    split at hmem
    · simp at hmem
    · simp at hmem
    · split at hmem <;> simp at hmem <;> obtain ⟨-, h2⟩ := hmem <;> rw [h2] <;> rfl
  · intro s req t c hmem
    simp only [serviceServer.ReplayEpisode] at hmem
    split at hmem
    · simp at hmem
    · simp at hmem
    · split at hmem <;> simp at hmem <;> obtain ⟨-, h2⟩ := hmem <;> rw [h2] <;> rfl
  · intro s req t c hmem
    simp only [serviceServer.StartTeleoperation] at hmem
    split at hmem
    · simp at hmem
    · simp at hmem
    · split at hmem <;> simp at hmem <;> obtain ⟨-, h2⟩ := hmem <;> rw [h2] <;> rfl
  · intro s req t c hmem
    simp only [serviceServer.StopTeleoperation] at hmem
    split at hmem
    · simp at hmem
    · simp at hmem
    · split at hmem <;> simp at hmem <;> obtain ⟨-, h2⟩ := hmem <;> rw [h2] <;> rfl
  · intro s req t c hmem
    simp only [serviceServer.LoadPolicy] at hmem
    split at hmem
    · simp at hmem
    · simp at hmem
    · split at hmem <;> simp at hmem <;> obtain ⟨-, h2⟩ := hmem <;> rw [h2] <;> rfl
  · intro s req t c hmem
    simp only [serviceServer.RunPolicyEpisode] at hmem
    split at hmem
    · simp at hmem
    · simp at hmem
    · split at hmem <;> simp at hmem <;> obtain ⟨-, h2⟩ := hmem <;> rw [h2] <;> rfl
  · intro s req t c hmem
    simp only [serviceServer.DoCommand, protoutils.DoFromResourceServer] at hmem
    split at hmem
    · simp at hmem
    · simp at hmem
    · split at hmem <;> simp at hmem <;> obtain ⟨-, h2⟩ := hmem <;> rw [h2] <;>
        exact ⟨rfl, rfl⟩

/-- C21: for a request passed to the proxy method `RecordEpisode`, `ReplayEpisode`,
`LoadPolicy` or `RunPolicyEpisode` whose options are encoded, the proxy issues one remote call,
and the dispatcher, given the request of that call under a name that resolves to an instance,
calls the instance with a request that has every field other than the options equal to the
caller's: for `RecordEpisode` the dataset name, episode index, source, warm-up, episode and reset
times, frame rate and the tags in their order. -/
theorem C21_request_fields_delivered (StructToStructPb : Encoder) (c : client)
    (ctx : Context) :
    (∀ (q : RecordEpisodeRequest) (ext : Option Struct),
        StructToStructPb q.Extra = (ext, none) →
        ∃ w, (client.RecordEpisode StructToStructPb c ctx q).trace = [.RecordEpisode ctx w]
          ∧ ∀ (s : serviceServer) (svc : Service),
              s.coll.Resource w.Name = (some svc, none) →
              ∃ arg, (s.RecordEpisode ctx w).trace
                    = [.resolve w.Name, .invoke svc (.RecordEpisode ctx arg)]
                ∧ arg.DatasetName = q.DatasetName
                ∧ arg.EpisodeIndex = q.EpisodeIndex
                ∧ arg.Source = q.Source
                ∧ arg.WarmupTimeS = q.WarmupTimeS
                ∧ arg.EpisodeTimeS = q.EpisodeTimeS
                ∧ arg.ResetTimeS = q.ResetTimeS
                ∧ arg.Fps = q.Fps
                ∧ arg.Tags = q.Tags)
    ∧ (∀ (q : ReplayEpisodeRequest) (ext : Option Struct),
        StructToStructPb q.Extra = (ext, none) →
        ∃ w, (client.ReplayEpisode StructToStructPb c ctx q).trace = [.ReplayEpisode ctx w]
          ∧ ∀ (s : serviceServer) (svc : Service),
              s.coll.Resource w.Name = (some svc, none) →
              ∃ arg, (s.ReplayEpisode ctx w).trace
                    = [.resolve w.Name, .invoke svc (.ReplayEpisode ctx arg)]
                ∧ arg.DatasetName = q.DatasetName
                ∧ arg.EpisodeIndex = q.EpisodeIndex
                ∧ arg.Fps = q.Fps)
    ∧ (∀ (q : LoadPolicyRequest) (ext : Option Struct),
        StructToStructPb q.Extra = (ext, none) →
        ∃ w, (client.LoadPolicy StructToStructPb c ctx q).trace = [.LoadPolicy ctx w]
          ∧ ∀ (s : serviceServer) (svc : Service),
              s.coll.Resource w.Name = (some svc, none) →
              ∃ arg, (s.LoadPolicy ctx w).trace
                    = [.resolve w.Name, .invoke svc (.LoadPolicy ctx arg)]
                ∧ arg.PolicyRepoID = q.PolicyRepoID)
    ∧ (∀ (q : RunPolicyEpisodeRequest) (ext : Option Struct),
        StructToStructPb q.Extra = (ext, none) →
        ∃ w, (client.RunPolicyEpisode StructToStructPb c ctx q).trace = [.RunPolicyEpisode ctx w]
          ∧ ∀ (s : serviceServer) (svc : Service),
              s.coll.Resource w.Name = (some svc, none) →
              ∃ arg, (s.RunPolicyEpisode ctx w).trace
                    = [.resolve w.Name, .invoke svc (.RunPolicyEpisode ctx arg)]
                ∧ arg.PolicyID = q.PolicyID
                ∧ arg.MaxSteps = q.MaxSteps
                ∧ arg.Fps = q.Fps
                ∧ arg.RecordToDataset = q.RecordToDataset
                ∧ arg.DatasetName = q.DatasetName
                ∧ arg.EpisodeIndex = q.EpisodeIndex) := by
  refine ⟨?_, ?_, ?_, ?_⟩
  · intro q ext henc
    simp only [client.RecordEpisode, henc]
    split <;> refine ⟨_, rfl, ?_⟩ <;>
    · intro s svc hres
      simp only [serviceServer.RecordEpisode, hres]
      split <;> exact ⟨_, rfl, rfl, rfl, rfl, rfl, rfl, rfl, rfl, rfl⟩
  · intro q ext henc
    simp only [client.ReplayEpisode, henc]
    split <;> refine ⟨_, rfl, ?_⟩ <;>
    · intro s svc hres
      simp only [serviceServer.ReplayEpisode, hres]
      split <;> exact ⟨_, rfl, rfl, rfl, rfl⟩
  · intro q ext henc
    simp only [client.LoadPolicy, henc]
    split <;> refine ⟨_, rfl, ?_⟩ <;>
    · intro s svc hres
      simp only [serviceServer.LoadPolicy, hres]
      split <;> exact ⟨_, rfl, rfl⟩
  · intro q ext henc
    simp only [client.RunPolicyEpisode, henc]
    split <;> refine ⟨_, rfl, ?_⟩ <;>
    · intro s svc hres
      simp only [serviceServer.RunPolicyEpisode, hres]
      split <;> exact ⟨_, rfl, rfl, rfl, rfl, rfl, rfl, rfl⟩

/-- Witness of C21: the requests of the tests, and a `RecordEpisode` request with every field
set and two tags, sent by the proxy of the tests for `lerobot1`. -/
theorem C21_request_fields_witness :
    encodeAll callRecordEpisodeTagged.Extra = (some ⟨[]⟩, none)
    ∧ (∃ w, (client.RecordEpisode encodeAll (testClient (inProcessStub testServer) "lerobot1")
            Context.Background callRecordEpisodeTagged).trace = [.RecordEpisode Context.Background w]
        ∧ ∀ (s : serviceServer) (svc : Service),
            s.coll.Resource w.Name = (some svc, none) →
            ∃ arg, (s.RecordEpisode Context.Background w).trace
                  = [.resolve w.Name, .invoke svc (.RecordEpisode Context.Background arg)]
              ∧ arg.DatasetName = callRecordEpisodeTagged.DatasetName
              ∧ arg.EpisodeIndex = callRecordEpisodeTagged.EpisodeIndex
              ∧ arg.Source = callRecordEpisodeTagged.Source
              ∧ arg.WarmupTimeS = callRecordEpisodeTagged.WarmupTimeS
              ∧ arg.EpisodeTimeS = callRecordEpisodeTagged.EpisodeTimeS
              ∧ arg.ResetTimeS = callRecordEpisodeTagged.ResetTimeS
              ∧ arg.Fps = callRecordEpisodeTagged.Fps
              ∧ arg.Tags = callRecordEpisodeTagged.Tags)
    ∧ (∃ w, (client.ReplayEpisode encodeAll (testClient (inProcessStub testServer) "lerobot1")
            Context.Background callReplayEpisode).trace = [.ReplayEpisode Context.Background w]
        ∧ ∀ (s : serviceServer) (svc : Service),
            s.coll.Resource w.Name = (some svc, none) →
            ∃ arg, (s.ReplayEpisode Context.Background w).trace
                  = [.resolve w.Name, .invoke svc (.ReplayEpisode Context.Background arg)]
              ∧ arg.DatasetName = callReplayEpisode.DatasetName
              ∧ arg.EpisodeIndex = callReplayEpisode.EpisodeIndex
              ∧ arg.Fps = callReplayEpisode.Fps)
    ∧ (∃ w, (client.LoadPolicy encodeAll (testClient (inProcessStub testServer) "lerobot1")
            Context.Background callLoadPolicy).trace = [.LoadPolicy Context.Background w]
        ∧ ∀ (s : serviceServer) (svc : Service),
            s.coll.Resource w.Name = (some svc, none) →
            ∃ arg, (s.LoadPolicy Context.Background w).trace
                  = [.resolve w.Name, .invoke svc (.LoadPolicy Context.Background arg)]
              ∧ arg.PolicyRepoID = callLoadPolicy.PolicyRepoID)
    ∧ (∃ w, (client.RunPolicyEpisode encodeAll (testClient (inProcessStub testServer) "lerobot1")
            Context.Background testRunPolicyEpisodeCall).trace = [.RunPolicyEpisode Context.Background w]
        ∧ ∀ (s : serviceServer) (svc : Service),
            s.coll.Resource w.Name = (some svc, none) →
            ∃ arg, (s.RunPolicyEpisode Context.Background w).trace
                  = [.resolve w.Name, .invoke svc (.RunPolicyEpisode Context.Background arg)]
              ∧ arg.PolicyID = testRunPolicyEpisodeCall.PolicyID
              ∧ arg.MaxSteps = testRunPolicyEpisodeCall.MaxSteps
              ∧ arg.Fps = testRunPolicyEpisodeCall.Fps
              ∧ arg.RecordToDataset = testRunPolicyEpisodeCall.RecordToDataset
              ∧ arg.DatasetName = testRunPolicyEpisodeCall.DatasetName
              ∧ arg.EpisodeIndex = testRunPolicyEpisodeCall.EpisodeIndex) :=
  have h := C21_request_fields_delivered encodeAll
    (testClient (inProcessStub testServer) "lerobot1") Context.Background
  ⟨rfl,
    h.1 callRecordEpisodeTagged (some ⟨[]⟩) rfl,
    h.2.1 callReplayEpisode (some ⟨[]⟩) rfl,
    h.2.2.1 callLoadPolicy (some ⟨[]⟩) rfl,
    h.2.2.2 testRunPolicyEpisodeCall (some ⟨[]⟩) rfl⟩

/-- The dispatcher operation `StartRecording`, when the name of the request resolves to the instance
`svc`: it looks the name up, makes one call of `StartRecording` of `svc` with the options map built from
`Extra`, and returns what that call returned, turned into the wire response, or its error. -/
theorem dispatch_StartRecording (s : serviceServer) (ctx : Context) (req : pb.StartRecordingRequest)
    (svc : Service) (h : s.coll.Resource req.Name = (some svc, none)) :
    (s.StartRecording ctx req).trace
        = [.resolve req.Name, .invoke svc (.StartRecording ctx req.DatasetName (optionsOf req.Extra))]
    ∧ (∀ v, svc.StartRecording ctx req.DatasetName (optionsOf req.Extra) = (v, none) →
        (s.StartRecording ctx req).outcome = .returned (some { SessionId := v }) none)
    ∧ (∀ v e, svc.StartRecording ctx req.DatasetName (optionsOf req.Extra) = (v, some e) →
        (s.StartRecording ctx req).outcome = .returned none (some e)) := by
  have hx : (match req.Extra with
      | some e => e.AsMap
      | none => GoMap.nil) = optionsOf req.Extra := rfl
  simp only [serviceServer.StartRecording, h, hx]
  refine ⟨?_, ?_, ?_⟩
  · split <;> rfl
  · intro v hv
    simp only [hv]
  · intro v e hv
    simp only [hv]

/-- The dispatcher operation `StopRecording`, when the name of the request resolves to the instance
`svc`: it looks the name up, makes one call of `StopRecording` of `svc` with the options map built from
`Extra`, and returns what that call returned, turned into the wire response, or its error. -/
theorem dispatch_StopRecording (s : serviceServer) (ctx : Context) (req : pb.StopRecordingRequest)
    (svc : Service) (h : s.coll.Resource req.Name = (some svc, none)) :
    (s.StopRecording ctx req).trace
        = [.resolve req.Name, .invoke svc (.StopRecording ctx req.SessionId (optionsOf req.Extra))]
    ∧ (∀ v, svc.StopRecording ctx req.SessionId (optionsOf req.Extra) = (v, none) →
        (s.StopRecording ctx req).outcome = .returned (some { DurationS := v }) none)
    ∧ (∀ v e, svc.StopRecording ctx req.SessionId (optionsOf req.Extra) = (v, some e) →
        (s.StopRecording ctx req).outcome = .returned none (some e)) := by
  have hx : (match req.Extra with
      | some e => e.AsMap
      | none => GoMap.nil) = optionsOf req.Extra := rfl
  simp only [serviceServer.StopRecording, h, hx]
  refine ⟨?_, ?_, ?_⟩
  · split <;> rfl
  · intro v hv
    simp only [hv]
  · intro v e hv
    simp only [hv]

/-- The dispatcher operation `RecordEpisode`, when the name of the request resolves to the instance
`svc`: it looks the name up, makes one call of `RecordEpisode` of `svc` with the options map built from
`Extra`, and returns what that call returned, turned into the wire response, or its error. -/
theorem dispatch_RecordEpisode (s : serviceServer) (ctx : Context) (req : pb.RecordEpisodeRequest)
    (svc : Service) (h : s.coll.Resource req.Name = (some svc, none)) :
    ∃ arg, arg.Extra = optionsOf req.Extra
    ∧ (s.RecordEpisode ctx req).trace
        = [.resolve req.Name, .invoke svc (.RecordEpisode ctx arg)]
    ∧ (∀ r, svc.RecordEpisode ctx arg = (some r, none) →
        (s.RecordEpisode ctx req).outcome
          = .returned (some
            { NumFrames := r.NumFrames,
              ActualDurationS := r.ActualDurationS,
              EpisodePath := r.EpisodePath }) none)
    ∧ (svc.RecordEpisode ctx arg = (none, none) →
        (s.RecordEpisode ctx req).outcome = .panicked)
    ∧ (∀ r e, svc.RecordEpisode ctx arg = (r, some e) →
        (s.RecordEpisode ctx req).outcome = .returned none (some e)) := by
  have hx : (match req.Extra with
      | some e => e.AsMap
      | none => GoMap.nil) = optionsOf req.Extra := rfl
  simp only [serviceServer.RecordEpisode, h, hx]
  refine ⟨
      { DatasetName := req.DatasetName
        EpisodeIndex := req.EpisodeIndex
        Source := ⟨req.Source.val⟩
        WarmupTimeS := req.WarmupTimeS
        EpisodeTimeS := req.EpisodeTimeS
        ResetTimeS := req.ResetTimeS
        Fps := req.Fps
        Tags := req.Tags
        Extra := optionsOf req.Extra },
    rfl, ?_, ?_, ?_, ?_⟩
  · split <;> rfl
  · intro r hv
    simp only [hv]
  · intro hv
    simp only [hv]
  · intro r e hv
    simp only [hv]

/-- The dispatcher operation `ReplayEpisode`, when the name of the request resolves to the instance
`svc`: it looks the name up, makes one call of `ReplayEpisode` of `svc` with the options map built from
`Extra`, and returns what that call returned, turned into the wire response, or its error. -/
theorem dispatch_ReplayEpisode (s : serviceServer) (ctx : Context) (req : pb.ReplayEpisodeRequest)
    (svc : Service) (h : s.coll.Resource req.Name = (some svc, none)) :
    ∃ arg, arg.Extra = optionsOf req.Extra
    ∧ (s.ReplayEpisode ctx req).trace
        = [.resolve req.Name, .invoke svc (.ReplayEpisode ctx arg)]
    ∧ (∀ r, svc.ReplayEpisode ctx arg = (some r, none) →
        (s.ReplayEpisode ctx req).outcome
          = .returned (some
            { NumFramesReplayed := r.NumFramesReplayed,
              DurationS := r.DurationS }) none)
    ∧ (svc.ReplayEpisode ctx arg = (none, none) →
        (s.ReplayEpisode ctx req).outcome = .panicked)
    ∧ (∀ r e, svc.ReplayEpisode ctx arg = (r, some e) →
        (s.ReplayEpisode ctx req).outcome = .returned none (some e)) := by
  have hx : (match req.Extra with
      | some e => e.AsMap
      | none => GoMap.nil) = optionsOf req.Extra := rfl
  simp only [serviceServer.ReplayEpisode, h, hx]
  refine ⟨
      { DatasetName := req.DatasetName
        EpisodeIndex := req.EpisodeIndex
        Fps := req.Fps
        Extra := optionsOf req.Extra },
    rfl, ?_, ?_, ?_, ?_⟩
  · split <;> rfl
  · intro r hv
    simp only [hv]
  · intro hv
    simp only [hv]
  · intro r e hv
    simp only [hv]

/-- The dispatcher operation `StartTeleoperation`, when the name of the request resolves to the instance
`svc`: it looks the name up, makes one call of `StartTeleoperation` of `svc` with the options map built from
`Extra`, and returns what that call returned, turned into the wire response, or its error. -/
theorem dispatch_StartTeleoperation (s : serviceServer) (ctx : Context) (req : pb.StartTeleoperationRequest)
    (svc : Service) (h : s.coll.Resource req.Name = (some svc, none)) :
    ∃ arg, arg.Extra = optionsOf req.Extra
    ∧ (s.StartTeleoperation ctx req).trace
        = [.resolve req.Name, .invoke svc (.StartTeleoperation ctx arg)]
    ∧ (∀ v, svc.StartTeleoperation ctx arg = (v, none) →
        (s.StartTeleoperation ctx req).outcome = .returned (some { SessionId := v }) none)
    ∧ (∀ v e, svc.StartTeleoperation ctx arg = (v, some e) →
        (s.StartTeleoperation ctx req).outcome = .returned none (some e)) := by
  have hx : (match req.Extra with
      | some e => e.AsMap
      | none => GoMap.nil) = optionsOf req.Extra := rfl
  simp only [serviceServer.StartTeleoperation, h, hx]
  refine ⟨
      { TeleopDeviceType := req.TeleopDeviceType
        Fps := req.Fps
        DisplayCameras := false
        Extra := optionsOf req.Extra },
    rfl, ?_, ?_, ?_⟩
  · split <;> rfl
  · intro v hv
    simp only [hv]
  · intro v e hv
    simp only [hv]

/-- The dispatcher operation `StopTeleoperation`, when the name of the request resolves to the instance
`svc`: it looks the name up, makes one call of `StopTeleoperation` of `svc` with the options map built from
`Extra`, and returns what that call returned, turned into the wire response, or its error. -/
theorem dispatch_StopTeleoperation (s : serviceServer) (ctx : Context) (req : pb.StopTeleoperationRequest)
    (svc : Service) (h : s.coll.Resource req.Name = (some svc, none)) :
    (s.StopTeleoperation ctx req).trace
        = [.resolve req.Name, .invoke svc (.StopTeleoperation ctx req.SessionId (optionsOf req.Extra))]
    ∧ (∀ v, svc.StopTeleoperation ctx req.SessionId (optionsOf req.Extra) = (v, none) →
        (s.StopTeleoperation ctx req).outcome = .returned (some { DurationS := v }) none)
    ∧ (∀ v e, svc.StopTeleoperation ctx req.SessionId (optionsOf req.Extra) = (v, some e) →
        (s.StopTeleoperation ctx req).outcome = .returned none (some e)) := by
  have hx : (match req.Extra with
      | some e => e.AsMap
      | none => GoMap.nil) = optionsOf req.Extra := rfl
  simp only [serviceServer.StopTeleoperation, h, hx]
  refine ⟨?_, ?_, ?_⟩
  · split <;> rfl
  · intro v hv
    simp only [hv]
  · intro v e hv
    simp only [hv]

/-- The dispatcher operation `LoadPolicy`, when the name of the request resolves to the instance
`svc`: it looks the name up, makes one call of `LoadPolicy` of `svc` with the options map built from
`Extra`, and returns what that call returned, turned into the wire response, or its error. -/
theorem dispatch_LoadPolicy (s : serviceServer) (ctx : Context) (req : pb.LoadPolicyRequest)
    (svc : Service) (h : s.coll.Resource req.Name = (some svc, none)) :
    ∃ arg, arg.Extra = optionsOf req.Extra
    ∧ (s.LoadPolicy ctx req).trace
        = [.resolve req.Name, .invoke svc (.LoadPolicy ctx arg)]
    ∧ (∀ r, svc.LoadPolicy ctx arg = (some r, none) →
        (s.LoadPolicy ctx req).outcome
          = .returned (some
            { PolicyId := r.PolicyID,
              PolicyType := r.PolicyType }) none)
    ∧ (svc.LoadPolicy ctx arg = (none, none) →
        (s.LoadPolicy ctx req).outcome = .panicked)
    ∧ (∀ r e, svc.LoadPolicy ctx arg = (r, some e) →
        (s.LoadPolicy ctx req).outcome = .returned none (some e)) := by
  have hx : (match req.Extra with
      | some e => e.AsMap
      | none => GoMap.nil) = optionsOf req.Extra := rfl
  simp only [serviceServer.LoadPolicy, h, hx]
  refine ⟨
      { PolicyRepoID := req.PolicyRepoId
        Extra := optionsOf req.Extra },
    rfl, ?_, ?_, ?_, ?_⟩
  · split <;> rfl
  · intro r hv
    simp only [hv]
  · intro hv
    simp only [hv]
  · intro r e hv
    simp only [hv]

/-- The dispatcher operation `RunPolicyEpisode`, when the name of the request resolves to the instance
`svc`: it looks the name up, makes one call of `RunPolicyEpisode` of `svc` with the options map built from
`Extra`, and returns what that call returned, turned into the wire response, or its error. -/
theorem dispatch_RunPolicyEpisode (s : serviceServer) (ctx : Context) (req : pb.RunPolicyEpisodeRequest)
    (svc : Service) (h : s.coll.Resource req.Name = (some svc, none)) :
    ∃ arg, arg.Extra = optionsOf req.Extra
    ∧ (s.RunPolicyEpisode ctx req).trace
        = [.resolve req.Name, .invoke svc (.RunPolicyEpisode ctx arg)]
    ∧ (∀ r, svc.RunPolicyEpisode ctx arg = (some r, none) →
        ∃ resp, (s.RunPolicyEpisode ctx req).outcome = .returned (some resp) none
          ∧ resp.NumSteps = r.NumSteps
          ∧ resp.DurationS = r.DurationS
          ∧ resp.EpisodePath = r.EpisodePath)
    ∧ (svc.RunPolicyEpisode ctx arg = (none, none) →
        (s.RunPolicyEpisode ctx req).outcome = .panicked)
    ∧ (∀ r e, svc.RunPolicyEpisode ctx arg = (r, some e) →
        (s.RunPolicyEpisode ctx req).outcome = .returned none (some e)) := by
  have hx : (match req.Extra with
      | some e => e.AsMap
      | none => GoMap.nil) = optionsOf req.Extra := rfl
  simp only [serviceServer.RunPolicyEpisode, h, hx]
  refine ⟨
      { PolicyID := req.PolicyId
        MaxSteps := req.MaxSteps
        Fps := req.Fps
        RecordToDataset := req.RecordToDataset
        DatasetName := req.DatasetName
        EpisodeIndex := req.EpisodeIndex
        Extra := optionsOf req.Extra },
    rfl, ?_, ?_, ?_, ?_⟩
  · split <;> rfl
  · intro r hv
    simp only [hv]
    exact ⟨_, rfl, rfl, rfl, rfl⟩
  · intro hv
    simp only [hv]
  · intro r e hv
    simp only [hv]

/-- The dispatcher operation `DoCommand`, when the name of the request resolves to the instance
`svc`: it looks the name up, makes one call of `DoCommand` of `svc` with the command as a map,
under the span of the operation, and returns a response that holds the entries of the map the
instance produced, or the instance's error. -/
theorem dispatch_DoCommand (s : serviceServer) (ctx : Context) (req : commonpb.DoCommandRequest)
    (svc : Service) (h : s.coll.Resource req.Name = (some svc, none)) :
    (s.DoCommand ctx req).trace
        = [.resolve req.Name,
           .invoke svc (.DoCommand (trace.StartSpan ctx doCommandSpan)
             (Struct.AsMapOfPtr req.Command))]
    ∧ (∀ m,
        svc.DoCommand (trace.StartSpan ctx doCommandSpan) (Struct.AsMapOfPtr req.Command)
          = (m, none) →
        ∃ resp, (s.DoCommand ctx req).outcome = .returned (some resp) none
          ∧ (Struct.AsMapOfPtr resp.Result).entries = m.entries)
    ∧ (∀ m e,
        svc.DoCommand (trace.StartSpan ctx doCommandSpan) (Struct.AsMapOfPtr req.Command)
          = (m, some e) →
        (s.DoCommand ctx req).outcome = .returned none (some e)) := by
  refine ⟨?_, ?_, ?_⟩
  · simp only [serviceServer.DoCommand, h, protoutils.DoFromResourceServer, doCommandSpan,
      Struct.AsMapOfPtr]
    split <;> rfl
  · intro m hsvc
    simp only [doCommandSpan, Struct.AsMapOfPtr] at hsvc
    simp only [serviceServer.DoCommand, h, protoutils.DoFromResourceServer, hsvc]
    exact ⟨_, rfl, by simp [Struct.AsMapOfPtr, Struct.AsMap, GoMap.entries]⟩
  · intro m e hsvc
    simp only [doCommandSpan, Struct.AsMapOfPtr] at hsvc
    simp only [serviceServer.DoCommand, h, protoutils.DoFromResourceServer, hsvc]

/-- C7, amended: for each of the eight service operations, when the request carries no `Extra`
and its name resolves to an instance, the dispatcher makes one call, of the corresponding method
of that instance, and hands it the nil map as the options; it returns the instance's error when
the instance returns one, and no error, with the response built from the instance's result,
when it returns none. The nil map has no entries and every read of it finds nothing; an
assignment into it panics. -/
theorem C7_absent_Extra_hands_over_nil_map (s : serviceServer) (ctx : Context) :
    (GoMap.nil.len = 0
      ∧ (∀ k, GoMap.nil.get k = none)
      ∧ (∀ k v, GoMap.nil.set k v = .panicked))
    ∧ (∀ (req : pb.StartRecordingRequest) (svc : Service),
        req.Extra = none →
        s.coll.Resource req.Name = (some svc, none) →
        (s.StartRecording ctx req).trace
            = [.resolve req.Name, .invoke svc (.StartRecording ctx req.DatasetName GoMap.nil)]
        ∧ (∀ v, svc.StartRecording ctx req.DatasetName GoMap.nil = (v, none) →
            (s.StartRecording ctx req).outcome = .returned (some { SessionId := v }) none)
        ∧ (∀ v e, svc.StartRecording ctx req.DatasetName GoMap.nil = (v, some e) →
            (s.StartRecording ctx req).outcome = .returned none (some e)))
    ∧ (∀ (req : pb.StopRecordingRequest) (svc : Service),
        req.Extra = none →
        s.coll.Resource req.Name = (some svc, none) →
        (s.StopRecording ctx req).trace
            = [.resolve req.Name, .invoke svc (.StopRecording ctx req.SessionId GoMap.nil)]
        ∧ (∀ v, svc.StopRecording ctx req.SessionId GoMap.nil = (v, none) →
            (s.StopRecording ctx req).outcome = .returned (some { DurationS := v }) none)
        ∧ (∀ v e, svc.StopRecording ctx req.SessionId GoMap.nil = (v, some e) →
            (s.StopRecording ctx req).outcome = .returned none (some e)))
    ∧ (∀ (req : pb.RecordEpisodeRequest) (svc : Service),
        req.Extra = none →
        s.coll.Resource req.Name = (some svc, none) →
        ∃ arg, arg.Extra = GoMap.nil
        ∧ (s.RecordEpisode ctx req).trace
            = [.resolve req.Name, .invoke svc (.RecordEpisode ctx arg)]
        ∧ (∀ r, svc.RecordEpisode ctx arg = (some r, none) →
            (s.RecordEpisode ctx req).outcome
              = .returned (some
                { NumFrames := r.NumFrames,
                  ActualDurationS := r.ActualDurationS,
                  EpisodePath := r.EpisodePath }) none)
        ∧ (svc.RecordEpisode ctx arg = (none, none) →
            (s.RecordEpisode ctx req).outcome = .panicked)
        ∧ (∀ r e, svc.RecordEpisode ctx arg = (r, some e) →
            (s.RecordEpisode ctx req).outcome = .returned none (some e)))
    ∧ (∀ (req : pb.ReplayEpisodeRequest) (svc : Service),
        req.Extra = none →
        s.coll.Resource req.Name = (some svc, none) →
        ∃ arg, arg.Extra = GoMap.nil
        ∧ (s.ReplayEpisode ctx req).trace
            = [.resolve req.Name, .invoke svc (.ReplayEpisode ctx arg)]
        ∧ (∀ r, svc.ReplayEpisode ctx arg = (some r, none) →
            (s.ReplayEpisode ctx req).outcome
              = .returned (some
                { NumFramesReplayed := r.NumFramesReplayed,
                  DurationS := r.DurationS }) none)
        ∧ (svc.ReplayEpisode ctx arg = (none, none) →
            (s.ReplayEpisode ctx req).outcome = .panicked)
        ∧ (∀ r e, svc.ReplayEpisode ctx arg = (r, some e) →
            (s.ReplayEpisode ctx req).outcome = .returned none (some e)))
    ∧ (∀ (req : pb.StartTeleoperationRequest) (svc : Service),
        req.Extra = none →
        s.coll.Resource req.Name = (some svc, none) →
        ∃ arg, arg.Extra = GoMap.nil
        ∧ (s.StartTeleoperation ctx req).trace
            = [.resolve req.Name, .invoke svc (.StartTeleoperation ctx arg)]
        ∧ (∀ v, svc.StartTeleoperation ctx arg = (v, none) →
            (s.StartTeleoperation ctx req).outcome = .returned (some { SessionId := v }) none)
        ∧ (∀ v e, svc.StartTeleoperation ctx arg = (v, some e) →
            (s.StartTeleoperation ctx req).outcome = .returned none (some e)))
    ∧ (∀ (req : pb.StopTeleoperationRequest) (svc : Service),
        req.Extra = none →
        s.coll.Resource req.Name = (some svc, none) →
        (s.StopTeleoperation ctx req).trace
            = [.resolve req.Name, .invoke svc (.StopTeleoperation ctx req.SessionId GoMap.nil)]
        ∧ (∀ v, svc.StopTeleoperation ctx req.SessionId GoMap.nil = (v, none) →
            (s.StopTeleoperation ctx req).outcome = .returned (some { DurationS := v }) none)
        ∧ (∀ v e, svc.StopTeleoperation ctx req.SessionId GoMap.nil = (v, some e) →
            (s.StopTeleoperation ctx req).outcome = .returned none (some e)))
    ∧ (∀ (req : pb.LoadPolicyRequest) (svc : Service),
        req.Extra = none →
        s.coll.Resource req.Name = (some svc, none) →
        ∃ arg, arg.Extra = GoMap.nil
        ∧ (s.LoadPolicy ctx req).trace
            = [.resolve req.Name, .invoke svc (.LoadPolicy ctx arg)]
        ∧ (∀ r, svc.LoadPolicy ctx arg = (some r, none) →
            (s.LoadPolicy ctx req).outcome
              = .returned (some
                { PolicyId := r.PolicyID,
                  PolicyType := r.PolicyType }) none)
        ∧ (svc.LoadPolicy ctx arg = (none, none) →
            (s.LoadPolicy ctx req).outcome = .panicked)
        ∧ (∀ r e, svc.LoadPolicy ctx arg = (r, some e) →
            (s.LoadPolicy ctx req).outcome = .returned none (some e)))
    ∧ (∀ (req : pb.RunPolicyEpisodeRequest) (svc : Service),
        req.Extra = none →
        s.coll.Resource req.Name = (some svc, none) →
        ∃ arg, arg.Extra = GoMap.nil
        ∧ (s.RunPolicyEpisode ctx req).trace
            = [.resolve req.Name, .invoke svc (.RunPolicyEpisode ctx arg)]
        ∧ (∀ r, svc.RunPolicyEpisode ctx arg = (some r, none) →
            ∃ resp, (s.RunPolicyEpisode ctx req).outcome = .returned (some resp) none
              ∧ resp.NumSteps = r.NumSteps
              ∧ resp.DurationS = r.DurationS
              ∧ resp.EpisodePath = r.EpisodePath)
        ∧ (svc.RunPolicyEpisode ctx arg = (none, none) →
            (s.RunPolicyEpisode ctx req).outcome = .panicked)
        ∧ (∀ r e, svc.RunPolicyEpisode ctx arg = (r, some e) →
            (s.RunPolicyEpisode ctx req).outcome = .returned none (some e))) := by
  refine ⟨⟨rfl, fun _ => rfl, fun _ _ => rfl⟩, ?_, ?_, ?_, ?_, ?_, ?_, ?_, ?_⟩
  · intro req svc hx h
    have := dispatch_StartRecording s ctx req svc h
    rw [hx] at this
    exact this
  · intro req svc hx h
    have := dispatch_StopRecording s ctx req svc h
    rw [hx] at this
    exact this
  · intro req svc hx h
    have := dispatch_RecordEpisode s ctx req svc h
    rw [hx] at this
    exact this
  · intro req svc hx h
    have := dispatch_ReplayEpisode s ctx req svc h
    rw [hx] at this
    exact this
  · intro req svc hx h
    have := dispatch_StartTeleoperation s ctx req svc h
    rw [hx] at this
    exact this
  · intro req svc hx h
    have := dispatch_StopTeleoperation s ctx req svc h
    rw [hx] at this
    exact this
  · intro req svc hx h
    have := dispatch_LoadPolicy s ctx req svc h
    rw [hx] at this
    exact this
  · intro req svc hx h
    have := dispatch_RunPolicyEpisode s ctx req svc h
    rw [hx] at this
    exact this

/-- C7, as stated, fails: given the request of `TestStartRecording`, which carries no `Extra`,
the dispatcher hands the instance the nil map, and an assignment into the nil map panics, where
an assignment into an allocated map with no entries succeeds. -/
theorem C7_nil_map_fails_on_assignment :
    (wireStartRecording "lerobot1").Extra = none
    ∧ (testServer.StartRecording Context.Background (wireStartRecording "lerobot1")).trace
        = [.resolve "lerobot1",
           .invoke workingLeRobot.asService
             (.StartRecording Context.Background "test-dataset" GoMap.nil)]
    ∧ GoMap.set GoMap.nil "key" (Value.str "value") = .panicked
    ∧ GoMap.set (some []) "key" (Value.str "value")
        = .returned (some [("key", Value.str "value")]) none := by
  refine ⟨rfl, ?_, rfl, rfl⟩
  simp [serviceServer.StartRecording, testServer, newServer, NewRPCServiceServer, testColl,
    wireStartRecording, testLeRobotName, inject.LeRobotService.asService,
    inject.LeRobotService.StartRecording, workingLeRobot]

/-- The collection of `fullServer` answers the name `lerobot1` with the working double of
`TestClient`. -/
theorem fullServer_lerobot1 :
    fullServer.coll.Resource "lerobot1" = (some fullLeRobot.asService, none) := by
  simp [fullServer, newServer, NewRPCServiceServer, testColl, testLeRobotName]

/-- Witness of C7, amended: the requests of the tests carry no `Extra`; for each of the eight
operations the dispatcher over the working double of `TestClient` calls the double with the nil
map and returns the response built from what the double returned. -/
theorem C7_absent_Extra_witness :
    (wireStartRecording "lerobot1").Extra = none
    ∧ fullServer.coll.Resource "lerobot1" = (some fullLeRobot.asService, none)
    ∧ (GoMap.nil.len = 0
      ∧ (∀ k, GoMap.nil.get k = none)
      ∧ (∀ k v, GoMap.nil.set k v = .panicked))
    ∧ (fullServer.StartRecording Context.Background (wireStartRecording "lerobot1")).trace
        = [.resolve "lerobot1",
           .invoke fullLeRobot.asService (.StartRecording Context.Background "test-dataset" GoMap.nil)]
    ∧ (fullServer.StartRecording Context.Background (wireStartRecording "lerobot1")).outcome
        = .returned (some { SessionId := "session-123" }) none
    ∧ (fullServer.StopRecording Context.Background (wireStopRecording "lerobot1")).trace
        = [.resolve "lerobot1",
           .invoke fullLeRobot.asService (.StopRecording Context.Background "session-123" GoMap.nil)]
    ∧ (fullServer.StopRecording Context.Background (wireStopRecording "lerobot1")).outcome
        = .returned (some { DurationS := ⟨0x42F70000⟩ }) none
    ∧ (∃ arg, arg.Extra = GoMap.nil
        ∧ (fullServer.RecordEpisode Context.Background (wireRecordEpisode "lerobot1")).trace
          = [.resolve "lerobot1", .invoke fullLeRobot.asService (.RecordEpisode Context.Background arg)])
    ∧ (fullServer.RecordEpisode Context.Background (wireRecordEpisode "lerobot1")).outcome
        = .returned
            (some
            { NumFrames := 100, ActualDurationS := ⟨0x41280000⟩,
              EpisodePath := "/path/to/episode" }) none
    ∧ (∃ arg, arg.Extra = GoMap.nil
        ∧ (fullServer.ReplayEpisode Context.Background (wireReplayEpisode "lerobot1")).trace
          = [.resolve "lerobot1", .invoke fullLeRobot.asService (.ReplayEpisode Context.Background arg)])
    ∧ (fullServer.ReplayEpisode Context.Background (wireReplayEpisode "lerobot1")).outcome
        = .returned
            (some
            { NumFramesReplayed := 50, DurationS := ⟨0x40A00000⟩ }) none
    ∧ (∃ arg, arg.Extra = GoMap.nil
        ∧ (fullServer.StartTeleoperation Context.Background (wireStartTeleoperation "lerobot1")).trace
          = [.resolve "lerobot1", .invoke fullLeRobot.asService (.StartTeleoperation Context.Background arg)])
    ∧ (fullServer.StartTeleoperation Context.Background (wireStartTeleoperation "lerobot1")).outcome
        = .returned (some { SessionId := "teleop-456" }) none
    ∧ (fullServer.StopTeleoperation Context.Background (wireStopTeleoperation "lerobot1")).trace
        = [.resolve "lerobot1",
           .invoke fullLeRobot.asService (.StopTeleoperation Context.Background "teleop-session-456" GoMap.nil)]
    ∧ (fullServer.StopTeleoperation Context.Background (wireStopTeleoperation "lerobot1")).outcome
        = .returned (some { DurationS := ⟨0x42700000⟩ }) none
    ∧ (∃ arg, arg.Extra = GoMap.nil
        ∧ (fullServer.LoadPolicy Context.Background (wireLoadPolicy "lerobot1")).trace
          = [.resolve "lerobot1", .invoke fullLeRobot.asService (.LoadPolicy Context.Background arg)])
    ∧ (fullServer.LoadPolicy Context.Background (wireLoadPolicy "lerobot1")).outcome
        = .returned
            (some
            { PolicyId := "policy-789", PolicyType := "act" }) none
    ∧ (∃ arg, arg.Extra = GoMap.nil
        ∧ (fullServer.RunPolicyEpisode Context.Background (wireRunPolicyEpisode "lerobot1")).trace
          = [.resolve "lerobot1", .invoke fullLeRobot.asService (.RunPolicyEpisode Context.Background arg)])
    ∧ (∃ resp, (fullServer.RunPolicyEpisode Context.Background (wireRunPolicyEpisode "lerobot1")).outcome = .returned (some resp) none
        ∧ resp.NumSteps = 200
        ∧ resp.DurationS = float20
        ∧ resp.EpisodePath = "/path/to/policy/episode") := by
  have h := C7_absent_Extra_hands_over_nil_map fullServer Context.Background
  refine ⟨rfl, fullServer_lerobot1, h.1, ?_, ?_, ?_, ?_, ?_, ?_, ?_, ?_, ?_, ?_, ?_, ?_, ?_, ?_, ?_, ?_⟩
  · exact (h.2.1 (wireStartRecording "lerobot1") fullLeRobot.asService rfl fullServer_lerobot1).1
  · exact (h.2.1 (wireStartRecording "lerobot1") fullLeRobot.asService rfl fullServer_lerobot1).2.1 "session-123" rfl
  · exact (h.2.2.1 (wireStopRecording "lerobot1") fullLeRobot.asService rfl fullServer_lerobot1).1
  · exact (h.2.2.1 (wireStopRecording "lerobot1") fullLeRobot.asService rfl fullServer_lerobot1).2.1 ⟨0x42F70000⟩ rfl
  · obtain ⟨arg, hE, ht, -⟩ := h.2.2.2.1 (wireRecordEpisode "lerobot1") fullLeRobot.asService rfl fullServer_lerobot1
    exact ⟨arg, hE, ht⟩
  · obtain ⟨arg, -, -, hs, -⟩ := h.2.2.2.1 (wireRecordEpisode "lerobot1") fullLeRobot.asService rfl fullServer_lerobot1
    exact hs { NumFrames := 100, ActualDurationS := ⟨0x41280000⟩, EpisodePath := "/path/to/episode" } rfl
  · obtain ⟨arg, hE, ht, -⟩ := h.2.2.2.2.1 (wireReplayEpisode "lerobot1") fullLeRobot.asService rfl fullServer_lerobot1
    exact ⟨arg, hE, ht⟩
  · obtain ⟨arg, -, -, hs, -⟩ := h.2.2.2.2.1 (wireReplayEpisode "lerobot1") fullLeRobot.asService rfl fullServer_lerobot1
    exact hs { NumFramesReplayed := 50, DurationS := ⟨0x40A00000⟩ } rfl
  · obtain ⟨arg, hE, ht, -⟩ := h.2.2.2.2.2.1 (wireStartTeleoperation "lerobot1") fullLeRobot.asService rfl fullServer_lerobot1
    exact ⟨arg, hE, ht⟩
  · obtain ⟨arg, -, -, hs, -⟩ := h.2.2.2.2.2.1 (wireStartTeleoperation "lerobot1") fullLeRobot.asService rfl fullServer_lerobot1
    exact hs "teleop-456" rfl
  · exact (h.2.2.2.2.2.2.1 (wireStopTeleoperation "lerobot1") fullLeRobot.asService rfl fullServer_lerobot1).1
  · exact (h.2.2.2.2.2.2.1 (wireStopTeleoperation "lerobot1") fullLeRobot.asService rfl fullServer_lerobot1).2.1 ⟨0x42700000⟩ rfl
  · obtain ⟨arg, hE, ht, -⟩ := h.2.2.2.2.2.2.2.1 (wireLoadPolicy "lerobot1") fullLeRobot.asService rfl fullServer_lerobot1
    exact ⟨arg, hE, ht⟩
  · obtain ⟨arg, -, -, hs, -⟩ := h.2.2.2.2.2.2.2.1 (wireLoadPolicy "lerobot1") fullLeRobot.asService rfl fullServer_lerobot1
    exact hs { PolicyID := "policy-789", PolicyType := "act" } rfl
  · obtain ⟨arg, hE, ht, -⟩ := h.2.2.2.2.2.2.2.2 (wireRunPolicyEpisode "lerobot1") fullLeRobot.asService rfl fullServer_lerobot1
    exact ⟨arg, hE, ht⟩
  · obtain ⟨arg, -, -, hs, -⟩ := h.2.2.2.2.2.2.2.2 (wireRunPolicyEpisode "lerobot1") fullLeRobot.asService rfl fullServer_lerobot1
    exact hs { NumSteps := 200, DurationS := float20, Success := true, EpisodePath := "/path/to/policy/episode" } rfl

/-- C18: for a dispatcher built by `NewRPCServiceServer` over a collection built from a
resource map with distinct names, and an entry of the map with name `n` and instance `svc`: each
of the nine operations, given a request named `n.Name`, looks up that name and makes one call,
of the corresponding method of `svc`; every call it makes is on `svc`; and it returns what that
call of `svc` returned, turned into the wire response, or the error that call returned. -/
theorem C18_request_reaches_installed_instance (api : resource.API)
    (resources : List (resource.Name × Service)) (coll : resource.APIResourceGetter)
    (n : resource.Name) (svc : Service) (ctx : Context)
    (hnew : resource.NewAPIResourceCollection api resources = (some coll, none))
    (hmem : (n, svc) ∈ resources) :
    (∀ req : pb.StartRecordingRequest, req.Name = n.Name →
        ∃ extra, ((NewRPCServiceServer coll).StartRecording ctx req).trace
            = [.resolve req.Name, .invoke svc (.StartRecording ctx req.DatasetName extra)]
        ∧ (∀ v, svc.StartRecording ctx req.DatasetName extra = (v, none) →
            ((NewRPCServiceServer coll).StartRecording ctx req).outcome = .returned (some { SessionId := v }) none)
        ∧ (∀ v e, svc.StartRecording ctx req.DatasetName extra = (v, some e) →
            ((NewRPCServiceServer coll).StartRecording ctx req).outcome = .returned none (some e))
        ∧ (∀ t c, Event.invoke t c ∈ ((NewRPCServiceServer coll).StartRecording ctx req).trace → t = svc))
    ∧ (∀ req : pb.StopRecordingRequest, req.Name = n.Name →
        ∃ extra, ((NewRPCServiceServer coll).StopRecording ctx req).trace
            = [.resolve req.Name, .invoke svc (.StopRecording ctx req.SessionId extra)]
        ∧ (∀ v, svc.StopRecording ctx req.SessionId extra = (v, none) →
            ((NewRPCServiceServer coll).StopRecording ctx req).outcome = .returned (some { DurationS := v }) none)
        ∧ (∀ v e, svc.StopRecording ctx req.SessionId extra = (v, some e) →
            ((NewRPCServiceServer coll).StopRecording ctx req).outcome = .returned none (some e))
        ∧ (∀ t c, Event.invoke t c ∈ ((NewRPCServiceServer coll).StopRecording ctx req).trace → t = svc))
    ∧ (∀ req : pb.RecordEpisodeRequest, req.Name = n.Name →
        ∃ arg, ((NewRPCServiceServer coll).RecordEpisode ctx req).trace
            = [.resolve req.Name, .invoke svc (.RecordEpisode ctx arg)]
        ∧ (∀ r, svc.RecordEpisode ctx arg = (some r, none) →
            ((NewRPCServiceServer coll).RecordEpisode ctx req).outcome
              = .returned (some
                { NumFrames := r.NumFrames,
                  ActualDurationS := r.ActualDurationS,
                  EpisodePath := r.EpisodePath }) none)
        ∧ (svc.RecordEpisode ctx arg = (none, none) →
            ((NewRPCServiceServer coll).RecordEpisode ctx req).outcome = .panicked)
        ∧ (∀ r e, svc.RecordEpisode ctx arg = (r, some e) →
            ((NewRPCServiceServer coll).RecordEpisode ctx req).outcome = .returned none (some e))
        ∧ (∀ t c, Event.invoke t c ∈ ((NewRPCServiceServer coll).RecordEpisode ctx req).trace → t = svc))
    ∧ (∀ req : pb.ReplayEpisodeRequest, req.Name = n.Name →
        ∃ arg, ((NewRPCServiceServer coll).ReplayEpisode ctx req).trace
            = [.resolve req.Name, .invoke svc (.ReplayEpisode ctx arg)]
        ∧ (∀ r, svc.ReplayEpisode ctx arg = (some r, none) →
            ((NewRPCServiceServer coll).ReplayEpisode ctx req).outcome
              = .returned (some
                { NumFramesReplayed := r.NumFramesReplayed,
                  DurationS := r.DurationS }) none)
        ∧ (svc.ReplayEpisode ctx arg = (none, none) →
            ((NewRPCServiceServer coll).ReplayEpisode ctx req).outcome = .panicked)
        ∧ (∀ r e, svc.ReplayEpisode ctx arg = (r, some e) →
            ((NewRPCServiceServer coll).ReplayEpisode ctx req).outcome = .returned none (some e))
        ∧ (∀ t c, Event.invoke t c ∈ ((NewRPCServiceServer coll).ReplayEpisode ctx req).trace → t = svc))
    ∧ (∀ req : pb.StartTeleoperationRequest, req.Name = n.Name →
        ∃ arg, ((NewRPCServiceServer coll).StartTeleoperation ctx req).trace
            = [.resolve req.Name, .invoke svc (.StartTeleoperation ctx arg)]
        ∧ (∀ v, svc.StartTeleoperation ctx arg = (v, none) →
            ((NewRPCServiceServer coll).StartTeleoperation ctx req).outcome = .returned (some { SessionId := v }) none)
        ∧ (∀ v e, svc.StartTeleoperation ctx arg = (v, some e) →
            ((NewRPCServiceServer coll).StartTeleoperation ctx req).outcome = .returned none (some e))
        ∧ (∀ t c, Event.invoke t c ∈ ((NewRPCServiceServer coll).StartTeleoperation ctx req).trace → t = svc))
    ∧ (∀ req : pb.StopTeleoperationRequest, req.Name = n.Name →
        ∃ extra, ((NewRPCServiceServer coll).StopTeleoperation ctx req).trace
            = [.resolve req.Name, .invoke svc (.StopTeleoperation ctx req.SessionId extra)]
        ∧ (∀ v, svc.StopTeleoperation ctx req.SessionId extra = (v, none) →
            ((NewRPCServiceServer coll).StopTeleoperation ctx req).outcome = .returned (some { DurationS := v }) none)
        ∧ (∀ v e, svc.StopTeleoperation ctx req.SessionId extra = (v, some e) →
            ((NewRPCServiceServer coll).StopTeleoperation ctx req).outcome = .returned none (some e))
        ∧ (∀ t c, Event.invoke t c ∈ ((NewRPCServiceServer coll).StopTeleoperation ctx req).trace → t = svc))
    ∧ (∀ req : pb.LoadPolicyRequest, req.Name = n.Name →
        ∃ arg, ((NewRPCServiceServer coll).LoadPolicy ctx req).trace
            = [.resolve req.Name, .invoke svc (.LoadPolicy ctx arg)]
        ∧ (∀ r, svc.LoadPolicy ctx arg = (some r, none) →
            ((NewRPCServiceServer coll).LoadPolicy ctx req).outcome
              = .returned (some
                { PolicyId := r.PolicyID,
                  PolicyType := r.PolicyType }) none)
        ∧ (svc.LoadPolicy ctx arg = (none, none) →
            ((NewRPCServiceServer coll).LoadPolicy ctx req).outcome = .panicked)
        ∧ (∀ r e, svc.LoadPolicy ctx arg = (r, some e) →
            ((NewRPCServiceServer coll).LoadPolicy ctx req).outcome = .returned none (some e))
        ∧ (∀ t c, Event.invoke t c ∈ ((NewRPCServiceServer coll).LoadPolicy ctx req).trace → t = svc))
    ∧ (∀ req : pb.RunPolicyEpisodeRequest, req.Name = n.Name →
        ∃ arg, ((NewRPCServiceServer coll).RunPolicyEpisode ctx req).trace
            = [.resolve req.Name, .invoke svc (.RunPolicyEpisode ctx arg)]
        ∧ (∀ r, svc.RunPolicyEpisode ctx arg = (some r, none) →
            ∃ resp, ((NewRPCServiceServer coll).RunPolicyEpisode ctx req).outcome = .returned (some resp) none
              ∧ resp.NumSteps = r.NumSteps
              ∧ resp.DurationS = r.DurationS
              ∧ resp.EpisodePath = r.EpisodePath)
        ∧ (svc.RunPolicyEpisode ctx arg = (none, none) →
            ((NewRPCServiceServer coll).RunPolicyEpisode ctx req).outcome = .panicked)
        ∧ (∀ r e, svc.RunPolicyEpisode ctx arg = (r, some e) →
            ((NewRPCServiceServer coll).RunPolicyEpisode ctx req).outcome = .returned none (some e))
        ∧ (∀ t c, Event.invoke t c ∈ ((NewRPCServiceServer coll).RunPolicyEpisode ctx req).trace → t = svc))
    ∧ (∀ req : commonpb.DoCommandRequest, req.Name = n.Name →
        ((NewRPCServiceServer coll).DoCommand ctx req).trace
            = [.resolve req.Name,
               .invoke svc (.DoCommand (trace.StartSpan ctx doCommandSpan)
                 (Struct.AsMapOfPtr req.Command))]
        ∧ (∀ m,
            svc.DoCommand (trace.StartSpan ctx doCommandSpan) (Struct.AsMapOfPtr req.Command)
              = (m, none) →
            ∃ resp, ((NewRPCServiceServer coll).DoCommand ctx req).outcome = .returned (some resp) none
              ∧ (Struct.AsMapOfPtr resp.Result).entries = m.entries)
        ∧ (∀ m e,
            svc.DoCommand (trace.StartSpan ctx doCommandSpan) (Struct.AsMapOfPtr req.Command)
              = (m, some e) →
            ((NewRPCServiceServer coll).DoCommand ctx req).outcome = .returned none (some e))
        ∧ (∀ t c, Event.invoke t c ∈ ((NewRPCServiceServer coll).DoCommand ctx req).trace → t = svc)) := by
  have hcoll : coll.Resource n.Name = (some svc, none) := by
    simp only [resource.NewAPIResourceCollection] at hnew
    split at hnew
    · rename_i hnd
      simp only [Prod.mk.injEq, Option.some.injEq, and_true] at hnew
      rw [← hnew]
      exact APIResourceCollection_Resource_of_mem n svc resources hnd hmem
    · simp at hnew
  refine ⟨?_, ?_, ?_, ?_, ?_, ?_, ?_, ?_, ?_⟩
  · intro req hreq
    have hres : (NewRPCServiceServer coll).coll.Resource req.Name = (some svc, none) := by
      rw [hreq]; exact hcoll
    have hd := dispatch_StartRecording (NewRPCServiceServer coll) ctx req svc hres
    obtain ⟨ht, hs, he⟩ := hd
    exact ⟨_, ht, hs, he, (by
        intro t c hm
        rw [ht] at hm
        simp at hm
        exact hm.1)⟩
  · intro req hreq
    have hres : (NewRPCServiceServer coll).coll.Resource req.Name = (some svc, none) := by
      rw [hreq]; exact hcoll
    have hd := dispatch_StopRecording (NewRPCServiceServer coll) ctx req svc hres
    obtain ⟨ht, hs, he⟩ := hd
    exact ⟨_, ht, hs, he, (by
        intro t c hm
        rw [ht] at hm
        simp at hm
        exact hm.1)⟩
  · intro req hreq
    have hres : (NewRPCServiceServer coll).coll.Resource req.Name = (some svc, none) := by
      rw [hreq]; exact hcoll
    have hd := dispatch_RecordEpisode (NewRPCServiceServer coll) ctx req svc hres
    obtain ⟨arg, -, ht, hs, hp, he⟩ := hd
    exact ⟨arg, ht, hs, hp, he, (by
        intro t c hm
        rw [ht] at hm
        simp at hm
        exact hm.1)⟩
  · intro req hreq
    have hres : (NewRPCServiceServer coll).coll.Resource req.Name = (some svc, none) := by
      rw [hreq]; exact hcoll
    have hd := dispatch_ReplayEpisode (NewRPCServiceServer coll) ctx req svc hres
    obtain ⟨arg, -, ht, hs, hp, he⟩ := hd
    exact ⟨arg, ht, hs, hp, he, (by
        intro t c hm
        rw [ht] at hm
        simp at hm
        exact hm.1)⟩
  · intro req hreq
    have hres : (NewRPCServiceServer coll).coll.Resource req.Name = (some svc, none) := by
      rw [hreq]; exact hcoll
    have hd := dispatch_StartTeleoperation (NewRPCServiceServer coll) ctx req svc hres
    obtain ⟨arg, -, ht, hs, he⟩ := hd
    exact ⟨arg, ht, hs, he, (by
        intro t c hm
        rw [ht] at hm
        simp at hm
        exact hm.1)⟩
  · intro req hreq
    have hres : (NewRPCServiceServer coll).coll.Resource req.Name = (some svc, none) := by
      rw [hreq]; exact hcoll
    have hd := dispatch_StopTeleoperation (NewRPCServiceServer coll) ctx req svc hres
    obtain ⟨ht, hs, he⟩ := hd
    exact ⟨_, ht, hs, he, (by
        intro t c hm
        rw [ht] at hm
        simp at hm
        exact hm.1)⟩
  · intro req hreq
    have hres : (NewRPCServiceServer coll).coll.Resource req.Name = (some svc, none) := by
      rw [hreq]; exact hcoll
    have hd := dispatch_LoadPolicy (NewRPCServiceServer coll) ctx req svc hres
    obtain ⟨arg, -, ht, hs, hp, he⟩ := hd
    exact ⟨arg, ht, hs, hp, he, (by
        intro t c hm
        rw [ht] at hm
        simp at hm
        exact hm.1)⟩
  · intro req hreq
    have hres : (NewRPCServiceServer coll).coll.Resource req.Name = (some svc, none) := by
      rw [hreq]; exact hcoll
    have hd := dispatch_RunPolicyEpisode (NewRPCServiceServer coll) ctx req svc hres
    obtain ⟨arg, -, ht, hs, hp, he⟩ := hd
    exact ⟨arg, ht, hs, hp, he, (by
        intro t c hm
        rw [ht] at hm
        simp at hm
        exact hm.1)⟩
  · intro req hreq
    have hres : (NewRPCServiceServer coll).coll.Resource req.Name = (some svc, none) := by
      rw [hreq]; exact hcoll
    obtain ⟨ht, hs, he⟩ := dispatch_DoCommand (NewRPCServiceServer coll) ctx req svc hres
    exact ⟨ht, hs, he, (by
        intro t c hm
        rw [ht] at hm
        simp at hm
        exact hm.1)⟩

/-- The resource map of the tests has distinct names, so the collection is built. -/
theorem testCollection_built :
    resource.NewAPIResourceCollection API testResources = (some testCollection, none) := by
  simp [resource.NewAPIResourceCollection, testResources, testCollection, Named,
    resource.NewName, testLeRobotName, failLeRobotName]

/-- The working and the failing double of the tests are distinct instances. -/
theorem fullLeRobot_ne_failingLeRobot :
    fullLeRobot.asService ≠ failingLeRobot.asService := by
  intro h
  have h1 := congrArg
    (fun svc : Service => (svc.StartRecording Context.Background "test-dataset" GoMap.nil).2) h
  simp [inject.LeRobotService.asService, inject.LeRobotService.StartRecording, fullLeRobot,
    failingLeRobot] at h1

/-- Witness of C18, the collection of the tests: a request for `lerobot1` reaches the working
double and returns what the double returned, for each of the nine operations, and a request for
`lerobot2` reaches the failing double and returns its error, for each of the eight service
operations. -/
theorem C18_request_reaches_witness :
    resource.NewAPIResourceCollection API testResources = (some testCollection, none)
    ∧ (Named "lerobot1", fullLeRobot.asService) ∈ testResources
    ∧ (Named "lerobot2", failingLeRobot.asService) ∈ testResources
    ∧ fullLeRobot.asService ≠ failingLeRobot.asService
    ∧ (∀ t c, Event.invoke t c ∈ ((NewRPCServiceServer testCollection).StartRecording Context.Background (wireStartRecording "lerobot1")).trace →
        t = fullLeRobot.asService)
    ∧ ((NewRPCServiceServer testCollection).StartRecording Context.Background (wireStartRecording "lerobot1")).outcome
        = .returned (some { SessionId := "session-123" }) none
    ∧ (∀ t c, Event.invoke t c ∈ ((NewRPCServiceServer testCollection).StartRecording Context.Background (wireStartRecording "lerobot2")).trace →
        t = failingLeRobot.asService)
    ∧ ((NewRPCServiceServer testCollection).StartRecording Context.Background (wireStartRecording "lerobot2")).outcome = .returned none (some errTestFailed)
    ∧ (∀ t c, Event.invoke t c ∈ ((NewRPCServiceServer testCollection).StopRecording Context.Background (wireStopRecording "lerobot1")).trace →
        t = fullLeRobot.asService)
    ∧ ((NewRPCServiceServer testCollection).StopRecording Context.Background (wireStopRecording "lerobot1")).outcome
        = .returned (some { DurationS := ⟨0x42F70000⟩ }) none
    ∧ (∀ t c, Event.invoke t c ∈ ((NewRPCServiceServer testCollection).StopRecording Context.Background (wireStopRecording "lerobot2")).trace →
        t = failingLeRobot.asService)
    ∧ ((NewRPCServiceServer testCollection).StopRecording Context.Background (wireStopRecording "lerobot2")).outcome = .returned none (some errTestFailed)
    ∧ (∀ t c, Event.invoke t c ∈ ((NewRPCServiceServer testCollection).RecordEpisode Context.Background (wireRecordEpisode "lerobot1")).trace →
        t = fullLeRobot.asService)
    ∧ ((NewRPCServiceServer testCollection).RecordEpisode Context.Background (wireRecordEpisode "lerobot1")).outcome
        = .returned
            (some
            { NumFrames := 100, ActualDurationS := ⟨0x41280000⟩,
              EpisodePath := "/path/to/episode" }) none
    ∧ (∀ t c, Event.invoke t c ∈ ((NewRPCServiceServer testCollection).RecordEpisode Context.Background (wireRecordEpisode "lerobot2")).trace →
        t = failingLeRobot.asService)
    ∧ ((NewRPCServiceServer testCollection).RecordEpisode Context.Background (wireRecordEpisode "lerobot2")).outcome = .returned none (some errTestFailed)
    ∧ (∀ t c, Event.invoke t c ∈ ((NewRPCServiceServer testCollection).ReplayEpisode Context.Background (wireReplayEpisode "lerobot1")).trace →
        t = fullLeRobot.asService)
    ∧ ((NewRPCServiceServer testCollection).ReplayEpisode Context.Background (wireReplayEpisode "lerobot1")).outcome
        = .returned
            (some
            { NumFramesReplayed := 50, DurationS := ⟨0x40A00000⟩ }) none
    ∧ (∀ t c, Event.invoke t c ∈ ((NewRPCServiceServer testCollection).ReplayEpisode Context.Background (wireReplayEpisode "lerobot2")).trace →
        t = failingLeRobot.asService)
    ∧ ((NewRPCServiceServer testCollection).ReplayEpisode Context.Background (wireReplayEpisode "lerobot2")).outcome = .returned none (some errTestFailed)
    ∧ (∀ t c, Event.invoke t c ∈ ((NewRPCServiceServer testCollection).StartTeleoperation Context.Background (wireStartTeleoperation "lerobot1")).trace →
        t = fullLeRobot.asService)
    ∧ ((NewRPCServiceServer testCollection).StartTeleoperation Context.Background (wireStartTeleoperation "lerobot1")).outcome
        = .returned (some { SessionId := "teleop-456" }) none
    ∧ (∀ t c, Event.invoke t c ∈ ((NewRPCServiceServer testCollection).StartTeleoperation Context.Background (wireStartTeleoperation "lerobot2")).trace →
        t = failingLeRobot.asService)
    ∧ ((NewRPCServiceServer testCollection).StartTeleoperation Context.Background (wireStartTeleoperation "lerobot2")).outcome = .returned none (some errTestFailed)
    ∧ (∀ t c, Event.invoke t c ∈ ((NewRPCServiceServer testCollection).StopTeleoperation Context.Background (wireStopTeleoperation "lerobot1")).trace →
        t = fullLeRobot.asService)
    ∧ ((NewRPCServiceServer testCollection).StopTeleoperation Context.Background (wireStopTeleoperation "lerobot1")).outcome
        = .returned (some { DurationS := ⟨0x42700000⟩ }) none
    ∧ (∀ t c, Event.invoke t c ∈ ((NewRPCServiceServer testCollection).StopTeleoperation Context.Background (wireStopTeleoperation "lerobot2")).trace →
        t = failingLeRobot.asService)
    ∧ ((NewRPCServiceServer testCollection).StopTeleoperation Context.Background (wireStopTeleoperation "lerobot2")).outcome = .returned none (some errTestFailed)
    ∧ (∀ t c, Event.invoke t c ∈ ((NewRPCServiceServer testCollection).LoadPolicy Context.Background (wireLoadPolicy "lerobot1")).trace →
        t = fullLeRobot.asService)
    ∧ ((NewRPCServiceServer testCollection).LoadPolicy Context.Background (wireLoadPolicy "lerobot1")).outcome
        = .returned
            (some
            { PolicyId := "policy-789", PolicyType := "act" }) none
    ∧ (∀ t c, Event.invoke t c ∈ ((NewRPCServiceServer testCollection).LoadPolicy Context.Background (wireLoadPolicy "lerobot2")).trace →
        t = failingLeRobot.asService)
    ∧ ((NewRPCServiceServer testCollection).LoadPolicy Context.Background (wireLoadPolicy "lerobot2")).outcome = .returned none (some errTestFailed)
    ∧ (∀ t c, Event.invoke t c ∈ ((NewRPCServiceServer testCollection).RunPolicyEpisode Context.Background (wireRunPolicyEpisode "lerobot1")).trace →
        t = fullLeRobot.asService)
    ∧ (∃ resp, ((NewRPCServiceServer testCollection).RunPolicyEpisode Context.Background (wireRunPolicyEpisode "lerobot1")).outcome = .returned (some resp) none
        ∧ resp.NumSteps = 200
        ∧ resp.DurationS = float20
        ∧ resp.EpisodePath = "/path/to/policy/episode")
    ∧ (∀ t c, Event.invoke t c ∈ ((NewRPCServiceServer testCollection).RunPolicyEpisode Context.Background (wireRunPolicyEpisode "lerobot2")).trace →
        t = failingLeRobot.asService)
    ∧ ((NewRPCServiceServer testCollection).RunPolicyEpisode Context.Background (wireRunPolicyEpisode "lerobot2")).outcome = .returned none (some errTestFailed)
    ∧ ((NewRPCServiceServer testCollection).DoCommand Context.Background wireTestCommand).trace
        = [.resolve "lerobot1",
           .invoke fullLeRobot.asService
             (.DoCommand (trace.StartSpan Context.Background doCommandSpan) testCommand)]
    ∧ (∃ resp, ((NewRPCServiceServer testCollection).DoCommand Context.Background wireTestCommand).outcome = .returned (some resp) none
        ∧ (Struct.AsMapOfPtr resp.Result).entries = testCommand.entries) := by
  have hm1 : (Named "lerobot1", fullLeRobot.asService) ∈ testResources := by
    simp [testResources, testLeRobotName]
  have hm2 : (Named "lerobot2", failingLeRobot.asService) ∈ testResources := by
    simp [testResources, failLeRobotName]
  have h1 := C18_request_reaches_installed_instance API testResources testCollection
    (Named "lerobot1") fullLeRobot.asService Context.Background testCollection_built hm1
  have h2 := C18_request_reaches_installed_instance API testResources testCollection
    (Named "lerobot2") failingLeRobot.asService Context.Background testCollection_built hm2
  refine ⟨testCollection_built, hm1, hm2, fullLeRobot_ne_failingLeRobot, ?_, ?_, ?_, ?_, ?_, ?_, ?_, ?_, ?_, ?_, ?_, ?_, ?_, ?_, ?_, ?_, ?_, ?_, ?_, ?_, ?_, ?_, ?_, ?_, ?_, ?_, ?_, ?_, ?_, ?_, ?_, ?_, ?_, ?_⟩
  · obtain ⟨extra, -, hs, -, hm⟩ := h1.1 (wireStartRecording "lerobot1") rfl
    exact hm
  · obtain ⟨extra, -, hs, -, hm⟩ := h1.1 (wireStartRecording "lerobot1") rfl
    exact hs "session-123" rfl
  · obtain ⟨extra, -, -, he, hm⟩ := h2.1 (wireStartRecording "lerobot2") rfl
    exact hm
  · obtain ⟨extra, -, -, he, hm⟩ := h2.1 (wireStartRecording "lerobot2") rfl
    exact he "" errTestFailed rfl
  · obtain ⟨extra, -, hs, -, hm⟩ := h1.2.1 (wireStopRecording "lerobot1") rfl
    exact hm
  · obtain ⟨extra, -, hs, -, hm⟩ := h1.2.1 (wireStopRecording "lerobot1") rfl
    exact hs ⟨0x42F70000⟩ rfl
  · obtain ⟨extra, -, -, he, hm⟩ := h2.2.1 (wireStopRecording "lerobot2") rfl
    exact hm
  · obtain ⟨extra, -, -, he, hm⟩ := h2.2.1 (wireStopRecording "lerobot2") rfl
    exact he Float32.zero errTestFailed rfl
  · obtain ⟨arg, -, hs, -, -, hm⟩ := h1.2.2.1 (wireRecordEpisode "lerobot1") rfl
    exact hm
  · obtain ⟨arg, -, hs, -, -, hm⟩ := h1.2.2.1 (wireRecordEpisode "lerobot1") rfl
    exact hs { NumFrames := 100, ActualDurationS := ⟨0x41280000⟩, EpisodePath := "/path/to/episode" } rfl
  · obtain ⟨arg, -, -, -, he, hm⟩ := h2.2.2.1 (wireRecordEpisode "lerobot2") rfl
    exact hm
  · obtain ⟨arg, -, -, -, he, hm⟩ := h2.2.2.1 (wireRecordEpisode "lerobot2") rfl
    exact he none errTestFailed rfl
  · obtain ⟨arg, -, hs, -, -, hm⟩ := h1.2.2.2.1 (wireReplayEpisode "lerobot1") rfl
    exact hm
  · obtain ⟨arg, -, hs, -, -, hm⟩ := h1.2.2.2.1 (wireReplayEpisode "lerobot1") rfl
    exact hs { NumFramesReplayed := 50, DurationS := ⟨0x40A00000⟩ } rfl
  · obtain ⟨arg, -, -, -, he, hm⟩ := h2.2.2.2.1 (wireReplayEpisode "lerobot2") rfl
    exact hm
  · obtain ⟨arg, -, -, -, he, hm⟩ := h2.2.2.2.1 (wireReplayEpisode "lerobot2") rfl
    exact he none errTestFailed rfl
  · obtain ⟨arg, -, hs, -, hm⟩ := h1.2.2.2.2.1 (wireStartTeleoperation "lerobot1") rfl
    exact hm
  · obtain ⟨arg, -, hs, -, hm⟩ := h1.2.2.2.2.1 (wireStartTeleoperation "lerobot1") rfl
    exact hs "teleop-456" rfl
  · obtain ⟨arg, -, -, he, hm⟩ := h2.2.2.2.2.1 (wireStartTeleoperation "lerobot2") rfl
    exact hm
  · obtain ⟨arg, -, -, he, hm⟩ := h2.2.2.2.2.1 (wireStartTeleoperation "lerobot2") rfl
    exact he "" errTestFailed rfl
  · obtain ⟨extra, -, hs, -, hm⟩ := h1.2.2.2.2.2.1 (wireStopTeleoperation "lerobot1") rfl
    exact hm
  · obtain ⟨extra, -, hs, -, hm⟩ := h1.2.2.2.2.2.1 (wireStopTeleoperation "lerobot1") rfl
    exact hs ⟨0x42700000⟩ rfl
  · obtain ⟨extra, -, -, he, hm⟩ := h2.2.2.2.2.2.1 (wireStopTeleoperation "lerobot2") rfl
    exact hm
  · obtain ⟨extra, -, -, he, hm⟩ := h2.2.2.2.2.2.1 (wireStopTeleoperation "lerobot2") rfl
    exact he Float32.zero errTestFailed rfl
  · obtain ⟨arg, -, hs, -, -, hm⟩ := h1.2.2.2.2.2.2.1 (wireLoadPolicy "lerobot1") rfl
    exact hm
  · obtain ⟨arg, -, hs, -, -, hm⟩ := h1.2.2.2.2.2.2.1 (wireLoadPolicy "lerobot1") rfl
    exact hs { PolicyID := "policy-789", PolicyType := "act" } rfl
  · obtain ⟨arg, -, -, -, he, hm⟩ := h2.2.2.2.2.2.2.1 (wireLoadPolicy "lerobot2") rfl
    exact hm
  · obtain ⟨arg, -, -, -, he, hm⟩ := h2.2.2.2.2.2.2.1 (wireLoadPolicy "lerobot2") rfl
    exact he none errTestFailed rfl
  · obtain ⟨arg, -, hs, -, -, hm⟩ := h1.2.2.2.2.2.2.2.1 (wireRunPolicyEpisode "lerobot1") rfl
    exact hm
  · obtain ⟨arg, -, hs, -, -, hm⟩ := h1.2.2.2.2.2.2.2.1 (wireRunPolicyEpisode "lerobot1") rfl
    exact hs { NumSteps := 200, DurationS := float20, Success := true, EpisodePath := "/path/to/policy/episode" } rfl
  · obtain ⟨arg, -, -, -, he, hm⟩ := h2.2.2.2.2.2.2.2.1 (wireRunPolicyEpisode "lerobot2") rfl
    exact hm
  · obtain ⟨arg, -, -, -, he, hm⟩ := h2.2.2.2.2.2.2.2.1 (wireRunPolicyEpisode "lerobot2") rfl
    exact he none errTestFailed rfl
  · exact (h1.2.2.2.2.2.2.2.2 wireTestCommand rfl).1
  · exact (h1.2.2.2.2.2.2.2.2 wireTestCommand rfl).2.1 testCommand rfl

/-- C22: for each of the nine proxy methods: when the encoder fails on the options (for
`DoCommand`, on the command) with the error `e`, the proxy issues no remote call and returns `e`
together with the zero value of its result; when the encoder succeeds, the proxy issues exactly
one remote call, of the method of the same name, with the request `w` built from its arguments,
which carries the routing name of the proxy, and it returns what that call returned on `w`: the
result read from the response, or the error of the call with the zero value. -/
theorem C22_encoding_failure_stops_the_call (StructToStructPb : Encoder) (c : client)
    (ctx : Context) :
    ((∀ (d : String) (x : GoMap) (r : Option Struct) (e : GoError),
          StructToStructPb x = (r, some e) →
          client.StartRecording StructToStructPb c ctx d x = ⟨[], .returned "" (some e)⟩)
      ∧ (∀ (d : String) (x : GoMap) (ext : Option Struct) (w : pb.StartRecordingRequest),
          StructToStructPb x = (ext, none) →
          w =
            { Name := c.name
              DatasetName := d
              Extra := ext } →
          (client.StartRecording StructToStructPb c ctx d x).trace = [.StartRecording ctx w]
            ∧ w.Name = c.name
            ∧ (∀ resp, c.client.StartRecording ctx w = (some resp, none) →
                (client.StartRecording StructToStructPb c ctx d x).outcome
                  = .returned resp.SessionId none)
            ∧ (c.client.StartRecording ctx w = (none, none) →
                (client.StartRecording StructToStructPb c ctx d x).outcome = .panicked)
            ∧ (∀ r e, c.client.StartRecording ctx w = (r, some e) →
                (client.StartRecording StructToStructPb c ctx d x).outcome = .returned "" (some e))))
    ∧ ((∀ (d : String) (x : GoMap) (r : Option Struct) (e : GoError),
          StructToStructPb x = (r, some e) →
          client.StopRecording StructToStructPb c ctx d x = ⟨[], .returned Float32.zero (some e)⟩)
      ∧ (∀ (d : String) (x : GoMap) (ext : Option Struct) (w : pb.StopRecordingRequest),
          StructToStructPb x = (ext, none) →
          w =
            { Name := c.name
              SessionId := d
              Extra := ext } →
          (client.StopRecording StructToStructPb c ctx d x).trace = [.StopRecording ctx w]
            ∧ w.Name = c.name
            ∧ (∀ resp, c.client.StopRecording ctx w = (some resp, none) →
                (client.StopRecording StructToStructPb c ctx d x).outcome
                  = .returned resp.DurationS none)
            ∧ (c.client.StopRecording ctx w = (none, none) →
                (client.StopRecording StructToStructPb c ctx d x).outcome = .panicked)
            ∧ (∀ r e, c.client.StopRecording ctx w = (r, some e) →
                (client.StopRecording StructToStructPb c ctx d x).outcome = .returned Float32.zero (some e))))
    ∧ ((∀ (q : RecordEpisodeRequest) (r : Option Struct) (e : GoError),
          StructToStructPb q.Extra = (r, some e) →
          client.RecordEpisode StructToStructPb c ctx q = ⟨[], .returned none (some e)⟩)
      ∧ (∀ (q : RecordEpisodeRequest) (ext : Option Struct) (w : pb.RecordEpisodeRequest),
          StructToStructPb q.Extra = (ext, none) →
          w =
            { Name := c.name
              DatasetName := q.DatasetName
              EpisodeIndex := q.EpisodeIndex
              Source := ⟨q.Source.val⟩
              WarmupTimeS := q.WarmupTimeS
              EpisodeTimeS := q.EpisodeTimeS
              ResetTimeS := q.ResetTimeS
              Fps := q.Fps
              Tags := q.Tags
              Extra := ext } →
          (client.RecordEpisode StructToStructPb c ctx q).trace = [.RecordEpisode ctx w]
            ∧ w.Name = c.name
            ∧ (∀ resp, c.client.RecordEpisode ctx w = (some resp, none) →
                (client.RecordEpisode StructToStructPb c ctx q).outcome
                  = .returned
                  (some
                    { NumFrames := resp.NumFrames
                      ActualDurationS := resp.ActualDurationS
                      EpisodePath := resp.EpisodePath }) none)
            ∧ (c.client.RecordEpisode ctx w = (none, none) →
                (client.RecordEpisode StructToStructPb c ctx q).outcome = .panicked)
            ∧ (∀ r e, c.client.RecordEpisode ctx w = (r, some e) →
                (client.RecordEpisode StructToStructPb c ctx q).outcome = .returned none (some e))))
    ∧ ((∀ (q : ReplayEpisodeRequest) (r : Option Struct) (e : GoError),
          StructToStructPb q.Extra = (r, some e) →
          client.ReplayEpisode StructToStructPb c ctx q = ⟨[], .returned none (some e)⟩)
      ∧ (∀ (q : ReplayEpisodeRequest) (ext : Option Struct) (w : pb.ReplayEpisodeRequest),
          StructToStructPb q.Extra = (ext, none) →
          w =
            { Name := c.name
              DatasetName := q.DatasetName
              EpisodeIndex := q.EpisodeIndex
              Fps := q.Fps
              Extra := ext } →
          (client.ReplayEpisode StructToStructPb c ctx q).trace = [.ReplayEpisode ctx w]
            ∧ w.Name = c.name
            ∧ (∀ resp, c.client.ReplayEpisode ctx w = (some resp, none) →
                (client.ReplayEpisode StructToStructPb c ctx q).outcome
                  = .returned
                  (some
                    { NumFramesReplayed := resp.NumFramesReplayed
                      DurationS := resp.DurationS }) none)
            ∧ (c.client.ReplayEpisode ctx w = (none, none) →
                (client.ReplayEpisode StructToStructPb c ctx q).outcome = .panicked)
            ∧ (∀ r e, c.client.ReplayEpisode ctx w = (r, some e) →
                (client.ReplayEpisode StructToStructPb c ctx q).outcome = .returned none (some e))))
    ∧ ((∀ (q : StartTeleoperationRequest) (r : Option Struct) (e : GoError),
          StructToStructPb q.Extra = (r, some e) →
          client.StartTeleoperation StructToStructPb c ctx q = ⟨[], .returned "" (some e)⟩)
      ∧ (∀ (q : StartTeleoperationRequest) (ext : Option Struct) (w : pb.StartTeleoperationRequest),
          StructToStructPb q.Extra = (ext, none) →
          w =
            { Name := c.name
              TeleopDeviceType := q.TeleopDeviceType
              Fps := q.Fps
              DisplayCameras := false
              Extra := ext } →
          (client.StartTeleoperation StructToStructPb c ctx q).trace = [.StartTeleoperation ctx w]
            ∧ w.Name = c.name
            ∧ (∀ resp, c.client.StartTeleoperation ctx w = (some resp, none) →
                (client.StartTeleoperation StructToStructPb c ctx q).outcome
                  = .returned resp.SessionId none)
            ∧ (c.client.StartTeleoperation ctx w = (none, none) →
                (client.StartTeleoperation StructToStructPb c ctx q).outcome = .panicked)
            ∧ (∀ r e, c.client.StartTeleoperation ctx w = (r, some e) →
                (client.StartTeleoperation StructToStructPb c ctx q).outcome = .returned "" (some e))))
    ∧ ((∀ (d : String) (x : GoMap) (r : Option Struct) (e : GoError),
          StructToStructPb x = (r, some e) →
          client.StopTeleoperation StructToStructPb c ctx d x = ⟨[], .returned Float32.zero (some e)⟩)
      ∧ (∀ (d : String) (x : GoMap) (ext : Option Struct) (w : pb.StopTeleoperationRequest),
          StructToStructPb x = (ext, none) →
          w =
            { Name := c.name
              SessionId := d
              Extra := ext } →
          (client.StopTeleoperation StructToStructPb c ctx d x).trace = [.StopTeleoperation ctx w]
            ∧ w.Name = c.name
            ∧ (∀ resp, c.client.StopTeleoperation ctx w = (some resp, none) →
                (client.StopTeleoperation StructToStructPb c ctx d x).outcome
                  = .returned resp.DurationS none)
            ∧ (c.client.StopTeleoperation ctx w = (none, none) →
                (client.StopTeleoperation StructToStructPb c ctx d x).outcome = .panicked)
            ∧ (∀ r e, c.client.StopTeleoperation ctx w = (r, some e) →
                (client.StopTeleoperation StructToStructPb c ctx d x).outcome = .returned Float32.zero (some e))))
    ∧ ((∀ (q : LoadPolicyRequest) (r : Option Struct) (e : GoError),
          StructToStructPb q.Extra = (r, some e) →
          client.LoadPolicy StructToStructPb c ctx q = ⟨[], .returned none (some e)⟩)
      ∧ (∀ (q : LoadPolicyRequest) (ext : Option Struct) (w : pb.LoadPolicyRequest),
          StructToStructPb q.Extra = (ext, none) →
          w =
            { Name := c.name
              PolicyRepoId := q.PolicyRepoID
              Extra := ext } →
          (client.LoadPolicy StructToStructPb c ctx q).trace = [.LoadPolicy ctx w]
            ∧ w.Name = c.name
            ∧ (∀ resp, c.client.LoadPolicy ctx w = (some resp, none) →
                (client.LoadPolicy StructToStructPb c ctx q).outcome
                  = .returned
                  (some
                    { PolicyID := resp.PolicyId
                      PolicyType := resp.PolicyType }) none)
            ∧ (c.client.LoadPolicy ctx w = (none, none) →
                (client.LoadPolicy StructToStructPb c ctx q).outcome = .panicked)
            ∧ (∀ r e, c.client.LoadPolicy ctx w = (r, some e) →
                (client.LoadPolicy StructToStructPb c ctx q).outcome = .returned none (some e))))
    ∧ ((∀ (q : RunPolicyEpisodeRequest) (r : Option Struct) (e : GoError),
          StructToStructPb q.Extra = (r, some e) →
          client.RunPolicyEpisode StructToStructPb c ctx q = ⟨[], .returned none (some e)⟩)
      ∧ (∀ (q : RunPolicyEpisodeRequest) (ext : Option Struct) (w : pb.RunPolicyEpisodeRequest),
          StructToStructPb q.Extra = (ext, none) →
          w =
            { Name := c.name
              PolicyId := q.PolicyID
              MaxSteps := q.MaxSteps
              Fps := q.Fps
              RecordToDataset := q.RecordToDataset
              DatasetName := q.DatasetName
              EpisodeIndex := q.EpisodeIndex
              Extra := ext } →
          (client.RunPolicyEpisode StructToStructPb c ctx q).trace = [.RunPolicyEpisode ctx w]
            ∧ w.Name = c.name
            ∧ (∀ resp, c.client.RunPolicyEpisode ctx w = (some resp, none) →
                ∃ out, (client.RunPolicyEpisode StructToStructPb c ctx q).outcome = .returned (some out) none
                  ∧ out.NumSteps = resp.NumSteps
                  ∧ out.DurationS = resp.DurationS
                  ∧ out.EpisodePath = resp.EpisodePath)
            ∧ (c.client.RunPolicyEpisode ctx w = (none, none) →
                (client.RunPolicyEpisode StructToStructPb c ctx q).outcome = .panicked)
            ∧ (∀ r e, c.client.RunPolicyEpisode ctx w = (r, some e) →
                (client.RunPolicyEpisode StructToStructPb c ctx q).outcome = .returned none (some e))))
    ∧ ((∀ (x : GoMap) (r : Option Struct) (e : GoError),
          StructToStructPb x = (r, some e) →
          client.DoCommand StructToStructPb c ctx x = ⟨[], .returned GoMap.nil (some e)⟩)
      ∧ (∀ (x : GoMap) (ext : Option Struct) (w : commonpb.DoCommandRequest),
          StructToStructPb x = (ext, none) →
          w =
            { Name := c.name
              Command := ext } →
          (client.DoCommand StructToStructPb c ctx x).trace = [.DoCommand ctx w]
            ∧ w.Name = c.name
            ∧ (∀ resp, c.client.DoCommand ctx w = (some resp, none) →
                (client.DoCommand StructToStructPb c ctx x).outcome
                  = .returned (Struct.AsMapOfPtr resp.Result) none)
            ∧ (c.client.DoCommand ctx w = (none, none) →
                (client.DoCommand StructToStructPb c ctx x).outcome = .panicked)
            ∧ (∀ r e, c.client.DoCommand ctx w = (r, some e) →
                (client.DoCommand StructToStructPb c ctx x).outcome = .returned GoMap.nil (some e)))) := by
  refine ⟨?_, ?_, ?_, ?_, ?_, ?_, ?_, ?_, ?_⟩
  · constructor
    · intro d x r e henc
      simp only [client.StartRecording, henc]
    · intro d x ext w henc hw
      subst hw
      refine ⟨?_, rfl, ?_, ?_, ?_⟩
      · simp only [client.StartRecording, henc]
        split <;> rfl
      · intro resp hv
        simp only [client.StartRecording, henc, hv]
      · intro hv
        simp only [client.StartRecording, henc, hv]
      · intro r e hv
        simp only [client.StartRecording, henc, hv]
  · constructor
    · intro d x r e henc
      simp only [client.StopRecording, henc]
    · intro d x ext w henc hw
      subst hw
      refine ⟨?_, rfl, ?_, ?_, ?_⟩
      · simp only [client.StopRecording, henc]
        split <;> rfl
      · intro resp hv
        simp only [client.StopRecording, henc, hv]
      · intro hv
        simp only [client.StopRecording, henc, hv]
      · intro r e hv
        simp only [client.StopRecording, henc, hv]
  · constructor
    · intro q r e henc
      simp only [client.RecordEpisode, henc]
    · intro q ext w henc hw
      subst hw
      refine ⟨?_, rfl, ?_, ?_, ?_⟩
      · simp only [client.RecordEpisode, henc]
        split <;> rfl
      · intro resp hv
        simp only [client.RecordEpisode, henc, hv]
      · intro hv
        simp only [client.RecordEpisode, henc, hv]
      · intro r e hv
        simp only [client.RecordEpisode, henc, hv]
  · constructor
    · intro q r e henc
      simp only [client.ReplayEpisode, henc]
    · intro q ext w henc hw
      subst hw
      refine ⟨?_, rfl, ?_, ?_, ?_⟩
      · simp only [client.ReplayEpisode, henc]
        split <;> rfl
      · intro resp hv
        simp only [client.ReplayEpisode, henc, hv]
      · intro hv
        simp only [client.ReplayEpisode, henc, hv]
      · intro r e hv
        simp only [client.ReplayEpisode, henc, hv]
  · constructor
    · intro q r e henc
      simp only [client.StartTeleoperation, henc]
    · intro q ext w henc hw
      subst hw
      refine ⟨?_, rfl, ?_, ?_, ?_⟩
      · simp only [client.StartTeleoperation, henc]
        split <;> rfl
      · intro resp hv
        simp only [client.StartTeleoperation, henc, hv]
      · intro hv
        simp only [client.StartTeleoperation, henc, hv]
      · intro r e hv
        simp only [client.StartTeleoperation, henc, hv]
  · constructor
    · intro d x r e henc
      simp only [client.StopTeleoperation, henc]
    · intro d x ext w henc hw
      subst hw
      refine ⟨?_, rfl, ?_, ?_, ?_⟩
      · simp only [client.StopTeleoperation, henc]
        split <;> rfl
      · intro resp hv
        simp only [client.StopTeleoperation, henc, hv]
      · intro hv
        simp only [client.StopTeleoperation, henc, hv]
      · intro r e hv
        simp only [client.StopTeleoperation, henc, hv]
  · constructor
    · intro q r e henc
      simp only [client.LoadPolicy, henc]
    · intro q ext w henc hw
      subst hw
      refine ⟨?_, rfl, ?_, ?_, ?_⟩
      · simp only [client.LoadPolicy, henc]
        split <;> rfl
      · intro resp hv
        simp only [client.LoadPolicy, henc, hv]
      · intro hv
        simp only [client.LoadPolicy, henc, hv]
      · intro r e hv
        simp only [client.LoadPolicy, henc, hv]
  · constructor
    · intro q r e henc
      simp only [client.RunPolicyEpisode, henc]
    · intro q ext w henc hw
      subst hw
      refine ⟨?_, rfl, ?_, ?_, ?_⟩
      · simp only [client.RunPolicyEpisode, henc]
        split <;> rfl
      · intro resp hv
        simp only [client.RunPolicyEpisode, henc, hv]
        exact ⟨_, rfl, rfl, rfl, rfl⟩
      · intro hv
        simp only [client.RunPolicyEpisode, henc, hv]
      · intro r e hv
        simp only [client.RunPolicyEpisode, henc, hv]
  · constructor
    · intro x r e henc
      simp only [client.DoCommand, henc]
    · intro x ext w henc hw
      subst hw
      refine ⟨?_, rfl, ?_, ?_, ?_⟩
      · simp only [client.DoCommand, henc]
        split <;> rfl
      · intro resp hv
        simp only [client.DoCommand, henc, hv]
      · intro hv
        simp only [client.DoCommand, henc, hv]
      · intro r e hv
        simp only [client.DoCommand, henc, hv]

/-- Witness of C22: the proxy for `lerobot1` over the dispatcher with the working double of
`TestClient`, once with an encoder that fails on every map, once with one that succeeds on every
map; with the second, each method returns what the dispatcher answered. -/
theorem C22_encoding_failure_witness :
    rejectAll GoMap.nil = (none, some errEncode)
    ∧ encodeAll GoMap.nil = (some ⟨[]⟩, none)
    ∧ client.StartRecording rejectAll fullClient Context.Background "test-dataset" GoMap.nil
        = ⟨[], .returned "" (some errEncode)⟩
    ∧ (client.StartRecording encodeAll fullClient Context.Background "test-dataset" GoMap.nil).trace
        = [.StartRecording Context.Background
            { Name := "lerobot1"
              DatasetName := "test-dataset"
              Extra := some ⟨[]⟩ }]
    ∧ (client.StartRecording encodeAll fullClient Context.Background "test-dataset" GoMap.nil).outcome
        = .returned "session-123" none
    ∧ client.StopRecording rejectAll fullClient Context.Background "session-123" GoMap.nil
        = ⟨[], .returned Float32.zero (some errEncode)⟩
    ∧ (client.StopRecording encodeAll fullClient Context.Background "session-123" GoMap.nil).trace
        = [.StopRecording Context.Background
            { Name := "lerobot1"
              SessionId := "session-123"
              Extra := some ⟨[]⟩ }]
    ∧ (client.StopRecording encodeAll fullClient Context.Background "session-123" GoMap.nil).outcome
        = .returned ⟨0x42F70000⟩ none
    ∧ client.RecordEpisode rejectAll fullClient Context.Background callRecordEpisodeTagged
        = ⟨[], .returned none (some errEncode)⟩
    ∧ (client.RecordEpisode encodeAll fullClient Context.Background callRecordEpisodeTagged).trace
        = [.RecordEpisode Context.Background
            { Name := "lerobot1"
              DatasetName := "test-dataset"
              EpisodeIndex := 1
              Source := ⟨1⟩
              WarmupTimeS := 2
              EpisodeTimeS := 10
              ResetTimeS := 3
              Fps := 30
              Tags := ["pick", "place"]
              Extra := some ⟨[]⟩ }]
    ∧ (client.RecordEpisode encodeAll fullClient Context.Background callRecordEpisodeTagged).outcome
        = .returned
            (some
              { NumFrames := 100
                ActualDurationS := ⟨0x41280000⟩
                EpisodePath := "/path/to/episode" }) none
    ∧ client.ReplayEpisode rejectAll fullClient Context.Background callReplayEpisode
        = ⟨[], .returned none (some errEncode)⟩
    ∧ (client.ReplayEpisode encodeAll fullClient Context.Background callReplayEpisode).trace
        = [.ReplayEpisode Context.Background
            { Name := "lerobot1"
              DatasetName := "test-dataset"
              EpisodeIndex := 1
              Fps := 30
              Extra := some ⟨[]⟩ }]
    ∧ (client.ReplayEpisode encodeAll fullClient Context.Background callReplayEpisode).outcome
        = .returned (some { NumFramesReplayed := 50, DurationS := ⟨0x40A00000⟩ }) none
    ∧ client.StartTeleoperation rejectAll fullClient Context.Background testStartTeleoperationRequest
        = ⟨[], .returned "" (some errEncode)⟩
    ∧ (client.StartTeleoperation encodeAll fullClient Context.Background testStartTeleoperationRequest).trace
        = [.StartTeleoperation Context.Background
            { Name := "lerobot1"
              TeleopDeviceType := "keyboard"
              Fps := 30
              DisplayCameras := false
              Extra := some ⟨[]⟩ }]
    ∧ (client.StartTeleoperation encodeAll fullClient Context.Background testStartTeleoperationRequest).outcome
        = .returned "teleop-456" none
    ∧ client.StopTeleoperation rejectAll fullClient Context.Background "teleop-456" GoMap.nil
        = ⟨[], .returned Float32.zero (some errEncode)⟩
    ∧ (client.StopTeleoperation encodeAll fullClient Context.Background "teleop-456" GoMap.nil).trace
        = [.StopTeleoperation Context.Background
            { Name := "lerobot1"
              SessionId := "teleop-456"
              Extra := some ⟨[]⟩ }]
    ∧ (client.StopTeleoperation encodeAll fullClient Context.Background "teleop-456" GoMap.nil).outcome
        = .returned ⟨0x42700000⟩ none
    ∧ client.LoadPolicy rejectAll fullClient Context.Background callLoadPolicy
        = ⟨[], .returned none (some errEncode)⟩
    ∧ (client.LoadPolicy encodeAll fullClient Context.Background callLoadPolicy).trace
        = [.LoadPolicy Context.Background
            { Name := "lerobot1"
              PolicyRepoId := "huggingface/lerobot-act"
              Extra := some ⟨[]⟩ }]
    ∧ (client.LoadPolicy encodeAll fullClient Context.Background callLoadPolicy).outcome
        = .returned (some { PolicyID := "policy-789", PolicyType := "act" }) none
    ∧ client.RunPolicyEpisode rejectAll fullClient Context.Background testRunPolicyEpisodeCall
        = ⟨[], .returned none (some errEncode)⟩
    ∧ (client.RunPolicyEpisode encodeAll fullClient Context.Background testRunPolicyEpisodeCall).trace
        = [.RunPolicyEpisode Context.Background
            { Name := "lerobot1"
              PolicyId := "policy-789"
              MaxSteps := 300
              Fps := 30
              RecordToDataset := true
              DatasetName := "eval-dataset"
              EpisodeIndex := 0
              Extra := some ⟨[]⟩ }]
    ∧ (∃ out, (client.RunPolicyEpisode encodeAll fullClient Context.Background testRunPolicyEpisodeCall).outcome = .returned (some out) none
        ∧ out.NumSteps = 200
        ∧ out.DurationS = float20
        ∧ out.EpisodePath = "/path/to/policy/episode")
    ∧ client.DoCommand rejectAll fullClient Context.Background testCommand
        = ⟨[], .returned GoMap.nil (some errEncode)⟩
    ∧ (client.DoCommand encodeAll fullClient Context.Background testCommand).trace
        = [.DoCommand Context.Background
            { Name := "lerobot1"
              Command := some ⟨[("command", Value.str "test")]⟩ }]
    ∧ (client.DoCommand encodeAll fullClient Context.Background testCommand).outcome
        = .returned testCommand none := by
  have hr := C22_encoding_failure_stops_the_call rejectAll fullClient Context.Background
  have ha := C22_encoding_failure_stops_the_call encodeAll fullClient Context.Background
  refine ⟨rfl, rfl, ?_, ?_, ?_, ?_, ?_, ?_, ?_, ?_, ?_, ?_, ?_, ?_, ?_, ?_, ?_, ?_, ?_, ?_, ?_, ?_, ?_, ?_, ?_, ?_, ?_, ?_, ?_⟩
  · exact (hr.1).1 "test-dataset" GoMap.nil none errEncode rfl
  · exact ((ha.1).2 "test-dataset" GoMap.nil (some ⟨[]⟩) _ rfl rfl).1
  · refine ((ha.1).2 "test-dataset" GoMap.nil (some ⟨[]⟩) _ rfl rfl).2.2.1
      { SessionId := "session-123" } ?_
    simp [testClient, fullClient, inProcessStub, deliver, fullServer, newServer,
        NewRPCServiceServer, testColl, testLeRobotName, inject.LeRobotService.asService,
        fullLeRobot, Struct.AsMap, serviceServer.StartRecording, inject.LeRobotService.StartRecording]
  · exact (hr.2.1).1 "session-123" GoMap.nil none errEncode rfl
  · exact ((ha.2.1).2 "session-123" GoMap.nil (some ⟨[]⟩) _ rfl rfl).1
  · refine ((ha.2.1).2 "session-123" GoMap.nil (some ⟨[]⟩) _ rfl rfl).2.2.1
      { DurationS := ⟨0x42F70000⟩ } ?_
    simp [testClient, fullClient, inProcessStub, deliver, fullServer, newServer,
        NewRPCServiceServer, testColl, testLeRobotName, inject.LeRobotService.asService,
        fullLeRobot, Struct.AsMap, serviceServer.StopRecording, inject.LeRobotService.StopRecording]
  · exact (hr.2.2.1).1 callRecordEpisodeTagged none errEncode rfl
  · exact ((ha.2.2.1).2 callRecordEpisodeTagged (some ⟨[]⟩) _ rfl rfl).1
  · refine ((ha.2.2.1).2 callRecordEpisodeTagged (some ⟨[]⟩) _ rfl rfl).2.2.1
      { NumFrames := 100, ActualDurationS := ⟨0x41280000⟩, EpisodePath := "/path/to/episode" } ?_
    simp [testClient, fullClient, inProcessStub, deliver, fullServer, newServer,
        NewRPCServiceServer, testColl, testLeRobotName, inject.LeRobotService.asService,
        fullLeRobot, Struct.AsMap, serviceServer.RecordEpisode, inject.LeRobotService.RecordEpisode]
  · exact (hr.2.2.2.1).1 callReplayEpisode none errEncode rfl
  · exact ((ha.2.2.2.1).2 callReplayEpisode (some ⟨[]⟩) _ rfl rfl).1
  · refine ((ha.2.2.2.1).2 callReplayEpisode (some ⟨[]⟩) _ rfl rfl).2.2.1
      { NumFramesReplayed := 50, DurationS := ⟨0x40A00000⟩ } ?_
    simp [testClient, fullClient, inProcessStub, deliver, fullServer, newServer,
        NewRPCServiceServer, testColl, testLeRobotName, inject.LeRobotService.asService,
        fullLeRobot, Struct.AsMap, serviceServer.ReplayEpisode, inject.LeRobotService.ReplayEpisode]
  · exact (hr.2.2.2.2.1).1 testStartTeleoperationRequest none errEncode rfl
  · exact ((ha.2.2.2.2.1).2 testStartTeleoperationRequest (some ⟨[]⟩) _ rfl rfl).1
  · refine ((ha.2.2.2.2.1).2 testStartTeleoperationRequest (some ⟨[]⟩) _ rfl rfl).2.2.1
      { SessionId := "teleop-456" } ?_
    simp [testClient, fullClient, inProcessStub, deliver, fullServer, newServer,
        NewRPCServiceServer, testColl, testLeRobotName, inject.LeRobotService.asService,
        fullLeRobot, Struct.AsMap, serviceServer.StartTeleoperation, inject.LeRobotService.StartTeleoperation]
  · exact (hr.2.2.2.2.2.1).1 "teleop-456" GoMap.nil none errEncode rfl
  · exact ((ha.2.2.2.2.2.1).2 "teleop-456" GoMap.nil (some ⟨[]⟩) _ rfl rfl).1
  · refine ((ha.2.2.2.2.2.1).2 "teleop-456" GoMap.nil (some ⟨[]⟩) _ rfl rfl).2.2.1
      { DurationS := ⟨0x42700000⟩ } ?_
    simp [testClient, fullClient, inProcessStub, deliver, fullServer, newServer,
        NewRPCServiceServer, testColl, testLeRobotName, inject.LeRobotService.asService,
        fullLeRobot, Struct.AsMap, serviceServer.StopTeleoperation, inject.LeRobotService.StopTeleoperation]
  · exact (hr.2.2.2.2.2.2.1).1 callLoadPolicy none errEncode rfl
  · exact ((ha.2.2.2.2.2.2.1).2 callLoadPolicy (some ⟨[]⟩) _ rfl rfl).1
  · refine ((ha.2.2.2.2.2.2.1).2 callLoadPolicy (some ⟨[]⟩) _ rfl rfl).2.2.1
      { PolicyId := "policy-789", PolicyType := "act" } ?_
    simp [testClient, fullClient, inProcessStub, deliver, fullServer, newServer,
        NewRPCServiceServer, testColl, testLeRobotName, inject.LeRobotService.asService,
        fullLeRobot, Struct.AsMap, serviceServer.LoadPolicy, inject.LeRobotService.LoadPolicy]
  · exact (hr.2.2.2.2.2.2.2.1).1 testRunPolicyEpisodeCall none errEncode rfl
  · exact ((ha.2.2.2.2.2.2.2.1).2 testRunPolicyEpisodeCall (some ⟨[]⟩) _ rfl rfl).1
  · refine ((ha.2.2.2.2.2.2.2.1).2 testRunPolicyEpisodeCall (some ⟨[]⟩) _ rfl rfl).2.2.1
      { NumSteps := 200, DurationS := float20, Success := false, EpisodePath := "/path/to/policy/episode" } ?_
    simp [testClient, fullClient, inProcessStub, deliver, fullServer, newServer,
        NewRPCServiceServer, testColl, testLeRobotName, inject.LeRobotService.asService,
        fullLeRobot, Struct.AsMap, serviceServer.RunPolicyEpisode, inject.LeRobotService.RunPolicyEpisode]
  · exact (hr.2.2.2.2.2.2.2.2).1 testCommand none errEncode rfl
  · exact ((ha.2.2.2.2.2.2.2.2).2 testCommand (some ⟨[("command", Value.str "test")]⟩) _ rfl rfl).1
  · refine ((ha.2.2.2.2.2.2.2.2).2 testCommand (some ⟨[("command", Value.str "test")]⟩) _ rfl rfl).2.2.1
      { Result := some ⟨[("command", Value.str "test")]⟩ } ?_
    simp [testClient, fullClient, inProcessStub, deliver, fullServer, newServer,
        NewRPCServiceServer, testColl, testLeRobotName, inject.LeRobotService.asService,
        fullLeRobot, Struct.AsMap, serviceServer.DoCommand, protoutils.DoFromResourceServer, inject.LeRobotService.DoCommand]

end LeRobot
